import Mathlib

/-!
# pavucontrol: the main window reconciler (`src/mainwindow.cc`)

A shallow embedding of the state-synchronisation core of `mainwindow.cc`:
the priority-ordered set builder used for ports and profiles, the icon
fallback chain, the widget registries with their update/remove operations,
peak dispatch and the deferred visibility pass.

Conventions of the embedding

* `uint32_t` indices and priorities are `Nat`; no arithmetic is performed on
  them in the embedded code, so no wrap-around can occur.
* C strings and `Glib::ustring` values are `String`; a nullable `const char *`
  is `Option String`.
* `std::map<uint32_t, T>` is the list of its (key, value) entries; iteration
  is list order.
* `std::set<T, Compare>` is the list of its elements in iteration order.
* Calls into the widget layer that only record a value (`set_markup`,
  `setVolume`, `updatePeak`, `show`, ...) become writes to a field of the
  widget record.
* Every widget pointer stored in a map is non-null: the code stores only the
  results of the `create` factories.
* What the code asks of the server and of GLib (protocol version, markup
  escaping, whether a stream could be opened) is passed in as an `Env`.
* A `double` is a NaN, an infinity or a rational; the code only stores and
  compares such values.
* An operation without a defined result (undefined behaviour, a failed
  `assert`) returns `none`.
-/

namespace Pavucontrol

/-! ## C strings -/

/-- The sign of the C library `strcmp` on two character sequences: the first
position where they differ decides, a proper prefix is smaller. Characters are
compared by code point, which orders UTF-8 strings as their bytes do. -/
def strcmpAux : List Char → List Char → Int
  | [], [] => 0
  | [], _ :: _ => -1
  | _ :: _, [] => 1
  | a :: as, b :: bs =>
    if a.toNat < b.toNat then -1
    else if b.toNat < a.toNat then 1
    else strcmpAux as bs

/-- The C library `strcmp`, reduced to the sign of its result. -/
def strcmp (a b : String) : Int := strcmpAux a.data b.data

/-! ## Port and profile records (fields read by `mainwindow.cc`) -/

/-- The fields of `pa_card_profile_info` that the main window reads. -/
structure pa_card_profile_info where
  name : String
  description : String
  n_sinks : Nat
  n_sources : Nat
  priority : Nat
  deriving DecidableEq, Repr

/-- The fields of `pa_sink_port_info` that the main window reads. -/
structure pa_sink_port_info where
  name : String
  description : String
  priority : Nat
  deriving DecidableEq, Repr

/-- The fields of `pa_source_port_info` that the main window reads. -/
structure pa_source_port_info where
  name : String
  description : String
  priority : Nat
  deriving DecidableEq, Repr

/-! ## The three comparators (lines 39-67) -/

/-- The comparator `profile_prio_compare::operator()`. -/
def profile_prio_compare (lhs rhs : pa_card_profile_info) : Bool :=
  if lhs.priority = rhs.priority then
    decide (strcmp lhs.name rhs.name > 0)
  else
    decide (lhs.priority > rhs.priority)

/-- The comparator `sink_port_prio_compare::operator()`. -/
def sink_port_prio_compare (lhs rhs : pa_sink_port_info) : Bool :=
  if lhs.priority = rhs.priority then
    decide (strcmp lhs.name rhs.name > 0)
  else
    decide (lhs.priority > rhs.priority)

/-- The comparator `source_port_prio_compare::operator()`. -/
def source_port_prio_compare (lhs rhs : pa_source_port_info) : Bool :=
  if lhs.priority = rhs.priority then
    decide (strcmp lhs.name rhs.name > 0)
  else
    decide (lhs.priority > rhs.priority)

/-! ## `std::set` with a comparator -/

/-- The call `std::set<T, Compare>::insert(x)` on the in-order element sequence:
`x` is placed before the first element it compares less than; it is dropped
when an element equivalent to it (neither less than the other) is already
in the set. -/
def set_insert {α : Type} (comp : α → α → Bool) (x : α) : List α → List α
  | [] => [x]
  | y :: ys =>
    if comp x y then x :: y :: ys
    else if comp y x then y :: set_insert comp x ys
    else y :: ys

/-- The insertion loop `for (i = 0; i < n; ++i) set.insert(items[i])` started
on an empty set; the result is the set's in-order traversal. -/
def set_build {α : Type} (comp : α → α → Bool) (items : List α) : List α :=
  items.foldl (fun s x => set_insert comp x s) []

/-- The profile list stored by `updateCard` (lines 280-289): insertion loop,
then `w->profiles.push_back(pair(i->name, i->description))` in set order. -/
def card_profiles (profiles : List pa_card_profile_info) : List (String × String) :=
  (set_build profile_prio_compare profiles).map (fun i => (i.name, i.description))

/-- The port list stored by `updateSink` (lines 340-347). -/
def sink_ports (ports : List pa_sink_port_info) : List (String × String) :=
  (set_build sink_port_prio_compare ports).map (fun i => (i.name, i.description))

/-- The port list stored by `updateSource` (lines 492-499). -/
def source_ports (ports : List pa_source_port_info) : List (String × String) :=
  (set_build source_port_prio_compare ports).map (fun i => (i.name, i.description))

/-! ## Library constants and small library functions

Values from the PulseAudio client headers (`pulse/def.h`, `pulse/proplist.h`)
and the application header `pavucontrol.h`. -/

/-- The constant `PA_INVALID_INDEX`, which is `(uint32_t) -1`. -/
def PA_INVALID_INDEX : Nat := 4294967295

def PA_PROP_MEDIA_ICON_NAME : String := "media.icon_name"
def PA_PROP_WINDOW_ICON_NAME : String := "window.icon_name"
def PA_PROP_APPLICATION_ICON_NAME : String := "application.icon_name"
def PA_PROP_MEDIA_ROLE : String := "media.role"
def PA_PROP_DEVICE_DESCRIPTION : String := "device.description"
def PA_PROP_DEVICE_ICON_NAME : String := "device.icon_name"
def PA_PROP_APPLICATION_ID : String := "application.id"

def PA_SINK_HARDWARE : Nat := 0x0004
def PA_SINK_DECIBEL_VOLUME : Nat := 0x0020
def PA_SINK_SET_FORMATS : Nat := 0x0100
def PA_SOURCE_HARDWARE : Nat := 0x0004
def PA_SOURCE_NETWORK : Nat := 0x0008
def PA_SOURCE_DECIBEL_VOLUME : Nat := 0x0020
def PA_VOLUME_NORM : Nat := 0x10000

/-- A property list, as the sequence of its (key, value) entries. -/
abbrev pa_proplist := List (String × String)

/-- The lookup `pa_proplist_gets(l, key)`: the value stored under `key`, or NULL. -/
def pa_proplist_gets (l : pa_proplist) (key : String) : Option String :=
  match l with
  | [] => none
  | (k, v) :: rest => if k = key then some v else pa_proplist_gets rest key

/-- Per-channel volumes (`pa_cvolume`). -/
abbrev pa_cvolume := List Nat

/-- A channel map (`pa_channel_map`), as the list of channel positions. -/
abbrev pa_channel_map := List Nat

/-- The function `pa_cvolume_max`: the largest channel volume. -/
def pa_cvolume_max (v : pa_cvolume) : Nat := v.foldl max 0

inductive SinkInputType where
  | SINK_INPUT_ALL | SINK_INPUT_CLIENT | SINK_INPUT_VIRTUAL
  deriving DecidableEq, Repr

inductive SinkType where
  | SINK_ALL | SINK_HARDWARE | SINK_VIRTUAL
  deriving DecidableEq, Repr

inductive SourceOutputType where
  | SOURCE_OUTPUT_ALL | SOURCE_OUTPUT_CLIENT | SOURCE_OUTPUT_VIRTUAL
  deriving DecidableEq, Repr

inductive SourceType where
  | SOURCE_ALL | SOURCE_HARDWARE | SOURCE_VIRTUAL | SOURCE_MONITOR | SOURCE_NO_MONITOR
  deriving DecidableEq, Repr

/-! ## Gtk labels -/

/-- A `Gtk::Label`: its label string and whether it is parsed as markup. -/
structure Label where
  label : String
  use_markup : Bool
  deriving DecidableEq, Repr

/-- The call `Gtk::Label::set_text`: sets the text and turns markup parsing off. -/
def Label.set_text (_l : Label) (s : String) : Label := ⟨s, false⟩

/-- The call `Gtk::Label::set_markup`: sets the text and turns markup parsing on. -/
def Label.set_markup (_l : Label) (s : String) : Label := ⟨s, true⟩

/-- The call `Gtk::Label::set_label`: sets the text, keeps the markup mode. -/
def Label.set_label (l : Label) (s : String) : Label := ⟨s, l.use_markup⟩

/-! ## `std::map<uint32_t, T>` -/

/-- A `std::map<uint32_t, T>` as the list of its entries in iteration order. -/
abbrev IndexMap (T : Type) := List (Nat × T)

namespace IndexMap

variable {T : Type}

/-- The call `m.count(k)`, as a truth value (`count` is 0 or 1 for a map). -/
def count (m : IndexMap T) (k : Nat) : Bool := m.any (fun e => e.1 == k)

/-- The value under `k` when `k` is a key (`m[k]` after `m.count(k)` succeeded). -/
def get (m : IndexMap T) (k : Nat) : Option T :=
  match m with
  | [] => none
  | (k', v) :: rest => if k' = k then some v else get rest k

/-- The statement `m[k] = v`: overwrite the entry under `k`, or insert one at
its place in key order. -/
def assign (m : IndexMap T) (k : Nat) (v : T) : IndexMap T :=
  match m with
  | [] => [(k, v)]
  | (k', v') :: rest =>
    if k < k' then (k, v) :: (k', v') :: rest
    else if k = k' then (k, v) :: rest
    else (k', v') :: assign rest k v

/-- The expression `m[k]` evaluated for its side effect: a missing key is
inserted with the value-initialised element `d`. -/
def touch (m : IndexMap T) (k : Nat) (d : T) : IndexMap T :=
  if m.count k then m else m.assign k d

/-- The call `m.erase(k)`. -/
def erase (m : IndexMap T) (k : Nat) : IndexMap T := m.filter (fun e => e.1 != k)

/-- The call `m.size()`. -/
def size (m : IndexMap T) : Nat := m.length

/-- The keys in iteration order. -/
def keys (m : IndexMap T) : List Nat := m.map Prod.fst

/-- Apply `f` to every value, as a loop over the map that updates each
element through its pointer. -/
def mapValues (f : T → T) (m : IndexMap T) : IndexMap T := m.map (fun e => (e.1, f e.2))

end IndexMap

/-! ## Server snapshots (the fields `mainwindow.cc` reads) -/

structure pa_card_info where
  index : Nat
  name : String
  proplist : pa_proplist
  profiles : List pa_card_profile_info
  active_profile : Option pa_card_profile_info
  deriving DecidableEq, Repr

structure pa_sink_info where
  index : Nat
  name : String
  description : String
  channel_map : pa_channel_map
  flags : Nat
  monitor_source : Nat
  base_volume : Nat
  card : Nat
  proplist : pa_proplist
  volume : pa_cvolume
  mute : Bool
  ports : List pa_sink_port_info
  active_port : Option pa_sink_port_info
  deriving DecidableEq, Repr

structure pa_source_info where
  index : Nat
  name : String
  description : String
  channel_map : pa_channel_map
  flags : Nat
  monitor_of_sink : Nat
  base_volume : Nat
  card : Nat
  proplist : pa_proplist
  volume : pa_cvolume
  mute : Bool
  ports : List pa_source_port_info
  active_port : Option pa_source_port_info
  deriving DecidableEq, Repr

structure pa_sink_input_info where
  index : Nat
  name : String
  client : Nat
  sink : Nat
  channel_map : pa_channel_map
  proplist : pa_proplist
  volume : pa_cvolume
  mute : Bool
  deriving DecidableEq, Repr

structure pa_source_output_info where
  index : Nat
  name : String
  client : Nat
  source : Nat
  channel_map : pa_channel_map
  proplist : pa_proplist
  volume : pa_cvolume
  mute : Bool
  deriving DecidableEq, Repr

structure pa_client_info where
  index : Nat
  name : String
  deriving DecidableEq, Repr

structure pa_server_info where
  default_sink_name : Option String
  default_source_name : Option String
  deriving DecidableEq, Repr

structure pa_ext_stream_restore_info where
  name : String
  device : Option String
  volume : pa_cvolume
  mute : Bool
  deriving DecidableEq, Repr

/-- A monitoring stream connected by `createMonitorStreamForSource`: the source
it records from, the sink input it isolates (`PA_INVALID_INDEX` when none) and
whether it was opened with `PA_STREAM_DONT_INHIBIT_AUTO_SUSPEND`. -/
structure pa_stream where
  device_index : Nat
  monitor_stream : Nat
  dont_inhibit_auto_suspend : Bool
  deriving DecidableEq, Repr

/-! ## C `double` values

The code only assigns and compares the peak values it handles, so a `double`
is a NaN, an infinity or a finite number; the finite ones are rationals. -/

/-- A C `double`, as far as values are only stored and compared. -/
inductive c_double where
  | nan
  | neg_inf
  | pos_inf
  | finite (q : Rat)
  deriving DecidableEq, Repr

/-- The comparison `a < b` on `double` values: false as soon as one side is a NaN. -/
def c_double.lt : c_double → c_double → Bool
  | .nan, _ => false
  | _, .nan => false
  | .neg_inf, .neg_inf => false
  | .neg_inf, _ => true
  | _, .neg_inf => false
  | .pos_inf, _ => false
  | .finite _, .pos_inf => true
  | .finite a, .finite b => decide (a < b)

/-! ## Widgets

Each record holds the state of one widget that `mainwindow.cc` writes or
reads. `peaks` is the sequence of values handed to the widget's
`updatePeak`, most recent first. `guardLog` records, for every write of the
volume, the mute state or the default flag, the value `updating` had at that
moment (most recent first). -/

structure CardWidget where
  index : Nat
  updating : Bool
  name : String
  nameLabel : Label
  iconImage : String
  hasSinks : Bool
  hasSources : Bool
  profiles : List (String × String)
  activeProfile : String
  visible : Bool
  deriving DecidableEq, Repr

structure SinkWidget where
  index : Nat
  monitor_index : Nat
  channelMap : pa_channel_map
  can_decibel : Bool
  baseVolume : Nat
  updating : Bool
  card_index : Nat
  name : String
  description : String
  type : SinkType
  boldNameLabel : Label
  nameLabel : Label
  iconImage : String
  volume : pa_cvolume
  mute : Bool
  isDefault : Bool
  ports : List (String × String)
  activePort : String
  digital : Bool
  peaks : List c_double
  guardLog : List Bool
  visible : Bool
  deriving DecidableEq, Repr

structure SourceWidget where
  index : Nat
  channelMap : pa_channel_map
  can_decibel : Bool
  baseVolume : Nat
  updating : Bool
  card_index : Nat
  name : String
  description : String
  type : SourceType
  boldNameLabel : Label
  nameLabel : Label
  iconImage : String
  volume : pa_cvolume
  mute : Bool
  isDefault : Bool
  ports : List (String × String)
  activePort : String
  peaks : List c_double
  guardLog : List Bool
  visible : Bool
  deriving DecidableEq, Repr

structure SinkInputWidget where
  index : Nat
  clientIndex : Nat
  channelMap : pa_channel_map
  can_decibel : Bool
  updating : Bool
  type : SinkInputType
  sinkIndex : Nat
  peak : Option pa_stream
  boldNameLabel : Label
  nameLabel : Label
  iconImage : String
  volume : pa_cvolume
  mute : Bool
  peaks : List c_double
  guardLog : List Bool
  visible : Bool
  directionLabel : Bool
  deviceButton : Bool
  deriving DecidableEq, Repr

structure SourceOutputWidget where
  index : Nat
  clientIndex : Nat
  channelMap : pa_channel_map
  can_decibel : Bool
  updating : Bool
  type : SourceOutputType
  sourceIndex : Nat
  boldNameLabel : Label
  nameLabel : Label
  iconImage : String
  volume : pa_cvolume
  mute : Bool
  peaks : List c_double
  guardLog : List Bool
  visible : Bool
  directionLabel : Bool
  deviceButton : Bool
  deriving DecidableEq, Repr

structure RoleWidget where
  role : String
  channelMap : pa_channel_map
  can_decibel : Bool
  boldNameLabel : Label
  nameLabel : Label
  iconImage : String
  device : String
  updating : Bool
  volume : pa_cvolume
  mute : Bool
  guardLog : List Bool
  deriving DecidableEq, Repr

/-- The factory `CardWidget::create()`: a widget none of whose fields has been
written by the main window yet. -/
def CardWidget.create : CardWidget :=
  { index := 0, updating := false, name := "", nameLabel := ⟨"", false⟩, iconImage := "",
    hasSinks := false, hasSources := false, profiles := [], activeProfile := "",
    visible := false }

/-- The factory `SinkWidget::create(this)`. -/
def SinkWidget.create : SinkWidget :=
  { index := 0, monitor_index := 0, channelMap := [], can_decibel := false, baseVolume := 0,
    updating := false, card_index := 0, name := "", description := "",
    type := SinkType.SINK_ALL, boldNameLabel := ⟨"", false⟩, nameLabel := ⟨"", false⟩,
    iconImage := "", volume := [], mute := false, isDefault := false, ports := [],
    activePort := "", digital := false, peaks := [], guardLog := [], visible := false }

/-- The factory `SourceWidget::create(this)`. -/
def SourceWidget.create : SourceWidget :=
  { index := 0, channelMap := [], can_decibel := false, baseVolume := 0,
    updating := false, card_index := 0, name := "", description := "",
    type := SourceType.SOURCE_ALL, boldNameLabel := ⟨"", false⟩, nameLabel := ⟨"", false⟩,
    iconImage := "", volume := [], mute := false, isDefault := false, ports := [],
    activePort := "", peaks := [], guardLog := [], visible := false }

/-- The factory `SinkInputWidget::create(this)`; the peak stream starts as NULL. -/
def SinkInputWidget.create : SinkInputWidget :=
  { index := 0, clientIndex := 0, channelMap := [], can_decibel := false, updating := false,
    type := SinkInputType.SINK_INPUT_ALL, sinkIndex := 0, peak := none,
    boldNameLabel := ⟨"", false⟩, nameLabel := ⟨"", false⟩, iconImage := "", volume := [],
    mute := false, peaks := [], guardLog := [], visible := false, directionLabel := false,
    deviceButton := false }

/-- The factory `SourceOutputWidget::create(this)`. -/
def SourceOutputWidget.create : SourceOutputWidget :=
  { index := 0, clientIndex := 0, channelMap := [], can_decibel := false, updating := false,
    type := SourceOutputType.SOURCE_OUTPUT_ALL, sourceIndex := 0,
    boldNameLabel := ⟨"", false⟩, nameLabel := ⟨"", false⟩, iconImage := "", volume := [],
    mute := false, peaks := [], guardLog := [], visible := false, directionLabel := false,
    deviceButton := false }

/-- The factory `RoleWidget::create()`. -/
def RoleWidget.create : RoleWidget :=
  { role := "", channelMap := [], can_decibel := false, boldNameLabel := ⟨"", false⟩,
    nameLabel := ⟨"", false⟩, iconImage := "", device := "", updating := false,
    volume := [], mute := false, guardLog := [] }

/-- The method `SinkWidget::setVolume(v)`. -/
def SinkWidget.setVolume (w : SinkWidget) (v : pa_cvolume) : SinkWidget :=
  { w with volume := v, guardLog := w.updating :: w.guardLog }

/-- The call `muteToggleButton->set_active(m)` on a sink widget. -/
def SinkWidget.setMute (w : SinkWidget) (m : Bool) : SinkWidget :=
  { w with mute := m, guardLog := w.updating :: w.guardLog }

/-- The method `SinkWidget::setDefault(d)`. -/
def SinkWidget.setDefault (w : SinkWidget) (d : Bool) : SinkWidget :=
  { w with isDefault := d, guardLog := w.updating :: w.guardLog }

/-- The method `SourceWidget::setVolume(v)`. -/
def SourceWidget.setVolume (w : SourceWidget) (v : pa_cvolume) : SourceWidget :=
  { w with volume := v, guardLog := w.updating :: w.guardLog }

/-- The call `muteToggleButton->set_active(m)` on a source widget. -/
def SourceWidget.setMute (w : SourceWidget) (m : Bool) : SourceWidget :=
  { w with mute := m, guardLog := w.updating :: w.guardLog }

/-- The method `SourceWidget::setDefault(d)`. -/
def SourceWidget.setDefault (w : SourceWidget) (d : Bool) : SourceWidget :=
  { w with isDefault := d, guardLog := w.updating :: w.guardLog }

/-- The method `SinkInputWidget::setVolume(v)`. -/
def SinkInputWidget.setVolume (w : SinkInputWidget) (v : pa_cvolume) : SinkInputWidget :=
  { w with volume := v, guardLog := w.updating :: w.guardLog }

/-- The call `muteToggleButton->set_active(m)` on a sink-input widget. -/
def SinkInputWidget.setMute (w : SinkInputWidget) (m : Bool) : SinkInputWidget :=
  { w with mute := m, guardLog := w.updating :: w.guardLog }

/-- The method `SourceOutputWidget::setVolume(v)`. -/
def SourceOutputWidget.setVolume (w : SourceOutputWidget) (v : pa_cvolume) :
    SourceOutputWidget :=
  { w with volume := v, guardLog := w.updating :: w.guardLog }

/-- The call `muteToggleButton->set_active(m)` on a source-output widget. -/
def SourceOutputWidget.setMute (w : SourceOutputWidget) (m : Bool) : SourceOutputWidget :=
  { w with mute := m, guardLog := w.updating :: w.guardLog }

/-- The method `RoleWidget::setVolume(v)`. -/
def RoleWidget.setVolume (w : RoleWidget) (v : pa_cvolume) : RoleWidget :=
  { w with volume := v, guardLog := w.updating :: w.guardLog }

/-- The call `muteToggleButton->set_active(m)` on the role widget. -/
def RoleWidget.setMute (w : RoleWidget) (m : Bool) : RoleWidget :=
  { w with mute := m, guardLog := w.updating :: w.guardLog }

/-- The method `SinkWidget::updatePeak(v)`, as the value reaching the widget. -/
def SinkWidget.updatePeak (w : SinkWidget) (v : c_double) : SinkWidget :=
  { w with peaks := v :: w.peaks }

/-- The method `SourceWidget::updatePeak(v)`, as the value reaching the widget. -/
def SourceWidget.updatePeak (w : SourceWidget) (v : c_double) : SourceWidget :=
  { w with peaks := v :: w.peaks }

/-- The method `SinkInputWidget::updatePeak(v)`, as the value reaching the widget. -/
def SinkInputWidget.updatePeak (w : SinkInputWidget) (v : c_double) : SinkInputWidget :=
  { w with peaks := v :: w.peaks }

/-- The method `SourceOutputWidget::updatePeak(v)`, as the value reaching the widget. -/
def SourceOutputWidget.updatePeak (w : SourceOutputWidget) (v : c_double) : SourceOutputWidget :=
  { w with peaks := v :: w.peaks }

/-! ## The main window -/

/-- What the main window is built and run against: the server's protocol
version, GLib's markup escaping (`%s` of `g_markup_printf_escaped`), whether
creating and connecting a monitoring stream succeed, and the two compile-time
switches. -/
structure Env where
  protocol_version : Nat
  escape : String → String
  stream_new_ok : Bool
  connect_record_ok : Bool
  HAVE_SOURCE_OUTPUT_VOLUMES : Bool
  HAVE_SINK_SET_FORMATS : Bool

/-- The state of `MainWindow` together with the file-level `idle_source`, and
the part of the outside world its operations act on: the idle sources attached
to the GLib main context (`idleSources`, with `lastSourceId` the id GLib handed
out last), the monitoring streams currently connected (`streams`), the messages
passed to `show_error` (`errors`) and the number of
`reallyUpdateDeviceVisibility` passes executed so far (`passes`). -/
structure MainWindow where
  cardWidgets : IndexMap CardWidget
  sinkWidgets : IndexMap SinkWidget
  sourceWidgets : IndexMap SourceWidget
  sinkInputWidgets : IndexMap SinkInputWidget
  sourceOutputWidgets : IndexMap SourceOutputWidget
  clientNames : IndexMap (Option String)
  eventRoleWidget : Option RoleWidget
  defaultSinkName : String
  defaultSourceName : String
  showSinkInputType : SinkInputType
  showSinkType : SinkType
  showSourceOutputType : SourceOutputType
  showSourceType : SourceType
  noCardsLabel : Bool
  noStreamsLabel : Bool
  noRecsLabel : Bool
  noSinksLabel : Bool
  noSourcesLabel : Bool
  idle_source : Nat
  idleSources : List Nat
  lastSourceId : Nat
  streams : List pa_stream
  errors : List String
  passes : Nat
  deriving DecidableEq, Repr

/-- The window as the constructor leaves it (lines 69-78), with no idle source
attached and no stream connected. -/
def MainWindow.init : MainWindow :=
  { cardWidgets := [], sinkWidgets := [], sourceWidgets := [], sinkInputWidgets := [],
    sourceOutputWidgets := [], clientNames := [], eventRoleWidget := none,
    defaultSinkName := "", defaultSourceName := "",
    showSinkInputType := SinkInputType.SINK_INPUT_CLIENT,
    showSinkType := SinkType.SINK_ALL,
    showSourceOutputType := SourceOutputType.SOURCE_OUTPUT_CLIENT,
    showSourceType := SourceType.SOURCE_NO_MONITOR,
    noCardsLabel := false, noStreamsLabel := false, noRecsLabel := false,
    noSinksLabel := false, noSourcesLabel := false,
    idle_source := 0, idleSources := [], lastSourceId := 0,
    streams := [], errors := [], passes := 0 }

/-! ## The deferred visibility pass (lines 846-991) -/

/-- The method `MainWindow::reallyUpdateDeviceVisibility` (lines 875-991). Each loop over a
widget map becomes a `mapValues` for the show/hide writes and a fold for
`is_empty`. The closing hide/show of the five boxes leaves them shown and is
not part of the state. `passes` counts the executions. -/
def reallyUpdateDeviceVisibility (s : MainWindow) : MainWindow :=
  let sinkInputWidgets := s.sinkInputWidgets.mapValues (fun w =>
    let w := if s.sinkWidgets.size > 1
      then { w with directionLabel := true, deviceButton := true }
      else { w with directionLabel := false, deviceButton := false }
    if s.showSinkInputType = SinkInputType.SINK_INPUT_ALL ∨ w.type = s.showSinkInputType
      then { w with visible := true } else { w with visible := false })
  let is_empty := s.sinkInputWidgets.foldl (fun e w =>
    if s.showSinkInputType = SinkInputType.SINK_INPUT_ALL ∨ w.2.type = s.showSinkInputType
      then false else e) true
  let is_empty := if s.eventRoleWidget.isSome then false else is_empty
  let noStreamsLabel := if is_empty then true else false
  let sourceOutputWidgets := s.sourceOutputWidgets.mapValues (fun w =>
    let w := if s.sourceWidgets.size > 1
      then { w with directionLabel := true, deviceButton := true }
      else { w with directionLabel := false, deviceButton := false }
    if s.showSourceOutputType = SourceOutputType.SOURCE_OUTPUT_ALL
        ∨ w.type = s.showSourceOutputType
      then { w with visible := true } else { w with visible := false })
  let is_empty := s.sourceOutputWidgets.foldl (fun e w =>
    if s.showSourceOutputType = SourceOutputType.SOURCE_OUTPUT_ALL
        ∨ w.2.type = s.showSourceOutputType
      then false else e) true
  let noRecsLabel := if is_empty then true else false
  let sinkWidgets := s.sinkWidgets.mapValues (fun w =>
    if s.showSinkType = SinkType.SINK_ALL ∨ w.type = s.showSinkType
      then { w with visible := true } else { w with visible := false })
  let is_empty := s.sinkWidgets.foldl (fun e w =>
    if s.showSinkType = SinkType.SINK_ALL ∨ w.2.type = s.showSinkType
      then false else e) true
  let noSinksLabel := if is_empty then true else false
  let cardWidgets := s.cardWidgets.mapValues (fun w => { w with visible := true })
  let is_empty := s.cardWidgets.foldl (fun _ _ => false) true
  let noCardsLabel := if is_empty then true else false
  let sourceWidgets := s.sourceWidgets.mapValues (fun w =>
    if s.showSourceType = SourceType.SOURCE_ALL ∨ w.type = s.showSourceType ∨
        (s.showSourceType = SourceType.SOURCE_NO_MONITOR ∧ w.type ≠ SourceType.SOURCE_MONITOR)
      then { w with visible := true } else { w with visible := false })
  let is_empty := s.sourceWidgets.foldl (fun e w =>
    if s.showSourceType = SourceType.SOURCE_ALL ∨ w.2.type = s.showSourceType ∨
        (s.showSourceType = SourceType.SOURCE_NO_MONITOR ∧ w.2.type ≠ SourceType.SOURCE_MONITOR)
      then false else e) true
  let noSourcesLabel := if is_empty then true else false
  { s with
    sinkInputWidgets := sinkInputWidgets, noStreamsLabel := noStreamsLabel,
    sourceOutputWidgets := sourceOutputWidgets, noRecsLabel := noRecsLabel,
    sinkWidgets := sinkWidgets, noSinksLabel := noSinksLabel,
    cardWidgets := cardWidgets, noCardsLabel := noCardsLabel,
    sourceWidgets := sourceWidgets, noSourcesLabel := noSourcesLabel,
    passes := s.passes + 1 }

/-- The callback `idle_cb` (lines 848-852): run the pass, then clear `idle_source`. It
returns FALSE, which is what `dispatch_idle` acts on. -/
def idle_cb (s : MainWindow) : MainWindow :=
  { reallyUpdateDeviceVisibility s with idle_source := 0 }

/-- The call `g_idle_add(idle_cb, this)`: attaches a new idle source and returns its id,
which GLib documents as greater than 0. -/
def g_idle_add (s : MainWindow) : MainWindow × Nat :=
  let id := s.lastSourceId + 1
  ({ s with lastSourceId := id, idleSources := s.idleSources ++ [id] }, id)

/-- The method `MainWindow::updateDeviceVisibility` (lines 867-873). -/
def updateDeviceVisibility (s : MainWindow) : MainWindow :=
  if s.idle_source ≠ 0 then s
  else
    let (s1, id) := g_idle_add s
    { s1 with idle_source := id }

/-- The GLib main loop dispatching the idle source `id`: `idle_cb` runs and,
because it returns FALSE, the source is removed. -/
def dispatch_idle (s : MainWindow) (id : Nat) : MainWindow :=
  if id ∈ s.idleSources then
    let s1 := idle_cb s
    { s1 with idleSources := s1.idleSources.erase id }
  else s

/-- The scheduler running: every idle source attached at that moment is
dispatched, oldest first. -/
def run_idle (s : MainWindow) : MainWindow :=
  s.idleSources.foldl dispatch_idle s

/-! ## Icons (lines 514-553) -/

/-- The method `MainWindow::setIconFromProplist`, as the icon name it hands to
`set_icon_name_fallback`. -/
def setIconFromProplist (l : pa_proplist) (dflt : String) : String :=
  match pa_proplist_gets l PA_PROP_MEDIA_ICON_NAME with
  | some t => t
  | none =>
  match pa_proplist_gets l PA_PROP_WINDOW_ICON_NAME with
  | some t => t
  | none =>
  match pa_proplist_gets l PA_PROP_APPLICATION_ICON_NAME with
  | some t => t
  | none =>
  match pa_proplist_gets l PA_PROP_MEDIA_ROLE with
  | some t =>
    if strcmp t "video" = 0 ∨ strcmp t "phone" = 0 then t
    else if strcmp t "music" = 0 then "audio"
    else if strcmp t "game" = 0 then "applications-games"
    else if strcmp t "event" = 0 then "dialog-information"
    else dflt
  | none => dflt

/-- The function `show_error`, as far as the main window is concerned: the message is
reported. -/
def show_error (s : MainWindow) (msg : String) : MainWindow :=
  { s with errors := s.errors ++ [msg] }

/-- The method `MainWindow::createMonitorStreamForSource` (lines 400-437): the stream
connected, or NULL after reporting an error. -/
def createMonitorStreamForSource (env : Env) (s : MainWindow)
    (source_idx : Nat) (stream_idx : Nat) (suspend : Bool) : MainWindow × Option pa_stream :=
  if !env.stream_new_ok then
    (show_error s "Failed to create monitoring stream", none)
  else
    let st : pa_stream := { device_index := source_idx, monitor_stream := PA_INVALID_INDEX,
                            dont_inhibit_auto_suspend := suspend }
    let st := if stream_idx ≠ PA_INVALID_INDEX
      then { st with monitor_stream := stream_idx } else st
    if !env.connect_record_ok then
      (show_error s "Failed to connect monitoring stream", none)
    else
      ({ s with streams := s.streams ++ [st] }, some st)

/-- The method `MainWindow::createMonitorStreamForSinkInput` (lines 439-449), returning
the widget as it leaves it. -/
def createMonitorStreamForSinkInput (env : Env) (s : MainWindow)
    (w : SinkInputWidget) (sink_idx : Nat) : MainWindow × SinkInputWidget :=
  match s.sinkWidgets.get sink_idx with
  | none => (s, w)
  | some sw =>
    let r : MainWindow × SinkInputWidget :=
      match w.peak with
      | some p => ({ s with streams := s.streams.erase p }, { w with peak := none })
      | none => (s, w)
    let c := createMonitorStreamForSource env r.1 sw.monitor_index w.index false
    (c.1, { r.2 with peak := c.2 })

/-! ## Cards, sinks and sources (lines 255-366, 451-512) -/

/-- Lines 270-293 of `updateCard`: the writes of the snapshot to the widget `w`,
between raising and clearing `updating`. -/
def updateCard_fields (info : pa_card_info) (w : CardWidget) : CardWidget :=
  let w := { w with updating := true }
  let description := pa_proplist_gets info.proplist PA_PROP_DEVICE_DESCRIPTION
  let w := { w with name := description.getD info.name }
  let w := { w with nameLabel := w.nameLabel.set_markup w.name }
  let icon := pa_proplist_gets info.proplist PA_PROP_DEVICE_ICON_NAME
  let w := { w with iconImage := icon.getD "audio-card" }
  let w := { w with hasSinks := false, hasSources := false }
  let w := info.profiles.foldl (fun w p =>
    { w with hasSinks := w.hasSinks || decide (p.n_sinks > 0),
             hasSources := w.hasSources || decide (p.n_sources > 0) }) w
  let w := { w with profiles := card_profiles info.profiles }
  let w := { w with activeProfile :=
    match info.active_profile with
    | some p => p.name
    | none => "" }
  { w with updating := false }

/-- The method `MainWindow::updateCard` (lines 255-299). `prepareMenu` rebuilds
the widget's combo box from `profiles` and `activeProfile` and writes nothing
the main window reads. -/
def updateCard (s : MainWindow) (info : pa_card_info) : MainWindow :=
  let r : CardWidget × Bool :=
    match s.cardWidgets.get info.index with
    | some w => (w, false)
    | none => ({ CardWidget.create with index := info.index }, true)
  let w := updateCard_fields info r.1
  let s1 := { s with cardWidgets := s.cardWidgets.assign info.index w }
  if r.2 then updateDeviceVisibility s1 else s1

/-- Lines 310-317 of `updateSink`: the widget created for a new index. -/
def updateSink_create (info : pa_sink_info) : SinkWidget :=
  { SinkWidget.create with
    channelMap := info.channel_map,
    can_decibel := decide (info.flags &&& PA_SINK_DECIBEL_VOLUME ≠ 0),
    index := info.index,
    monitor_index := info.monitor_source,
    baseVolume := info.base_volume }

/-- Lines 320-358 of `updateSink`: the writes of the snapshot to the widget `w`.
`updateOffsetButton` rebuilds a control inside the widget and writes nothing
the main window reads. -/
def updateSink_fields (env : Env) (s : MainWindow) (info : pa_sink_info)
    (w : SinkWidget) : SinkWidget :=
  let w := { w with updating := true }
  let w := { w with card_index := info.card, name := info.name,
                    description := info.description }
  let w := { w with type :=
    if info.flags &&& PA_SINK_HARDWARE ≠ 0 then SinkType.SINK_HARDWARE
    else SinkType.SINK_VIRTUAL }
  let w := { w with boldNameLabel := w.boldNameLabel.set_text "" }
  let w := { w with nameLabel := w.nameLabel.set_markup (env.escape info.description) }
  let icon := pa_proplist_gets info.proplist PA_PROP_DEVICE_ICON_NAME
  let w := { w with iconImage := icon.getD "audio-card" }
  let w := w.setVolume info.volume
  let w := w.setMute info.mute
  let w := w.setDefault (decide (w.name = s.defaultSinkName))
  let w := { w with ports := sink_ports info.ports }
  let w := { w with activePort :=
    match info.active_port with
    | some p => p.name
    | none => "" }
  let w := if env.HAVE_SINK_SET_FORMATS
    then { w with digital := decide (info.flags &&& PA_SINK_SET_FORMATS ≠ 0) } else w
  { w with updating := false }

/-- The method `MainWindow::updateSink` (lines 301-366), with its return value. -/
def updateSink (env : Env) (s : MainWindow) (info : pa_sink_info) : MainWindow × Bool :=
  let r : SinkWidget × Bool :=
    match s.sinkWidgets.get info.index with
    | some w => (w, false)
    | none => (updateSink_create info, true)
  let w := updateSink_fields env s info r.1
  let s1 := { s with sinkWidgets := s.sinkWidgets.assign info.index w }
  (if r.2 then updateDeviceVisibility s1 else s1, r.2)

/-- Lines 460-469 of `updateSource`: the widget created for a new index, and
the monitoring stream opened for it when the server is recent enough. -/
def updateSource_create (env : Env) (s : MainWindow) (info : pa_source_info) :
    MainWindow × SourceWidget :=
  let w := { SourceWidget.create with
    channelMap := info.channel_map,
    can_decibel := decide (info.flags &&& PA_SOURCE_DECIBEL_VOLUME ≠ 0),
    index := info.index,
    baseVolume := info.base_volume }
  let s0 := if env.protocol_version ≥ 13
    then (createMonitorStreamForSource env s info.index PA_INVALID_INDEX
            (decide (info.flags &&& PA_SOURCE_NETWORK ≠ 0))).1
    else s
  (s0, w)

/-- Lines 472-506 of `updateSource`: the writes of the snapshot to the widget `w`. -/
def updateSource_fields (env : Env) (s : MainWindow) (info : pa_source_info)
    (w : SourceWidget) : SourceWidget :=
  let w := { w with updating := true }
  let w := { w with card_index := info.card, name := info.name,
                    description := info.description }
  let w := { w with type :=
    if info.monitor_of_sink ≠ PA_INVALID_INDEX then SourceType.SOURCE_MONITOR
    else if info.flags &&& PA_SOURCE_HARDWARE ≠ 0 then SourceType.SOURCE_HARDWARE
    else SourceType.SOURCE_VIRTUAL }
  let w := { w with boldNameLabel := w.boldNameLabel.set_text "" }
  let w := { w with nameLabel := w.nameLabel.set_markup (env.escape info.description) }
  let icon := pa_proplist_gets info.proplist PA_PROP_DEVICE_ICON_NAME
  let w := { w with iconImage := icon.getD "audio-input-microphone" }
  let w := w.setVolume info.volume
  let w := w.setMute info.mute
  let w := w.setDefault (decide (w.name = s.defaultSourceName))
  let w := { w with ports := source_ports info.ports }
  let w := { w with activePort :=
    match info.active_port with
    | some p => p.name
    | none => "" }
  { w with updating := false }

/-- The method `MainWindow::updateSource` (lines 451-512). -/
def updateSource (env : Env) (s : MainWindow) (info : pa_source_info) : MainWindow :=
  let r : (MainWindow × SourceWidget) × Bool :=
    match s.sourceWidgets.get info.index with
    | some w => ((s, w), false)
    | none => (updateSource_create env s info, true)
  let s0 := r.1.1
  let w := updateSource_fields env s0 info r.1.2
  let s1 := { s0 with sourceWidgets := s0.sourceWidgets.assign info.index w }
  if r.2 then updateDeviceVisibility s1 else s1

/-! ## Streams, clients and the server (lines 555-777) -/

/-- Lines 560-565 of `updateSinkInput`: whether the snapshot is the event-role
stream, which the Event widget handles. -/
def updateSinkInput_ignored (info : pa_sink_input_info) : Bool :=
  match pa_proplist_gets info.proplist "module-stream-restore.id" with
  | some t => decide (strcmp t "sink-input-by-media-role:event" = 0)
  | none => false

/-- Lines 567-582 of `updateSinkInput`: the widget registered under the index,
or a new one, with its monitoring stream (re)opened where the code does so;
the flag is `is_new`. -/
def updateSinkInput_lookup (env : Env) (s : MainWindow) (info : pa_sink_input_info) :
    (MainWindow × SinkInputWidget) × Bool :=
  match s.sinkInputWidgets.get info.index with
  | some w =>
    if env.protocol_version ≥ 13 ∧ w.sinkIndex ≠ info.sink then
      (createMonitorStreamForSinkInput env s w info.sink, false)
    else ((s, w), false)
  | none =>
    let w := { SinkInputWidget.create with
        channelMap := info.channel_map, can_decibel := true,
        index := info.index, clientIndex := info.client }
    if env.protocol_version ≥ 13 then
      (createMonitorStreamForSinkInput env s w info.sink, true)
    else ((s, w), true)

/-- Lines 584-606 of `updateSinkInput`: the writes of the snapshot to the widget `w`. -/
def updateSinkInput_fields (env : Env) (s : MainWindow) (info : pa_sink_input_info)
    (w : SinkInputWidget) : SinkInputWidget :=
  let w := { w with updating := true }
  let w := { w with type :=
    if info.client ≠ PA_INVALID_INDEX then SinkInputType.SINK_INPUT_CLIENT
    else SinkInputType.SINK_INPUT_VIRTUAL }
  let w := { w with sinkIndex := info.sink }
  let w :=
    match s.clientNames.get info.client with
    | some n =>
      { w with
        boldNameLabel :=
          w.boldNameLabel.set_markup ("<b>" ++ env.escape (n.getD "(null)") ++ "</b>"),
        nameLabel := w.nameLabel.set_markup (": " ++ env.escape info.name) }
    | none =>
      { w with
        boldNameLabel := w.boldNameLabel.set_text "",
        nameLabel := w.nameLabel.set_label info.name }
  let w := { w with iconImage := setIconFromProplist info.proplist "audio-card" }
  let w := w.setVolume info.volume
  let w := w.setMute info.mute
  { w with updating := false }

/-- The method `MainWindow::updateSinkInput` (lines 555-610). -/
def updateSinkInput (env : Env) (s : MainWindow) (info : pa_sink_input_info) : MainWindow :=
  if updateSinkInput_ignored info then s
  else
    let r := updateSinkInput_lookup env s info
    let s0 := r.1.1
    let w := updateSinkInput_fields env s0 info r.1.2
    let s1 := { s0 with sinkInputWidgets := s0.sinkInputWidgets.assign info.index w }
    if r.2 then updateDeviceVisibility s1 else s1

/-- Lines 617-619 of `updateSourceOutput`: whether the snapshot is one of this
application's own streams. -/
def updateSourceOutput_ignored (info : pa_source_output_info) : Bool :=
  match pa_proplist_gets info.proplist PA_PROP_APPLICATION_ID with
  | some app => decide (strcmp app "org.PulseAudio.pavucontrol" = 0)
  | none => false

/-- Lines 624-631 of `updateSourceOutput`: the widget created for a new index. -/
def updateSourceOutput_create (env : Env) (info : pa_source_output_info) :
    SourceOutputWidget :=
  let w := SourceOutputWidget.create
  let w := if env.HAVE_SOURCE_OUTPUT_VOLUMES
    then { w with channelMap := info.channel_map, can_decibel := true } else w
  { w with index := info.index, clientIndex := info.client }

/-- Lines 634-658 of `updateSourceOutput`: the writes of the snapshot to the
widget `w`. -/
def updateSourceOutput_fields (env : Env) (s : MainWindow) (info : pa_source_output_info)
    (w : SourceOutputWidget) : SourceOutputWidget :=
  let w := { w with updating := true }
  let w := { w with type :=
    if info.client ≠ PA_INVALID_INDEX then SourceOutputType.SOURCE_OUTPUT_CLIENT
    else SourceOutputType.SOURCE_OUTPUT_VIRTUAL }
  let w := { w with sourceIndex := info.source }
  let w :=
    match s.clientNames.get info.client with
    | some n =>
      { w with
        boldNameLabel :=
          w.boldNameLabel.set_markup ("<b>" ++ env.escape (n.getD "(null)") ++ "</b>"),
        nameLabel := w.nameLabel.set_markup (": " ++ env.escape info.name) }
    | none =>
      { w with
        boldNameLabel := w.boldNameLabel.set_text "",
        nameLabel := w.nameLabel.set_label info.name }
  let w := { w with iconImage := setIconFromProplist info.proplist "audio-input-microphone" }
  let w := if env.HAVE_SOURCE_OUTPUT_VOLUMES
    then (w.setVolume info.volume).setMute info.mute else w
  { w with updating := false }

/-- The method `MainWindow::updateSourceOutput` (lines 612-662). -/
def updateSourceOutput (env : Env) (s : MainWindow) (info : pa_source_output_info) :
    MainWindow :=
  if updateSourceOutput_ignored info then s
  else
    let r : SourceOutputWidget × Bool :=
      match s.sourceOutputWidgets.get info.index with
      | some w => (w, false)
      | none => (updateSourceOutput_create env info, true)
    let w := updateSourceOutput_fields env s info r.1
    let s1 := { s with sourceOutputWidgets := s.sourceOutputWidgets.assign info.index w }
    if r.2 then updateDeviceVisibility s1 else s1

/-- The method `MainWindow::updateClient` (lines 664-681). -/
def updateClient (env : Env) (s : MainWindow) (info : pa_client_info) : MainWindow :=
  let clientNames := s.clientNames.touch info.index none
  let clientNames := clientNames.assign info.index (some info.name)
  let sinkInputWidgets := s.sinkInputWidgets.mapValues (fun w =>
    if w.clientIndex = info.index then
      { w with boldNameLabel :=
          w.boldNameLabel.set_markup ("<b>" ++ env.escape info.name ++ "</b>") }
    else w)
  { s with clientNames := clientNames, sinkInputWidgets := sinkInputWidgets }

/-- The method `MainWindow::updateServer` (lines 683-710). -/
def updateServer (s : MainWindow) (info : pa_server_info) : MainWindow :=
  let defaultSourceName := info.default_source_name.getD ""
  let defaultSinkName := info.default_sink_name.getD ""
  let sinkWidgets := s.sinkWidgets.mapValues (fun w =>
    let w := { w with updating := true }
    let w := w.setDefault (decide (w.name = defaultSinkName))
    { w with updating := false })
  let sourceWidgets := s.sourceWidgets.mapValues (fun w =>
    let w := { w with updating := true }
    let w := w.setDefault (decide (w.name = defaultSourceName))
    { w with updating := false })
  { s with defaultSourceName := defaultSourceName, defaultSinkName := defaultSinkName,
           sinkWidgets := sinkWidgets, sourceWidgets := sourceWidgets }

/-- The method `MainWindow::createEventRoleWidget` (lines 712-744), with its return value. -/
def createEventRoleWidget (s : MainWindow) : MainWindow × Bool :=
  match s.eventRoleWidget with
  | some _ => (s, false)
  | none =>
    let w := RoleWidget.create
    let w := { w with role := "sink-input-by-media-role:event" }
    let w := { w with channelMap := [0], can_decibel := true }
    let w := { w with boldNameLabel := w.boldNameLabel.set_text "" }
    let w := { w with nameLabel := w.nameLabel.set_label "System Sounds" }
    let w := { w with iconImage := "multimedia-volume-control" }
    let w := { w with device := "" }
    let w := { w with updating := true }
    let w := w.setVolume [PA_VOLUME_NORM]
    let w := w.setMute false
    let w := { w with updating := false }
    ({ s with eventRoleWidget := some w }, true)

/-- The method `MainWindow::deleteEventRoleWidget` (lines 746-752). -/
def deleteEventRoleWidget (s : MainWindow) : MainWindow :=
  { s with eventRoleWidget := none }

/-- The method `MainWindow::updateRole` (lines 754-777). -/
def updateRole (s : MainWindow) (info : pa_ext_stream_restore_info) : MainWindow :=
  if strcmp info.name "sink-input-by-media-role:event" ≠ 0 then s
  else
    let (s1, is_new) := createEventRoleWidget s
    let s2 := { s1 with eventRoleWidget := s1.eventRoleWidget.map (fun w =>
      let w := { w with updating := true }
      let w := { w with device := info.device.getD "" }
      let w := w.setVolume [pa_cvolume_max info.volume]
      let w := w.setMute info.mute
      { w with updating := false }) }
    if is_new then updateDeviceVisibility s2 else s2

/-! ## Peak dispatch (lines 811-844) -/

/-- The method `MainWindow::updateVolumeMeter` (lines 811-844). -/
def updateVolumeMeter (s : MainWindow) (source_index : Nat) (sink_input_idx : Nat)
    (v : c_double) : MainWindow :=
  if sink_input_idx ≠ PA_INVALID_INDEX then
    match s.sinkInputWidgets.get sink_input_idx with
    | some w =>
      { s with sinkInputWidgets := s.sinkInputWidgets.assign sink_input_idx (w.updatePeak v) }
    | none => s
  else
    let sinkWidgets := s.sinkWidgets.mapValues (fun w =>
      if w.monitor_index = source_index then w.updatePeak v else w)
    let sourceWidgets := s.sourceWidgets.mapValues (fun w =>
      if w.index = source_index then w.updatePeak v else w)
    let sourceOutputWidgets := s.sourceOutputWidgets.mapValues (fun w =>
      if w.sourceIndex = source_index then w.updatePeak v else w)
    { s with sinkWidgets := sinkWidgets, sourceWidgets := sourceWidgets,
             sourceOutputWidgets := sourceOutputWidgets }

/-! ## Removal (lines 993-1041) -/

/-- The method `MainWindow::removeCard` (lines 993-1000). -/
def removeCard (s : MainWindow) (index : Nat) : MainWindow :=
  if !s.cardWidgets.count index then s
  else updateDeviceVisibility { s with cardWidgets := s.cardWidgets.erase index }

/-- The method `MainWindow::removeSink` (lines 1002-1009). -/
def removeSink (s : MainWindow) (index : Nat) : MainWindow :=
  if !s.sinkWidgets.count index then s
  else updateDeviceVisibility { s with sinkWidgets := s.sinkWidgets.erase index }

/-- The method `MainWindow::removeSource` (lines 1011-1018). -/
def removeSource (s : MainWindow) (index : Nat) : MainWindow :=
  if !s.sourceWidgets.count index then s
  else updateDeviceVisibility { s with sourceWidgets := s.sourceWidgets.erase index }

/-- The method `MainWindow::removeSinkInput` (lines 1020-1027). -/
def removeSinkInput (s : MainWindow) (index : Nat) : MainWindow :=
  if !s.sinkInputWidgets.count index then s
  else updateDeviceVisibility { s with sinkInputWidgets := s.sinkInputWidgets.erase index }

/-- The method `MainWindow::removeSourceOutput` (lines 1029-1036). -/
def removeSourceOutput (s : MainWindow) (index : Nat) : MainWindow :=
  if !s.sourceOutputWidgets.count index then s
  else updateDeviceVisibility
    { s with sourceOutputWidgets := s.sourceOutputWidgets.erase index }

/-- The method `MainWindow::removeClient` (lines 1038-1041): `clientNames[index]` is
evaluated for `g_free`, then the entry is erased. -/
def removeClient (s : MainWindow) (index : Nat) : MainWindow :=
  let clientNames := s.clientNames.touch index none
  { s with clientNames := clientNames.erase index }

/-! ## Full teardown (lines 1043-1057) -/

/-- One loop of `removeAllWidgets`,
`for (it = m.begin(); it != m.end(); ++it) remove(it->first);`, run over the
keys the map holds when the loop starts. After each call the iterator `it` is
incremented. If the call erased the entry `it` points at, `it` has been
invalidated by `std::map::erase` and incrementing it is undefined behaviour:
the loop has no defined result (`none`). If the entry is still there, the
loop goes on with the next key. -/
def erase_while_iterating {T : Type} (m : MainWindow → IndexMap T)
    (remove : MainWindow → Nat → MainWindow) : List Nat → MainWindow → Option MainWindow
  | [], s => some s
  | k :: rest, s =>
    let s1 := remove s k
    if (m s1).count k then erase_while_iterating m remove rest s1 else none

/-- The method `MainWindow::removeAllWidgets` (lines 1043-1057): the six loops in
order, then `deleteEventRoleWidget`. -/
def removeAllWidgets (s : MainWindow) : Option MainWindow :=
  (erase_while_iterating (fun t => t.sinkInputWidgets) removeSinkInput
      s.sinkInputWidgets.keys s).bind (fun s1 =>
  (erase_while_iterating (fun t => t.sourceOutputWidgets) removeSourceOutput
      s1.sourceOutputWidgets.keys s1).bind (fun s2 =>
  (erase_while_iterating (fun t => t.sinkWidgets) removeSink
      s2.sinkWidgets.keys s2).bind (fun s3 =>
  (erase_while_iterating (fun t => t.sourceWidgets) removeSource
      s3.sourceWidgets.keys s3).bind (fun s4 =>
  (erase_while_iterating (fun t => t.cardWidgets) removeCard
      s4.cardWidgets.keys s4).bind (fun s5 =>
  (erase_while_iterating (fun t => t.clientNames) removeClient
      s5.clientNames.keys s5).bind (fun s6 =>
  some (deleteEventRoleWidget s6)))))))

/-! ## Stream callbacks (lines 368-398) -/

/-- The callback `suspended_callback` (lines 368-373); `is_suspended` is what
`pa_stream_is_suspended(s)` returns. -/
def suspended_callback (s : MainWindow) (st : pa_stream) (is_suspended : Int) : MainWindow :=
  if is_suspended ≠ 0 then
    updateVolumeMeter s st.device_index PA_INVALID_INDEX (c_double.finite (-1))
  else s

/-- Lines 392-395 of `read_callback`: the two comparisons applied to the sample. -/
def read_callback_clamp (v : c_double) : c_double :=
  let v := if v.lt (c_double.finite 0) then c_double.finite 0 else v
  let v := if (c_double.finite 1).lt v then c_double.finite 1 else v
  v

/-- The callback `read_callback` (lines 375-398). `peek` is what `pa_stream_peek`
yields: `none` when it fails, else the block of float samples delivered. An
empty block fails `assert(length > 0)` and the program aborts (`none`). -/
def read_callback (s : MainWindow) (st : pa_stream) (peek : Option (List c_double)) :
    Option MainWindow :=
  match peek with
  | none => some (show_error s "Failed to read data from stream")
  | some data =>
    match data.getLast? with
    | none => none
    | some v =>
      some (updateVolumeMeter s st.device_index st.monitor_stream (read_callback_clamp v))

/-! ## Sequences of update calls -/

/-- One call of an update entry point of the reconciler, with its arguments. -/
inductive UpdateCall where
  | card (info : pa_card_info)
  | sink (env : Env) (info : pa_sink_info)
  | source (env : Env) (info : pa_source_info)
  | sinkInput (env : Env) (info : pa_sink_input_info)
  | sourceOutput (env : Env) (info : pa_source_output_info)
  | server (info : pa_server_info)
  | role (info : pa_ext_stream_restore_info)

/-- The state after the call has returned. -/
def UpdateCall.run (s : MainWindow) : UpdateCall → MainWindow
  | .card info => updateCard s info
  | .sink env info => (updateSink env s info).1
  | .source env info => updateSource env s info
  | .sinkInput env info => updateSinkInput env s info
  | .sourceOutput env info => updateSourceOutput env s info
  | .server info => updateServer s info
  | .role info => updateRole s info

/-! ## Orders and invariants used to state the properties -/

/-- The order all three comparators implement, on the key (priority, name):
higher priority first, then the greater name (in `strcmp` order) first. -/
def prioBefore (a b : Nat × String) : Prop :=
  a.1 > b.1 ∨ (a.1 = b.1 ∧ strcmp a.2 b.2 > 0)

/-- A `std::map` holds its keys in strictly ascending order. -/
def IndexMap.WF {T : Type} (m : IndexMap T) : Prop :=
  (IndexMap.keys m).Pairwise (fun a b => a < b)

instance {T : Type} (m : IndexMap T) : Decidable (IndexMap.WF m) := by
  unfold IndexMap.WF; infer_instance

/-- All five widget maps and the client map are well-formed `std::map`s. -/
def MainWindow.WF (s : MainWindow) : Prop :=
  s.cardWidgets.WF ∧ s.sinkWidgets.WF ∧ s.sourceWidgets.WF ∧
  s.sinkInputWidgets.WF ∧ s.sourceOutputWidgets.WF ∧ s.clientNames.WF

instance (s : MainWindow) : Decidable (MainWindow.WF s) := by
  unfold MainWindow.WF; infer_instance

/-- No widget of the window is in the middle of an update (`updating` is
false everywhere), and every write of a volume, a mute state or a default flag
logged so far was made while the widget's `updating` was true. -/
def MainWindow.Guarded (s : MainWindow) : Prop :=
  (∀ e ∈ s.cardWidgets, e.2.updating = false) ∧
  (∀ e ∈ s.sinkWidgets, e.2.updating = false ∧ ∀ b ∈ e.2.guardLog, b = true) ∧
  (∀ e ∈ s.sourceWidgets, e.2.updating = false ∧ ∀ b ∈ e.2.guardLog, b = true) ∧
  (∀ e ∈ s.sinkInputWidgets, e.2.updating = false ∧ ∀ b ∈ e.2.guardLog, b = true) ∧
  (∀ e ∈ s.sourceOutputWidgets, e.2.updating = false ∧ ∀ b ∈ e.2.guardLog, b = true) ∧
  (∀ w, s.eventRoleWidget = some w → w.updating = false ∧ ∀ b ∈ w.guardLog, b = true)

/-! ## Example environment and snapshots -/

/-- GLib's escaping of the five markup characters (the `%s` of
`g_markup_printf_escaped` on text without control characters). -/
def escape_markup_chars (s : String) : String :=
  String.join (s.data.map (fun c =>
    if c = '&' then "&amp;"
    else if c = '<' then "&lt;"
    else if c = '>' then "&gt;"
    else if c = Char.ofNat 39 then "&apos;"
    else if c = Char.ofNat 34 then "&quot;"
    else String.singleton c))

/-- A server of protocol version 30 on which opening monitoring streams succeeds. -/
def exampleEnv : Env :=
  { protocol_version := 30, escape := escape_markup_chars, stream_new_ok := true,
    connect_record_ok := true, HAVE_SOURCE_OUTPUT_VOLUMES := true,
    HAVE_SINK_SET_FORMATS := true }

/-- The client snapshot of the scenario: client 9, named Firefox. -/
def firefoxClient : pa_client_info := { index := 9, name := "Firefox" }

/-- A playback stream of client 9. -/
def playbackStream : pa_sink_input_info :=
  { index := 4, name := "Playback", client := 9, sink := 0, channel_map := [1, 2],
    proplist := [], volume := [65536, 65536], mute := false }

/-- A recording stream of client 9. -/
def recordingStream : pa_source_output_info :=
  { index := 3, name := "Recording", client := 9, source := 1, channel_map := [0],
    proplist := [], volume := [65536], mute := false }

/-- A playback stream carrying the event role's stream-restore id. -/
def eventStream : pa_sink_input_info :=
  { index := 7, name := "bell", client := 9, sink := 0, channel_map := [0],
    proplist := [("module-stream-restore.id", "sink-input-by-media-role:event")],
    volume := [65536], mute := false }

/-- A sink snapshot: index 5, two ports of equal priority. -/
def speakersSink : pa_sink_info :=
  { index := 5, name := "alsa_output.analog-stereo", description := "Speakers",
    channel_map := [1, 2], flags := 0x0004, monitor_source := 6, base_volume := 65536,
    card := 0, proplist := [], volume := [32768, 32768], mute := false,
    ports := [⟨"hp", "Headphones", 10⟩, ⟨"sp", "Speakers", 10⟩], active_port := none }

/-- A second sink: index 8, monitor source 9. -/
def headphonesSink : pa_sink_info :=
  { index := 8, name := "bluez_output.headset", description := "Headphones",
    channel_map := [1, 2], flags := 0x0004, monitor_source := 9, base_volume := 65536,
    card := 1, proplist := [], volume := [32768, 32768], mute := false,
    ports := [], active_port := none }

/-- The playback stream 4 of client 9, playing on sink 5. -/
def playbackOnSpeakers : pa_sink_input_info := { playbackStream with sink := 5 }

/-- The playback stream 4 of client 9, moved to sink 8. -/
def playbackOnHeadphones : pa_sink_input_info := { playbackStream with sink := 8 }

/-- A recording stream opened by this application itself. -/
def ownStream : pa_source_output_info :=
  { recordingStream with proplist := [("application.id", "org.PulseAudio.pavucontrol")] }

/-- A source snapshot: index 1, a hardware microphone. -/
def micSource : pa_source_info :=
  { index := 1, name := "alsa_input.analog-stereo", description := "Microphone",
    channel_map := [1, 2], flags := 0x0004, monitor_of_sink := PA_INVALID_INDEX,
    base_volume := 65536, card := 0, proplist := [], volume := [65536, 65536],
    mute := false, ports := [], active_port := none }

/-- The monitoring stream `updateSource` opens for source 1. -/
def micMonitor : pa_stream :=
  { device_index := 1, monitor_stream := PA_INVALID_INDEX, dont_inhibit_auto_suspend := false }

/-- A card snapshot: index 0, one profile with a sink and a source. -/
def soundCard : pa_card_info :=
  { index := 0, name := "alsa_card.pci", proplist := [("device.description", "Built-in Audio")],
    profiles := [⟨"output:analog-stereo+input:analog-stereo", "Analog Stereo Duplex", 1, 1, 60⟩],
    active_profile := none }

/-- A playback stream that belongs to no client. -/
def virtualStream : pa_sink_input_info :=
  { index := 6, name := "Loopback", client := PA_INVALID_INDEX, sink := 0,
    channel_map := [1, 2], proplist := [], volume := [65536, 65536], mute := false }

end Pavucontrol

/-! # Part II: theorems -/

namespace Pavucontrol

/-! ## `strcmp` is a strict total order on strings -/

theorem strcmpAux_self (a : List Char) : strcmpAux a a = 0 := by
  induction a with
  | nil => rfl
  | cons c cs ih => simp [strcmpAux, ih]

theorem strcmpAux_eq_of_not_pos : ∀ (a b : List Char),
    ¬ strcmpAux a b > 0 → ¬ strcmpAux b a > 0 → a = b
  | [], [], _, _ => rfl
  | [], _ :: _, _, h => by simp [strcmpAux] at h
  | _ :: _, [], h, _ => by simp [strcmpAux] at h
  | a :: as, b :: bs, h1, h2 => by
    simp only [strcmpAux] at h1 h2
    by_cases hab : a.toNat < b.toNat
    · have hba : ¬ b.toNat < a.toNat := by omega
      simp [hab, hba] at h2
    · by_cases hba : b.toNat < a.toNat
      · simp [hab, hba] at h1
      · simp only [hab, hba, if_false] at h1 h2
        have hv : a.val = b.val := UInt32.toNat.inj (by
          have : a.toNat = b.toNat := by omega
          exact this)
        rw [Char.eq_of_val_eq hv, strcmpAux_eq_of_not_pos as bs h1 h2]

theorem strcmpAux_asymm : ∀ (a b : List Char),
    strcmpAux a b > 0 → ¬ strcmpAux b a > 0
  | [], [], h => by simp [strcmpAux] at h
  | [], _ :: _, h => by simp [strcmpAux] at h
  | _ :: _, [], _ => by simp [strcmpAux]
  | a :: as, b :: bs, h => by
    simp only [strcmpAux] at h ⊢
    by_cases hab : a.toNat < b.toNat
    · simp [hab] at h
    · by_cases hba : b.toNat < a.toNat
      · simp [hab, hba]
      · simp only [hab, hba, if_false] at h ⊢
        exact strcmpAux_asymm as bs h

theorem strcmpAux_trans : ∀ (a b c : List Char),
    strcmpAux a b > 0 → strcmpAux b c > 0 → strcmpAux a c > 0
  | [], [], _, h, _ => by simp [strcmpAux] at h
  | [], _ :: _, _, h, _ => by simp [strcmpAux] at h
  | _ :: _, [], _, _, h => by cases ‹List Char› <;> simp [strcmpAux] at h
  | _ :: _, _ :: _, [], _, _ => by simp [strcmpAux]
  | a :: as, b :: bs, c :: cs, h1, h2 => by
    simp only [strcmpAux] at h1 h2 ⊢
    by_cases hab : a.toNat < b.toNat
    · simp [hab] at h1
    · by_cases hbc : b.toNat < c.toNat
      · simp [hbc] at h2
      · by_cases hba : b.toNat < a.toNat
        · have h3 : ¬ a.toNat < c.toNat := by omega
          have h4 : c.toNat < a.toNat := by omega
          simp [h3, h4]
        · by_cases hcb : c.toNat < b.toNat
          · have h3 : ¬ a.toNat < c.toNat := by omega
            have h4 : c.toNat < a.toNat := by omega
            simp [h3, h4]
          · simp only [hab, hba, hbc, hcb, if_false] at h1 h2
            have h3 : ¬ a.toNat < c.toNat := by omega
            have h4 : ¬ c.toNat < a.toNat := by omega
            simp only [h3, h4, if_false]
            exact strcmpAux_trans as bs cs h1 h2

theorem strcmp_self (a : String) : strcmp a a = 0 := strcmpAux_self a.data

theorem strcmp_eq_of_not_pos (a b : String)
    (h1 : ¬ strcmp a b > 0) (h2 : ¬ strcmp b a > 0) : a = b := by
  have := strcmpAux_eq_of_not_pos a.data b.data h1 h2
  cases a; cases b; simp_all

/-! ## The priority order on (priority, name) keys -/

theorem prioBefore_irrefl (a : Nat × String) : ¬ prioBefore a a := by
  intro h
  rcases h with h | ⟨_, h⟩
  · exact lt_irrefl _ h
  · rw [strcmp_self] at h; exact lt_irrefl _ h

theorem prioBefore_trans {a b c : Nat × String}
    (h1 : prioBefore a b) (h2 : prioBefore b c) : prioBefore a c := by
  rcases h1 with h1 | ⟨e1, h1⟩ <;> rcases h2 with h2 | ⟨e2, h2⟩
  · left; omega
  · left; omega
  · left; omega
  · right; exact ⟨e1.trans e2, strcmpAux_trans _ _ _ h1 h2⟩

theorem prioBefore_asymm {a b : Nat × String}
    (h1 : prioBefore a b) : ¬ prioBefore b a :=
  fun h2 => prioBefore_irrefl a (prioBefore_trans h1 h2)

theorem prioBefore_eq_of_not {a b : Nat × String}
    (h1 : ¬ prioBefore a b) (h2 : ¬ prioBefore b a) : a = b := by
  unfold prioBefore at h1 h2
  push_neg at h1 h2
  have e : a.1 = b.1 := by omega
  have hs := strcmp_eq_of_not_pos a.2 b.2 (not_lt.mpr (h1.2 e)) (not_lt.mpr (h2.2 e.symm))
  exact Prod.ext e hs

/-! ## `std::set` insertion over a comparator that factors through a key -/

section SetTheory

variable {α : Type} {comp : α → α → Bool} {key : α → Nat × String}

theorem mem_set_insert {x z : α} {s : List α}
    (h : z ∈ set_insert comp x s) : z = x ∨ z ∈ s := by
  induction s with
  | nil => simpa [set_insert] using h
  | cons y ys ih =>
    simp only [set_insert] at h
    split at h
    · simpa using h
    · split at h
      · rcases List.mem_cons.mp h with h | h
        · exact Or.inr (h ▸ List.mem_cons_self _ _)
        · rcases ih h with h | h
          · exact Or.inl h
          · exact Or.inr (List.mem_cons_of_mem _ h)
      · exact Or.inr h

theorem mem_set_build {z : α} {l : List α}
    (h : z ∈ set_build comp l) : z ∈ l := by
  have gen : ∀ (l s : List α),
      z ∈ l.foldl (fun s x => set_insert comp x s) s → z ∈ s ∨ z ∈ l := by
    intro l
    induction l with
    | nil => intro s h; exact Or.inl h
    | cons x xs ih =>
      intro s h
      rcases ih _ h with h | h
      · rcases mem_set_insert h with h | h
        · exact Or.inr (h ▸ List.mem_cons_self _ _)
        · exact Or.inl h
      · exact Or.inr (List.mem_cons_of_mem _ h)
  rcases gen l [] h with h | h
  · cases h
  · exact h

theorem key_mem_set_insert_self (hc : ∀ x y, comp x y = true ↔ prioBefore (key x) (key y))
    (x : α) (s : List α) : key x ∈ (set_insert comp x s).map key := by
  induction s with
  | nil => simp [set_insert]
  | cons y ys ih =>
    simp only [set_insert]
    split
    · simp
    · split
      · simp only [List.map_cons, List.mem_cons]; exact Or.inr ih
      · rename_i h1 h2
        have e : key x = key y :=
          prioBefore_eq_of_not (fun h => h1 ((hc x y).2 h)) (fun h => h2 ((hc y x).2 h))
        simp [e]

theorem subset_set_insert (x : α) (s : List α) : ∀ z ∈ s, z ∈ set_insert comp x s := by
  induction s with
  | nil => intro z h; cases h
  | cons y ys ih =>
    intro z h
    simp only [set_insert]
    split
    · exact List.mem_cons_of_mem _ h
    · split
      · rcases List.mem_cons.mp h with h | h
        · exact h ▸ List.mem_cons_self _ _
        · exact List.mem_cons_of_mem _ (ih z h)
      · exact h

theorem key_mem_set_build (hc : ∀ x y, comp x y = true ↔ prioBefore (key x) (key y))
    {x : α} {l : List α} (h : x ∈ l) : key x ∈ (set_build comp l).map key := by
  have gen : ∀ (l s : List α), (key x ∈ s.map key ∨ x ∈ l) →
      key x ∈ (l.foldl (fun s x => set_insert comp x s) s).map key := by
    intro l
    induction l with
    | nil =>
      intro s h
      rcases h with h | h
      · exact h
      · cases h
    | cons y ys ih =>
      intro s h
      apply ih
      rcases h with h | h
      · left
        obtain ⟨z, hz, e⟩ := List.mem_map.mp h
        exact List.mem_map.mpr ⟨z, subset_set_insert y s z hz, e⟩
      · rcases List.mem_cons.mp h with h | h
        · left; rw [h]; exact key_mem_set_insert_self hc y s
        · right; exact h
  exact gen l [] (Or.inr h)

theorem pairwise_set_insert (hc : ∀ x y, comp x y = true ↔ prioBefore (key x) (key y))
    (x : α) {s : List α} (hs : s.Pairwise (fun a b => prioBefore (key a) (key b))) :
    (set_insert comp x s).Pairwise (fun a b => prioBefore (key a) (key b)) := by
  induction s with
  | nil => simp [set_insert]
  | cons y ys ih =>
    have hy := List.pairwise_cons.mp hs
    simp only [set_insert]
    split
    · rename_i h1
      have hxy := (hc x y).1 h1
      refine List.pairwise_cons.mpr ⟨?_, hs⟩
      intro z hz
      rcases List.mem_cons.mp hz with hz | hz
      · rw [hz]; exact hxy
      · exact prioBefore_trans hxy (hy.1 z hz)
    · split
      · rename_i h1 h2
        refine List.pairwise_cons.mpr ⟨?_, ih hy.2⟩
        intro z hz
        rcases mem_set_insert hz with hz | hz
        · rw [hz]; exact (hc y x).1 h2
        · exact hy.1 z hz
      · exact hs

theorem pairwise_set_build (hc : ∀ x y, comp x y = true ↔ prioBefore (key x) (key y))
    (l : List α) :
    (set_build comp l).Pairwise (fun a b => prioBefore (key a) (key b)) := by
  have gen : ∀ (l s : List α), s.Pairwise (fun a b => prioBefore (key a) (key b)) →
      (l.foldl (fun s x => set_insert comp x s) s).Pairwise
        (fun a b => prioBefore (key a) (key b)) := by
    intro l
    induction l with
    | nil => intro s h; exact h
    | cons y ys ih => intro s h; exact ih _ (pairwise_set_insert hc y h)
  exact gen l [] List.Pairwise.nil

/-- Two strictly ordered key lists with the same members are the same list. -/
theorem sorted_keys_unique {k1 k2 : List (Nat × String)}
    (h1 : k1.Pairwise prioBefore) (h2 : k2.Pairwise prioBefore)
    (hm : ∀ k, k ∈ k1 ↔ k ∈ k2) : k1 = k2 := by
  haveI : IsAntisymm (Nat × String) prioBefore :=
    ⟨fun a b hab hba => absurd hba (prioBefore_asymm hab)⟩
  have n1 : k1.Nodup :=
    h1.imp (fun {a b} (h : prioBefore a b) (e : a = b) => prioBefore_irrefl b (e ▸ h))
  have n2 : k2.Nodup :=
    h2.imp (fun {a b} (h : prioBefore a b) (e : a = b) => prioBefore_irrefl b (e ▸ h))
  exact List.eq_of_perm_of_sorted ((List.perm_ext_iff_of_nodup n1 n2).2 hm) h1 h2

/-- The keys of the built set do not depend on the order of the input. -/
theorem set_build_keys_perm (hc : ∀ x y, comp x y = true ↔ prioBefore (key x) (key y))
    {l l' : List α} (hp : l.Perm l') :
    (set_build comp l).map key = (set_build comp l').map key := by
  apply sorted_keys_unique
  · exact (List.pairwise_map).2 (pairwise_set_build hc l)
  · exact (List.pairwise_map).2 (pairwise_set_build hc l')
  · intro k
    constructor
    · intro h
      obtain ⟨z, hz, e⟩ := List.mem_map.mp h
      exact e ▸ key_mem_set_build hc (hp.subset (mem_set_build hz))
    · intro h
      obtain ⟨z, hz, e⟩ := List.mem_map.mp h
      exact e ▸ key_mem_set_build hc (hp.symm.subset (mem_set_build hz))

theorem map_eq_of_keys_eq {β : Type} (p : α → β) (s1 s2 : List α)
    (hk : s1.map key = s2.map key)
    (hp : ∀ x ∈ s1, ∀ y ∈ s2, key x = key y → p x = p y) : s1.map p = s2.map p := by
  induction s1 generalizing s2 with
  | nil =>
    cases s2 with
    | nil => rfl
    | cons b bs => simp at hk
  | cons a as ih =>
    cases s2 with
    | nil => simp at hk
    | cons b bs =>
      simp only [List.map_cons, List.cons.injEq] at hk ⊢
      refine ⟨hp a (List.mem_cons_self _ _) b (List.mem_cons_self _ _) hk.1, ?_⟩
      exact ih bs hk.2 (fun x hx y hy =>
        hp x (List.mem_cons_of_mem _ hx) y (List.mem_cons_of_mem _ hy))

/-- Permutation invariance of the projected set contents, provided the
projection is determined by the key among the input items. -/
theorem set_build_map_perm {β : Type} (p : α → β)
    (hc : ∀ x y, comp x y = true ↔ prioBefore (key x) (key y))
    {l l' : List α} (hp : l.Perm l')
    (hk : ∀ x ∈ l, ∀ y ∈ l, key x = key y → p x = p y) :
    (set_build comp l).map p = (set_build comp l').map p := by
  apply map_eq_of_keys_eq p _ _ (set_build_keys_perm hc hp)
  intro x hx y hy e
  exact hk x (mem_set_build hx) y (hp.symm.subset (mem_set_build hy)) e

end SetTheory

theorem profile_prio_compare_iff (x y : pa_card_profile_info) :
    profile_prio_compare x y = true ↔ prioBefore (x.priority, x.name) (y.priority, y.name) := by
  unfold profile_prio_compare prioBefore
  by_cases h : x.priority = y.priority <;> simp [h]

theorem sink_port_prio_compare_iff (x y : pa_sink_port_info) :
    sink_port_prio_compare x y = true ↔ prioBefore (x.priority, x.name) (y.priority, y.name) := by
  unfold sink_port_prio_compare prioBefore
  by_cases h : x.priority = y.priority <;> simp [h]

theorem source_port_prio_compare_iff (x y : pa_source_port_info) :
    source_port_prio_compare x y = true ↔ prioBefore (x.priority, x.name) (y.priority, y.name) := by
  unfold source_port_prio_compare prioBefore
  by_cases h : x.priority = y.priority <;> simp [h]

/-! ## `std::map` operations -/

namespace IndexMap

variable {T : Type}

theorem get_assign_self (m : IndexMap T) (k : Nat) (v : T) :
    get (assign m k v) k = some v := by
  induction m with
  | nil => simp [assign, get]
  | cons e rest ih =>
    obtain ⟨k', v'⟩ := e
    simp only [assign]
    split
    · simp [get]
    · split
      · simp [get]
      · rename_i h1 h2
        have : k' ≠ k := fun h => h2 h.symm
        simp [get, this, ih]

theorem get_assign_ne (m : IndexMap T) {k j : Nat} (v : T) (h : j ≠ k) :
    get (assign m k v) j = get m j := by
  induction m with
  | nil => simp [assign, get, h.symm]
  | cons e rest ih =>
    obtain ⟨k', v'⟩ := e
    simp only [assign]
    split
    · simp [get, h.symm]
    · split
      · rename_i h1 h2
        subst h2
        simp [get, h.symm]
      · simp only [get, ih]

theorem count_eq_true_iff (m : IndexMap T) (k : Nat) :
    count m k = true ↔ ∃ v, get m k = some v := by
  induction m with
  | nil => simp [count, get]
  | cons e rest ih =>
    obtain ⟨k', v'⟩ := e
    by_cases h : k' = k
    · simp [count, get, h]
    · have ih' : (List.any rest fun e => e.1 == k) = true ↔ ∃ v, get rest k = some v := ih
      simp only [count, List.any_cons, get, h, if_false, Bool.or_eq_true, beq_iff_eq, false_or]
      exact ih'

theorem count_eq_false_iff (m : IndexMap T) (k : Nat) :
    count m k = false ↔ get m k = none := by
  have h := count_eq_true_iff m k
  cases hc : count m k
  · cases hg : get m k
    · simp
    · exact absurd (h.2 ⟨_, hg⟩) (by simp [hc])
  · obtain ⟨v, hv⟩ := h.1 hc
    simp [hv]

theorem count_eq_true_iff_mem_keys (m : IndexMap T) (k : Nat) :
    count m k = true ↔ k ∈ keys m := by
  simp only [count, keys, List.any_eq_true, beq_iff_eq, List.mem_map]

theorem mem_keys_assign (m : IndexMap T) (k j : Nat) (v : T) :
    j ∈ keys (assign m k v) ↔ j = k ∨ j ∈ keys m := by
  induction m with
  | nil => simp [assign, keys]
  | cons e rest ih =>
    obtain ⟨k', v'⟩ := e
    have ih' : j ∈ List.map Prod.fst (assign rest k v) ↔ j = k ∨ j ∈ List.map Prod.fst rest := ih
    simp only [assign]
    split
    · simp [keys]
    · split
      · rename_i h1 h2
        subst h2
        simp [keys]
      · simp only [keys, List.map_cons, List.mem_cons, ih']
        tauto

theorem keys_assign_of_count {m : IndexMap T} (hm : WF m) {k : Nat} (v : T)
    (hc : count m k = true) : keys (assign m k v) = keys m := by
  induction m with
  | nil => simp [count] at hc
  | cons e rest ih =>
    obtain ⟨k', v'⟩ := e
    have hp := List.pairwise_cons.mp hm
    simp only [assign]
    split
    · rename_i h1
      exfalso
      rcases List.mem_cons.mp ((count_eq_true_iff_mem_keys _ k).1 hc) with h | h
      · exact absurd h (Nat.ne_of_lt h1)
      · have := hp.1 k h
        omega
    · split
      · rename_i h1 h2
        simp [keys, h2]
      · rename_i h1 h2
        have hc' : count rest k = true := by
          rcases List.mem_cons.mp ((count_eq_true_iff_mem_keys _ k).1 hc) with h | h
          · exact absurd h h2
          · exact (count_eq_true_iff_mem_keys _ k).2 h
        have := ih hp.2 hc'
        simp only [keys, List.map_cons] at this ⊢
        rw [this]

theorem keys_assign_perm {m : IndexMap T} {k : Nat} (v : T)
    (hc : count m k = false) : (keys (assign m k v)).Perm (k :: keys m) := by
  induction m with
  | nil => simp [assign, keys]
  | cons e rest ih =>
    obtain ⟨k', v'⟩ := e
    have hne : k' ≠ k := by
      intro h
      simp [count, h] at hc
    have hc' : count rest k = false := by
      simp only [count, List.any_cons, Bool.or_eq_false_iff] at hc
      exact hc.2
    simp only [assign]
    split
    · simp [keys]
    · split
      · rename_i h1 h2
        exact absurd h2.symm hne
      · have := ih hc'
        simp only [keys, List.map_cons] at this ⊢
        exact (List.Perm.cons k' this).trans (List.Perm.swap k k' _)

theorem wf_assign {m : IndexMap T} (hm : WF m) (k : Nat) (v : T) : WF (assign m k v) := by
  induction m with
  | nil => simp [assign, WF, keys]
  | cons e rest ih =>
    obtain ⟨k', v'⟩ := e
    have hp := List.pairwise_cons.mp hm
    simp only [assign]
    split
    · rename_i h1
      refine List.pairwise_cons.mpr ⟨?_, hm⟩
      intro j hj
      rcases List.mem_cons.mp hj with h | h
      · rw [h]; exact h1
      · exact Nat.lt_trans h1 (hp.1 j h)
    · split
      · rename_i h1 h2
        subst h2
        exact List.pairwise_cons.mpr ⟨hp.1, hp.2⟩
      · rename_i h1 h2
        refine List.pairwise_cons.mpr ⟨?_, ih hp.2⟩
        intro j hj
        rcases (mem_keys_assign rest k j v).1 hj with h | h
        · rw [h]; show k' < k; omega
        · exact hp.1 j h

theorem keys_mapValues (f : T → T) (m : IndexMap T) : keys (mapValues f m) = keys m := by
  simp [keys, mapValues, List.map_map, Function.comp_def]

theorem wf_mapValues {m : IndexMap T} (hm : WF m) (f : T → T) : WF (mapValues f m) := by
  unfold WF
  rw [keys_mapValues]
  exact hm

theorem get_mapValues (f : T → T) (m : IndexMap T) (k : Nat) :
    get (mapValues f m) k = (get m k).map f := by
  induction m with
  | nil => simp [mapValues, get]
  | cons e rest ih =>
    obtain ⟨k', v'⟩ := e
    have ih' : get (List.map (fun e => (e.1, f e.2)) rest) k = Option.map f (get rest k) := ih
    by_cases h : k' = k
    · simp [mapValues, get, h]
    · simp [mapValues, get, h, ih']

theorem wf_erase {m : IndexMap T} (hm : WF m) (k : Nat) : WF (erase m k) := by
  unfold WF keys erase
  exact List.Pairwise.sublist ((List.filter_sublist m).map Prod.fst) hm

theorem count_erase_self (m : IndexMap T) (k : Nat) : count (erase m k) k = false := by
  simp [count, erase]

theorem erase_of_not_count {m : IndexMap T} {k : Nat} (hc : count m k = false) :
    erase m k = m := by
  unfold erase
  rw [List.filter_eq_self]
  intro e he
  simp only [count, List.any_eq_false, beq_iff_eq] at hc
  simpa using hc e he

theorem erase_assign_of_not_count {m : IndexMap T} {k : Nat} (v : T)
    (hc : count m k = false) : erase (assign m k v) k = m := by
  induction m with
  | nil => simp [assign, erase]
  | cons e rest ih =>
    obtain ⟨k', v'⟩ := e
    have hne : k' ≠ k := by
      intro h
      simp [count, h] at hc
    have hc' : count rest k = false := by
      simp only [count, List.any_cons, Bool.or_eq_false_iff] at hc
      exact hc.2
    have hr : List.filter (fun e => e.1 != k) rest = rest := erase_of_not_count hc'
    simp only [assign]
    split
    · simp [erase, hne, hr]
    · split
      · rename_i h1 h2
        exact absurd h2.symm hne
      · have ih' : List.filter (fun e => e.1 != k) (assign rest k v) = rest := ih hc'
        simp [erase, hne, ih']

theorem wf_nodup_keys {m : IndexMap T} (hm : WF m) : (keys m).Nodup :=
  List.Pairwise.imp (fun {a b} (h : a < b) => Nat.ne_of_lt h) hm

end IndexMap

/-! ## Scheduling a visibility pass touches no registry -/

@[simp] theorem updateDeviceVisibility_cardWidgets (s : MainWindow) :
    (updateDeviceVisibility s).cardWidgets = s.cardWidgets := by
  unfold updateDeviceVisibility g_idle_add; split <;> rfl

@[simp] theorem updateDeviceVisibility_sinkWidgets (s : MainWindow) :
    (updateDeviceVisibility s).sinkWidgets = s.sinkWidgets := by
  unfold updateDeviceVisibility g_idle_add; split <;> rfl

@[simp] theorem updateDeviceVisibility_sourceWidgets (s : MainWindow) :
    (updateDeviceVisibility s).sourceWidgets = s.sourceWidgets := by
  unfold updateDeviceVisibility g_idle_add; split <;> rfl

@[simp] theorem updateDeviceVisibility_sinkInputWidgets (s : MainWindow) :
    (updateDeviceVisibility s).sinkInputWidgets = s.sinkInputWidgets := by
  unfold updateDeviceVisibility g_idle_add; split <;> rfl

@[simp] theorem updateDeviceVisibility_sourceOutputWidgets (s : MainWindow) :
    (updateDeviceVisibility s).sourceOutputWidgets = s.sourceOutputWidgets := by
  unfold updateDeviceVisibility g_idle_add; split <;> rfl

@[simp] theorem updateDeviceVisibility_clientNames (s : MainWindow) :
    (updateDeviceVisibility s).clientNames = s.clientNames := by
  unfold updateDeviceVisibility g_idle_add; split <;> rfl

/-! ## What each update stores under the snapshot's index -/

theorem updateCard_cardWidgets (s : MainWindow) (info : pa_card_info) :
    (updateCard s info).cardWidgets =
      s.cardWidgets.assign info.index (updateCard_fields info
        ((s.cardWidgets.get info.index).getD { CardWidget.create with index := info.index })) := by
  unfold updateCard
  cases h : s.cardWidgets.get info.index <;> simp

theorem updateSink_sinkWidgets (env : Env) (s : MainWindow) (info : pa_sink_info) :
    (updateSink env s info).1.sinkWidgets =
      s.sinkWidgets.assign info.index (updateSink_fields env s info
        ((s.sinkWidgets.get info.index).getD (updateSink_create info))) := by
  unfold updateSink
  cases h : s.sinkWidgets.get info.index <;> simp

theorem updateSink_snd (env : Env) (s : MainWindow) (info : pa_sink_info) :
    (updateSink env s info).2 = !(s.sinkWidgets.count info.index) := by
  unfold updateSink
  cases h : s.sinkWidgets.get info.index with
  | none => simp [(IndexMap.count_eq_false_iff _ _).2 h]
  | some w => simp [(IndexMap.count_eq_true_iff _ _).2 ⟨w, h⟩]

theorem createMonitorStreamForSource_sourceWidgets (env : Env) (s : MainWindow)
    (a b : Nat) (c : Bool) :
    (createMonitorStreamForSource env s a b c).1.sourceWidgets = s.sourceWidgets := by
  cases h1 : env.stream_new_ok <;> cases h2 : env.connect_record_ok <;>
    simp [createMonitorStreamForSource, show_error, h1, h2]

theorem createMonitorStreamForSource_defaultSourceName (env : Env) (s : MainWindow)
    (a b : Nat) (c : Bool) :
    (createMonitorStreamForSource env s a b c).1.defaultSourceName = s.defaultSourceName := by
  cases h1 : env.stream_new_ok <;> cases h2 : env.connect_record_ok <;>
    simp [createMonitorStreamForSource, show_error, h1, h2]

theorem updateSource_create_sourceWidgets (env : Env) (s : MainWindow) (info : pa_source_info) :
    (updateSource_create env s info).1.sourceWidgets = s.sourceWidgets := by
  unfold updateSource_create
  simp only
  split
  · exact createMonitorStreamForSource_sourceWidgets _ _ _ _ _
  · rfl

theorem updateSource_fields_ports (env : Env) (s : MainWindow) (info : pa_source_info)
    (w : SourceWidget) : (updateSource_fields env s info w).ports = source_ports info.ports := rfl

theorem updateSink_fields_ports (env : Env) (s : MainWindow) (info : pa_sink_info)
    (w : SinkWidget) : (updateSink_fields env s info w).ports = sink_ports info.ports := by
  unfold updateSink_fields
  simp only
  split <;> rfl

theorem updateCard_fields_profiles (info : pa_card_info)
    (w : CardWidget) : (updateCard_fields info w).profiles = card_profiles info.profiles := rfl

theorem updateSource_sourceWidgets (env : Env) (s : MainWindow) (info : pa_source_info) :
    ∃ s0, (updateSource env s info).sourceWidgets =
      s.sourceWidgets.assign info.index (updateSource_fields env s0 info
        ((s.sourceWidgets.get info.index).getD (updateSource_create env s info).2)) := by
  unfold updateSource
  cases h : s.sourceWidgets.get info.index with
  | some w => exact ⟨s, by simp⟩
  | none =>
    refine ⟨(updateSource_create env s info).1, ?_⟩
    simp [updateSource_create_sourceWidgets]

theorem strcmpAux_eq_zero : ∀ (a b : List Char), strcmpAux a b = 0 → a = b
  | [], [], _ => rfl
  | [], _ :: _, h => by simp [strcmpAux] at h
  | _ :: _, [], h => by simp [strcmpAux] at h
  | a :: as, b :: bs, h => by
    simp only [strcmpAux] at h
    by_cases hab : a.toNat < b.toNat
    · simp [hab] at h
    · by_cases hba : b.toNat < a.toNat
      · simp [hab, hba] at h
      · simp only [hab, hba, if_false] at h
        have hv : a.val = b.val := UInt32.toNat.inj (by
          have : a.toNat = b.toNat := by omega
          exact this)
        rw [Char.eq_of_val_eq hv, strcmpAux_eq_zero as bs h]

theorem strcmp_eq_zero_iff (a b : String) : strcmp a b = 0 ↔ a = b := by
  constructor
  · intro h
    have := strcmpAux_eq_zero a.data b.data h
    cases a; cases b; simp_all
  · intro h; rw [h]; exact strcmp_self b

/-! ## C1 -/

/-- C1: the port list stored by updateSink and updateSource and the profile
list stored by updateCard is the (name, description) projection of the set's
traversal, and in that traversal any two adjacent entries a before b satisfy
priority(a) > priority(b), or equal priorities and name(a) > name(b) in strcmp
order. Ports hp and sp of priority 10 come out as sp, hp. -/
theorem port_profile_lists_priority_ordered :
    (∀ (env : Env) (s : MainWindow) (info : pa_sink_info),
      (∃ w, (updateSink env s info).1.sinkWidgets.get info.index = some w ∧
        w.ports = (set_build sink_port_prio_compare info.ports).map
          (fun a => (a.name, a.description))) ∧
      List.Chain' (fun a b => a.priority > b.priority ∨
          (a.priority = b.priority ∧ strcmp a.name b.name > 0))
        (set_build sink_port_prio_compare info.ports)) ∧
    (∀ (env : Env) (s : MainWindow) (info : pa_source_info),
      (∃ w, (updateSource env s info).sourceWidgets.get info.index = some w ∧
        w.ports = (set_build source_port_prio_compare info.ports).map
          (fun a => (a.name, a.description))) ∧
      List.Chain' (fun a b => a.priority > b.priority ∨
          (a.priority = b.priority ∧ strcmp a.name b.name > 0))
        (set_build source_port_prio_compare info.ports)) ∧
    (∀ (s : MainWindow) (info : pa_card_info),
      (∃ w, (updateCard s info).cardWidgets.get info.index = some w ∧
        w.profiles = (set_build profile_prio_compare info.profiles).map
          (fun a => (a.name, a.description))) ∧
      List.Chain' (fun a b => a.priority > b.priority ∨
          (a.priority = b.priority ∧ strcmp a.name b.name > 0))
        (set_build profile_prio_compare info.profiles)) ∧
    sink_ports [⟨"hp", "Headphones", 10⟩, ⟨"sp", "Speakers", 10⟩]
      = [("sp", "Speakers"), ("hp", "Headphones")] := by
  refine ⟨?_, ?_, ?_, by decide⟩
  · intro env s info
    refine ⟨⟨_, ?_, updateSink_fields_ports env s info
      ((s.sinkWidgets.get info.index).getD (updateSink_create info))⟩, ?_⟩
    · rw [updateSink_sinkWidgets]; exact IndexMap.get_assign_self _ _ _
    · exact List.Pairwise.chain' ((@pairwise_set_build _ _
        (fun x : pa_sink_port_info => (x.priority, x.name))
        sink_port_prio_compare_iff info.ports))
  · intro env s info
    obtain ⟨s0, h0⟩ := updateSource_sourceWidgets env s info
    refine ⟨⟨_, ?_, updateSource_fields_ports env s0 info
      ((s.sourceWidgets.get info.index).getD (updateSource_create env s info).2)⟩, ?_⟩
    · rw [h0]; exact IndexMap.get_assign_self _ _ _
    · exact List.Pairwise.chain' ((@pairwise_set_build _ _
        (fun x : pa_source_port_info => (x.priority, x.name))
        source_port_prio_compare_iff info.ports))
  · intro s info
    refine ⟨⟨_, ?_, updateCard_fields_profiles info
      ((s.cardWidgets.get info.index).getD { CardWidget.create with index := info.index })⟩, ?_⟩
    · rw [updateCard_cardWidgets]; exact IndexMap.get_assign_self _ _ _
    · exact List.Pairwise.chain' ((@pairwise_set_build _ _
        (fun x : pa_card_profile_info => (x.priority, x.name))
        profile_prio_compare_iff info.profiles))

/-! ## C2 -/

/-- C2, as stated, fails: two ports that share priority and name but differ in
description come out with the description of whichever was inserted first, so
a permutation of the input changes the built sequence. -/
theorem set_builder_depends_on_input_order :
    ¬ ∀ (l l' : List pa_sink_port_info), l.Perm l' → sink_ports l = sink_ports l' := by
  intro h
  have := h [⟨"a", "X", 1⟩, ⟨"a", "Y", 1⟩] [⟨"a", "Y", 1⟩, ⟨"a", "X", 1⟩]
    (List.Perm.swap _ _ _)
  revert this
  decide

/-- C2, amended: for every input list and every permutation of it, the built
sequence carries the same names in the same order, and the whole (name,
description) sequence is identical whenever any two options of the list that
share both priority and name also share their description. This holds for the
profile builder of updateCard and the port builders of updateSink and
updateSource. -/
theorem set_builder_permutation_invariant :
    (∀ (l l' : List pa_card_profile_info), l.Perm l' →
      (card_profiles l).map Prod.fst = (card_profiles l').map Prod.fst ∧
      ((∀ a ∈ l, ∀ b ∈ l, a.priority = b.priority → a.name = b.name →
          a.description = b.description) → card_profiles l = card_profiles l')) ∧
    (∀ (l l' : List pa_sink_port_info), l.Perm l' →
      (sink_ports l).map Prod.fst = (sink_ports l').map Prod.fst ∧
      ((∀ a ∈ l, ∀ b ∈ l, a.priority = b.priority → a.name = b.name →
          a.description = b.description) → sink_ports l = sink_ports l')) ∧
    (∀ (l l' : List pa_source_port_info), l.Perm l' →
      (source_ports l).map Prod.fst = (source_ports l').map Prod.fst ∧
      ((∀ a ∈ l, ∀ b ∈ l, a.priority = b.priority → a.name = b.name →
          a.description = b.description) → source_ports l = source_ports l')) := by
  refine ⟨?_, ?_, ?_⟩
  · intro l l' hp
    constructor
    · simp only [card_profiles, List.map_map]
      exact @set_build_map_perm _ _ (fun x : pa_card_profile_info => (x.priority, x.name)) _ _
        profile_prio_compare_iff _ _ hp (fun x _ y _ e => (Prod.ext_iff.mp e).2)
    · intro hd
      exact @set_build_map_perm _ _ (fun x : pa_card_profile_info => (x.priority, x.name)) _ _
        profile_prio_compare_iff _ _ hp (fun x hx y hy e =>
          Prod.ext (Prod.ext_iff.mp e).2 (hd x hx y hy (Prod.ext_iff.mp e).1 (Prod.ext_iff.mp e).2))
  · intro l l' hp
    constructor
    · simp only [sink_ports, List.map_map]
      exact @set_build_map_perm _ _ (fun x : pa_sink_port_info => (x.priority, x.name)) _ _
        sink_port_prio_compare_iff _ _ hp (fun x _ y _ e => (Prod.ext_iff.mp e).2)
    · intro hd
      exact @set_build_map_perm _ _ (fun x : pa_sink_port_info => (x.priority, x.name)) _ _
        sink_port_prio_compare_iff _ _ hp (fun x hx y hy e =>
          Prod.ext (Prod.ext_iff.mp e).2 (hd x hx y hy (Prod.ext_iff.mp e).1 (Prod.ext_iff.mp e).2))
  · intro l l' hp
    constructor
    · simp only [source_ports, List.map_map]
      exact @set_build_map_perm _ _ (fun x : pa_source_port_info => (x.priority, x.name)) _ _
        source_port_prio_compare_iff _ _ hp (fun x _ y _ e => (Prod.ext_iff.mp e).2)
    · intro hd
      exact @set_build_map_perm _ _ (fun x : pa_source_port_info => (x.priority, x.name)) _ _
        source_port_prio_compare_iff _ _ hp (fun x hx y hy e =>
          Prod.ext (Prod.ext_iff.mp e).2 (hd x hx y hy (Prod.ext_iff.mp e).1 (Prod.ext_iff.mp e).2))

/-- Witness for the amended C2 on two ports of equal priority and distinct
names, listed in both orders. -/
theorem set_builder_permutation_invariant_witness :
    sink_ports [⟨"hp", "Headphones", 10⟩, ⟨"sp", "Speakers", 10⟩]
      = sink_ports [⟨"sp", "Speakers", 10⟩, ⟨"hp", "Headphones", 10⟩] :=
  (set_builder_permutation_invariant.2.1 _ _ (List.Perm.swap _ _ _)).2 (by decide)

/-! ## C3 -/

/-- C3: setIconFromProplist picks the icon name by the first rule that
applies: the media icon name if present; else the window icon name; else the
application icon name; else, when a media role is present, the role itself for
video and phone, audio for music, applications-games for game,
dialog-information for event; else (no role, or any other role) the default
passed by the caller. -/
theorem setIconFromProplist_fallback_chain (l : pa_proplist) (d : String) :
    (∀ t, pa_proplist_gets l PA_PROP_MEDIA_ICON_NAME = some t →
      setIconFromProplist l d = t) ∧
    (pa_proplist_gets l PA_PROP_MEDIA_ICON_NAME = none →
      ∀ t, pa_proplist_gets l PA_PROP_WINDOW_ICON_NAME = some t →
        setIconFromProplist l d = t) ∧
    (pa_proplist_gets l PA_PROP_MEDIA_ICON_NAME = none →
      pa_proplist_gets l PA_PROP_WINDOW_ICON_NAME = none →
      ∀ t, pa_proplist_gets l PA_PROP_APPLICATION_ICON_NAME = some t →
        setIconFromProplist l d = t) ∧
    (pa_proplist_gets l PA_PROP_MEDIA_ICON_NAME = none →
      pa_proplist_gets l PA_PROP_WINDOW_ICON_NAME = none →
      pa_proplist_gets l PA_PROP_APPLICATION_ICON_NAME = none →
      ∀ r, pa_proplist_gets l PA_PROP_MEDIA_ROLE = some r →
        setIconFromProplist l d =
          if r = "video" ∨ r = "phone" then r
          else if r = "music" then "audio"
          else if r = "game" then "applications-games"
          else if r = "event" then "dialog-information"
          else d) ∧
    (pa_proplist_gets l PA_PROP_MEDIA_ICON_NAME = none →
      pa_proplist_gets l PA_PROP_WINDOW_ICON_NAME = none →
      pa_proplist_gets l PA_PROP_APPLICATION_ICON_NAME = none →
      pa_proplist_gets l PA_PROP_MEDIA_ROLE = none →
        setIconFromProplist l d = d) := by
  refine ⟨?_, ?_, ?_, ?_, ?_⟩
  · intro t h
    simp [setIconFromProplist, h]
  · intro h1 t h
    simp [setIconFromProplist, h1, h]
  · intro h1 h2 t h
    simp [setIconFromProplist, h1, h2, h]
  · intro h1 h2 h3 r h
    simp only [setIconFromProplist, h1, h2, h3, h, strcmp_eq_zero_iff]
  · intro h1 h2 h3 h4
    simp [setIconFromProplist, h1, h2, h3, h4]

/-- Witness for C3: a stream with only the media role music gets the icon
audio, whatever the default. -/
theorem setIconFromProplist_fallback_chain_witness :
    setIconFromProplist [("media.role", "music")] "audio-card" = "audio" :=
  ((setIconFromProplist_fallback_chain [("media.role", "music")] "audio-card").2.2.2.1
    (by decide) (by decide) (by decide) "music" (by decide)).trans (by decide)

/-! ## C4 -/

/-- C4: updateVolumeMeter(s, k, v) hands v to exactly these widgets. With a
valid stream index k, only the sink-input widget registered under k (nobody
when k is not registered); with PA_INVALID_INDEX, every sink widget whose
monitor_index is s, every source widget whose index is s and every
source-output widget whose sourceIndex is s. Every other widget, the cards and
the role widget are left as they were. -/
theorem updateVolumeMeter_delivery (s : MainWindow) (src k : Nat) (v : c_double) :
    (∀ j, (updateVolumeMeter s src k v).sinkInputWidgets.get j =
      (s.sinkInputWidgets.get j).map (fun w =>
        if k ≠ PA_INVALID_INDEX ∧ j = k then w.updatePeak v else w)) ∧
    (∀ j, (updateVolumeMeter s src k v).sinkWidgets.get j =
      (s.sinkWidgets.get j).map (fun w =>
        if k = PA_INVALID_INDEX ∧ w.monitor_index = src then w.updatePeak v else w)) ∧
    (∀ j, (updateVolumeMeter s src k v).sourceWidgets.get j =
      (s.sourceWidgets.get j).map (fun w =>
        if k = PA_INVALID_INDEX ∧ w.index = src then w.updatePeak v else w)) ∧
    (∀ j, (updateVolumeMeter s src k v).sourceOutputWidgets.get j =
      (s.sourceOutputWidgets.get j).map (fun w =>
        if k = PA_INVALID_INDEX ∧ w.sourceIndex = src then w.updatePeak v else w)) ∧
    (updateVolumeMeter s src k v).cardWidgets = s.cardWidgets ∧
    (updateVolumeMeter s src k v).eventRoleWidget = s.eventRoleWidget := by
  by_cases hk : k = PA_INVALID_INDEX
  · subst hk
    simp [updateVolumeMeter, IndexMap.get_mapValues]
  · have key : ∀ j, (updateVolumeMeter s src k v).sinkInputWidgets.get j =
        (s.sinkInputWidgets.get j).map (fun w => if j = k then w.updatePeak v else w) := by
      intro j
      unfold updateVolumeMeter
      rw [if_pos hk]
      cases h : s.sinkInputWidgets.get k with
      | none =>
        by_cases hj : j = k
        · subst hj; simp [h]
        · simp [hj]
      | some w =>
        by_cases hj : j = k
        · subst hj; simp [h, IndexMap.get_assign_self]
        · simp [hj, IndexMap.get_assign_ne _ _ hj]
    refine ⟨?_, ?_, ?_, ?_, ?_, ?_⟩
    · intro j; rw [key j]; simp [hk]
    all_goals
      unfold updateVolumeMeter
      rw [if_pos hk]
      cases h : s.sinkInputWidgets.get k <;> simp [hk]

/-! ## C5 -/

/-- C5: after updateServer every registered sink has its default flag set iff
its name equals the snapshot's default sink name (the empty string when the
snapshot has none), and every registered source likewise against the default
source name. The sinks and sources registered before the call are the ones
registered after it, each with its name unchanged and its flag re-evaluated;
the two names are cached. -/
theorem updateServer_reevaluates_default (s : MainWindow) (info : pa_server_info) :
    (∀ e ∈ (updateServer s info).sinkWidgets,
      (e.2.isDefault = true ↔ e.2.name = info.default_sink_name.getD "")) ∧
    (∀ e ∈ (updateServer s info).sourceWidgets,
      (e.2.isDefault = true ↔ e.2.name = info.default_source_name.getD "")) ∧
    (∀ i w, s.sinkWidgets.get i = some w →
      ∃ w', (updateServer s info).sinkWidgets.get i = some w' ∧ w'.name = w.name ∧
        (w'.isDefault = true ↔ w.name = info.default_sink_name.getD "")) ∧
    (∀ i w, s.sourceWidgets.get i = some w →
      ∃ w', (updateServer s info).sourceWidgets.get i = some w' ∧ w'.name = w.name ∧
        (w'.isDefault = true ↔ w.name = info.default_source_name.getD "")) ∧
    (updateServer s info).sinkWidgets.keys = s.sinkWidgets.keys ∧
    (updateServer s info).sourceWidgets.keys = s.sourceWidgets.keys ∧
    (updateServer s info).defaultSinkName = info.default_sink_name.getD "" ∧
    (updateServer s info).defaultSourceName = info.default_source_name.getD "" := by
  refine ⟨?_, ?_, ?_, ?_, ?_, ?_, rfl, rfl⟩
  · intro e he
    simp only [updateServer, IndexMap.mapValues, List.mem_map] at he
    obtain ⟨e0, _, rfl⟩ := he
    simp [SinkWidget.setDefault, SourceWidget.setDefault]
  · intro e he
    simp only [updateServer, IndexMap.mapValues, List.mem_map] at he
    obtain ⟨e0, _, rfl⟩ := he
    simp [SinkWidget.setDefault, SourceWidget.setDefault]
  · intro i w h
    simp [updateServer, IndexMap.get_mapValues, h, SinkWidget.setDefault,
      SourceWidget.setDefault]
  · intro i w h
    simp [updateServer, IndexMap.get_mapValues, h, SinkWidget.setDefault,
      SourceWidget.setDefault]
  · simp [updateServer, IndexMap.keys_mapValues]
  · simp [updateServer, IndexMap.keys_mapValues]

/-- Witness for C5: a sink registered before the server snapshot arrives
becomes the default once the snapshot names it. -/
theorem updateServer_reevaluates_default_witness :
    ∃ w', (updateServer (updateSink exampleEnv MainWindow.init speakersSink).1
        ⟨some "alsa_output.analog-stereo", none⟩).sinkWidgets.get 5 = some w' ∧
      w'.name = "alsa_output.analog-stereo" ∧
      (w'.isDefault = true ↔
        "alsa_output.analog-stereo" = (some "alsa_output.analog-stereo").getD "") :=
  (updateServer_reevaluates_default (updateSink exampleEnv MainWindow.init speakersSink).1
    ⟨some "alsa_output.analog-stereo", none⟩).2.2.1 5
    (updateSink_fields exampleEnv MainWindow.init speakersSink (updateSink_create speakersSink))
    (by rfl)

/-! ## Upserts into a registry -/

theorem IndexMap.upsert_step {T : Type} {m : IndexMap T} (hm : m.WF) (k : Nat) (v : T) :
    (m.assign k v).WF ∧ (m.assign k v).keys.Nodup ∧
    (m.count k = true → (m.assign k v).keys = m.keys) ∧
    (m.count k = false → (m.assign k v).keys.Perm (k :: m.keys)) ∧
    (∀ j, j ≠ k → (m.assign k v).get j = m.get j) :=
  ⟨IndexMap.wf_assign hm k v, IndexMap.wf_nodup_keys (IndexMap.wf_assign hm k v),
   IndexMap.keys_assign_of_count hm v, IndexMap.keys_assign_perm v,
   fun _ hj => IndexMap.get_assign_ne m v hj⟩

theorem fold_registry_keys {Op T : Type} (f : MainWindow → Op → MainWindow)
    (m : MainWindow → IndexMap T) (idx : Op → Nat) (ign : Op → Bool)
    (step : ∀ s o, (m s).WF → (m (f s o)).WF ∧
      ∀ j, j ∈ (m (f s o)).keys ↔ j ∈ (m s).keys ∨ (ign o = false ∧ idx o = j))
    (ops : List Op) : ∀ s, (m s).WF →
      (m (ops.foldl f s)).keys.Nodup ∧
      ∀ j, j ∈ (m (ops.foldl f s)).keys ↔
        j ∈ (m s).keys ∨ ∃ o ∈ ops, ign o = false ∧ idx o = j := by
  induction ops with
  | nil =>
    intro s hs
    exact ⟨IndexMap.wf_nodup_keys hs, fun j => by simp⟩
  | cons o rest ih =>
    intro s hs
    obtain ⟨hw, hk⟩ := step s o hs
    obtain ⟨hn, hm⟩ := ih (f s o) hw
    refine ⟨hn, fun j => ?_⟩
    rw [List.foldl_cons, hm j, hk j]
    simp only [List.mem_cons, exists_eq_or_imp]
    tauto

theorem card_flags_fold_kept (l : List pa_card_profile_info) : ∀ w0 : CardWidget,
    (l.foldl (fun w p =>
      { w with hasSinks := w.hasSinks || decide (p.n_sinks > 0),
               hasSources := w.hasSources || decide (p.n_sources > 0) }) w0).index = w0.index ∧
    (l.foldl (fun w p =>
      { w with hasSinks := w.hasSinks || decide (p.n_sinks > 0),
               hasSources := w.hasSources || decide (p.n_sources > 0) }) w0).visible
      = w0.visible := by
  induction l with
  | nil => intro w0; exact ⟨rfl, rfl⟩
  | cons p ps ih =>
    intro w0
    simp only [List.foldl_cons]
    rw [(ih _).1, (ih _).2]
    exact ⟨rfl, rfl⟩

theorem updateCard_fields_kept (info : pa_card_info) (w : CardWidget) :
    (updateCard_fields info w).index = w.index ∧
    (updateCard_fields info w).visible = w.visible := by
  unfold updateCard_fields
  simp only
  rw [(card_flags_fold_kept info.profiles _).1, (card_flags_fold_kept info.profiles _).2]
  exact ⟨rfl, rfl⟩

theorem updateSink_fields_kept (env : Env) (s : MainWindow) (info : pa_sink_info)
    (w : SinkWidget) :
    (updateSink_fields env s info w).index = w.index ∧
    (updateSink_fields env s info w).monitor_index = w.monitor_index ∧
    (updateSink_fields env s info w).baseVolume = w.baseVolume ∧
    (updateSink_fields env s info w).channelMap = w.channelMap ∧
    (updateSink_fields env s info w).peaks = w.peaks := by
  unfold updateSink_fields
  simp only
  split <;> exact ⟨rfl, rfl, rfl, rfl, rfl⟩

theorem updateSource_fields_kept (env : Env) (s : MainWindow) (info : pa_source_info)
    (w : SourceWidget) :
    (updateSource_fields env s info w).index = w.index ∧
    (updateSource_fields env s info w).baseVolume = w.baseVolume ∧
    (updateSource_fields env s info w).channelMap = w.channelMap ∧
    (updateSource_fields env s info w).peaks = w.peaks :=
  ⟨rfl, rfl, rfl, rfl⟩

theorem updateSinkInput_fields_kept (env : Env) (s : MainWindow) (info : pa_sink_input_info)
    (w : SinkInputWidget) :
    (updateSinkInput_fields env s info w).index = w.index ∧
    (updateSinkInput_fields env s info w).clientIndex = w.clientIndex ∧
    (updateSinkInput_fields env s info w).channelMap = w.channelMap ∧
    (updateSinkInput_fields env s info w).peaks = w.peaks := by
  unfold updateSinkInput_fields
  simp only
  split <;> exact ⟨rfl, rfl, rfl, rfl⟩

theorem updateSourceOutput_fields_kept (env : Env) (s : MainWindow)
    (info : pa_source_output_info) (w : SourceOutputWidget) :
    (updateSourceOutput_fields env s info w).index = w.index ∧
    (updateSourceOutput_fields env s info w).clientIndex = w.clientIndex ∧
    (updateSourceOutput_fields env s info w).channelMap = w.channelMap ∧
    (updateSourceOutput_fields env s info w).peaks = w.peaks := by
  unfold updateSourceOutput_fields
  simp only
  split <;> split <;> exact ⟨rfl, rfl, rfl, rfl⟩

theorem createMonitorStreamForSource_sinkInputWidgets (env : Env) (s : MainWindow)
    (a b : Nat) (c : Bool) :
    (createMonitorStreamForSource env s a b c).1.sinkInputWidgets = s.sinkInputWidgets := by
  cases h1 : env.stream_new_ok <;> cases h2 : env.connect_record_ok <;>
    simp [createMonitorStreamForSource, show_error, h1, h2]

theorem createMonitorStreamForSource_clientNames (env : Env) (s : MainWindow)
    (a b : Nat) (c : Bool) :
    (createMonitorStreamForSource env s a b c).1.clientNames = s.clientNames := by
  cases h1 : env.stream_new_ok <;> cases h2 : env.connect_record_ok <;>
    simp [createMonitorStreamForSource, show_error, h1, h2]

theorem createMonitorStreamForSinkInput_kept (env : Env) (s : MainWindow)
    (w : SinkInputWidget) (k : Nat) :
    (createMonitorStreamForSinkInput env s w k).1.sinkInputWidgets = s.sinkInputWidgets ∧
    (createMonitorStreamForSinkInput env s w k).1.clientNames = s.clientNames ∧
    (createMonitorStreamForSinkInput env s w k).2.index = w.index ∧
    (createMonitorStreamForSinkInput env s w k).2.clientIndex = w.clientIndex ∧
    (createMonitorStreamForSinkInput env s w k).2.channelMap = w.channelMap ∧
    (createMonitorStreamForSinkInput env s w k).2.peaks = w.peaks ∧
    (createMonitorStreamForSinkInput env s w k).2.boldNameLabel = w.boldNameLabel ∧
    (createMonitorStreamForSinkInput env s w k).2.nameLabel = w.nameLabel := by
  unfold createMonitorStreamForSinkInput
  cases hs : s.sinkWidgets.get k with
  | none => exact ⟨rfl, rfl, rfl, rfl, rfl, rfl, rfl, rfl⟩
  | some sw =>
    simp only
    rw [createMonitorStreamForSource_sinkInputWidgets, createMonitorStreamForSource_clientNames]
    cases hp : w.peak <;> exact ⟨rfl, rfl, rfl, rfl, rfl, rfl, rfl, rfl⟩

theorem updateSinkInput_lookup_kept (env : Env) (s : MainWindow) (info : pa_sink_input_info) :
    (updateSinkInput_lookup env s info).1.1.sinkInputWidgets = s.sinkInputWidgets ∧
    (updateSinkInput_lookup env s info).1.1.clientNames = s.clientNames ∧
    (updateSinkInput_lookup env s info).2 = !(s.sinkInputWidgets.count info.index) ∧
    (∀ w, s.sinkInputWidgets.get info.index = some w →
      (updateSinkInput_lookup env s info).1.2.index = w.index ∧
      (updateSinkInput_lookup env s info).1.2.clientIndex = w.clientIndex ∧
      (updateSinkInput_lookup env s info).1.2.channelMap = w.channelMap ∧
      (updateSinkInput_lookup env s info).1.2.peaks = w.peaks) := by
  unfold updateSinkInput_lookup
  cases h : s.sinkInputWidgets.get info.index with
  | none =>
    have hc := (IndexMap.count_eq_false_iff _ _).2 h
    simp only [hc]
    split
    · have := createMonitorStreamForSinkInput_kept env s
        { SinkInputWidget.create with
          channelMap := info.channel_map, can_decibel := true,
          index := info.index, clientIndex := info.client } info.sink
      exact ⟨this.1, this.2.1, rfl, fun w hw => by cases hw⟩
    · exact ⟨rfl, rfl, rfl, fun w hw => by cases hw⟩
  | some w0 =>
    have hc : s.sinkInputWidgets.count info.index = true :=
      (IndexMap.count_eq_true_iff _ _).2 ⟨w0, h⟩
    simp only [hc]
    split
    · have := createMonitorStreamForSinkInput_kept env s w0 info.sink
      refine ⟨this.1, this.2.1, rfl, fun w hw => ?_⟩
      cases hw
      exact ⟨this.2.2.1, this.2.2.2.1, this.2.2.2.2.1, this.2.2.2.2.2.1⟩
    · refine ⟨rfl, rfl, rfl, fun w hw => ?_⟩
      cases hw
      exact ⟨rfl, rfl, rfl, rfl⟩

theorem updateSinkInput_sinkInputWidgets (env : Env) (s : MainWindow)
    (info : pa_sink_input_info) (h : updateSinkInput_ignored info = false) :
    (updateSinkInput env s info).sinkInputWidgets =
      s.sinkInputWidgets.assign info.index
        (updateSinkInput_fields env (updateSinkInput_lookup env s info).1.1 info
          (updateSinkInput_lookup env s info).1.2) := by
  unfold updateSinkInput
  simp only [h, Bool.false_eq_true, if_false]
  split <;> simp [(updateSinkInput_lookup_kept env s info).1]

theorem updateSinkInput_of_ignored (env : Env) (s : MainWindow)
    (info : pa_sink_input_info) (h : updateSinkInput_ignored info = true) :
    updateSinkInput env s info = s := by
  unfold updateSinkInput
  simp [h]

theorem updateSourceOutput_sourceOutputWidgets (env : Env) (s : MainWindow)
    (info : pa_source_output_info) (h : updateSourceOutput_ignored info = false) :
    (updateSourceOutput env s info).sourceOutputWidgets =
      s.sourceOutputWidgets.assign info.index
        (updateSourceOutput_fields env s info
          ((s.sourceOutputWidgets.get info.index).getD (updateSourceOutput_create env info))) := by
  unfold updateSourceOutput
  simp only [h, Bool.false_eq_true, if_false]
  cases hg : s.sourceOutputWidgets.get info.index <;> simp

theorem updateSourceOutput_of_ignored (env : Env) (s : MainWindow)
    (info : pa_source_output_info) (h : updateSourceOutput_ignored info = true) :
    updateSourceOutput env s info = s := by
  unfold updateSourceOutput
  simp [h]

/-! ## C6 -/

/-- C6, as stated, fails for streams: a playback stream snapshot that carries
the event role's stream-restore id is dropped, so an update for an absent
index does not add that index. -/
theorem updateSinkInput_may_not_add_index :
    MainWindow.init.sinkInputWidgets.count eventStream.index = false ∧
    (updateSinkInput exampleEnv MainWindow.init eventStream).sinkInputWidgets.count
      eventStream.index = false := by
  decide

/-- C6, amended: in a state whose maps are well-formed, an update of any of
the five kinds keeps one entity per index. An update for a registered index
leaves the list of registered indices unchanged and rewrites that widget in
place (it keeps its index and the fields written only at creation); an update
for an absent index adds exactly that index; every other entry is untouched;
updateSink returns true iff the index was absent. The exception is a stream
snapshot dropped by the housekeeping filter of updateSinkInput or
updateSourceOutput, which leaves the state unchanged. After any sequence of
updates of one kind the registry still holds one entity per index, and an index
is registered iff it was before or some snapshot of the sequence that was not
dropped carries it. -/
theorem registry_upsert (s : MainWindow) (hs : s.WF) :
    (∀ (info : pa_card_info),
      (updateCard s info).cardWidgets.keys.Nodup ∧
      (s.cardWidgets.count info.index = true →
        (updateCard s info).cardWidgets.keys = s.cardWidgets.keys ∧
        ∀ w, s.cardWidgets.get info.index = some w →
          ∃ w', (updateCard s info).cardWidgets.get info.index = some w' ∧
            w'.index = w.index ∧ w'.visible = w.visible) ∧
      (s.cardWidgets.count info.index = false →
        (updateCard s info).cardWidgets.keys.Perm (info.index :: s.cardWidgets.keys)) ∧
      (∀ j, j ≠ info.index → (updateCard s info).cardWidgets.get j = s.cardWidgets.get j)) ∧
    (∀ (infos : List pa_card_info),
      (infos.foldl updateCard s).cardWidgets.keys.Nodup ∧
      ∀ j, j ∈ (infos.foldl updateCard s).cardWidgets.keys ↔
        j ∈ s.cardWidgets.keys ∨ ∃ i ∈ infos, i.index = j) ∧
    (∀ (env : Env) (info : pa_sink_info),
      (updateSink env s info).1.sinkWidgets.keys.Nodup ∧
      (s.sinkWidgets.count info.index = true →
        (updateSink env s info).1.sinkWidgets.keys = s.sinkWidgets.keys ∧
        ∀ w, s.sinkWidgets.get info.index = some w →
          ∃ w', (updateSink env s info).1.sinkWidgets.get info.index = some w' ∧
            w'.index = w.index ∧ w'.monitor_index = w.monitor_index ∧
            w'.baseVolume = w.baseVolume ∧ w'.channelMap = w.channelMap ∧
            w'.peaks = w.peaks) ∧
      (s.sinkWidgets.count info.index = false →
        (updateSink env s info).1.sinkWidgets.keys.Perm (info.index :: s.sinkWidgets.keys)) ∧
      (∀ j, j ≠ info.index →
        (updateSink env s info).1.sinkWidgets.get j = s.sinkWidgets.get j) ∧
      ((updateSink env s info).2 = true ↔ s.sinkWidgets.count info.index = false)) ∧
    (∀ (ops : List (Env × pa_sink_info)),
      (ops.foldl (fun t o => (updateSink o.1 t o.2).1) s).sinkWidgets.keys.Nodup ∧
      ∀ j, j ∈ (ops.foldl (fun t o => (updateSink o.1 t o.2).1) s).sinkWidgets.keys ↔
        j ∈ s.sinkWidgets.keys ∨ ∃ o ∈ ops, o.2.index = j) ∧
    (∀ (env : Env) (info : pa_source_info),
      (updateSource env s info).sourceWidgets.keys.Nodup ∧
      (s.sourceWidgets.count info.index = true →
        (updateSource env s info).sourceWidgets.keys = s.sourceWidgets.keys ∧
        ∀ w, s.sourceWidgets.get info.index = some w →
          ∃ w', (updateSource env s info).sourceWidgets.get info.index = some w' ∧
            w'.index = w.index ∧ w'.baseVolume = w.baseVolume ∧
            w'.channelMap = w.channelMap ∧ w'.peaks = w.peaks) ∧
      (s.sourceWidgets.count info.index = false →
        (updateSource env s info).sourceWidgets.keys.Perm
          (info.index :: s.sourceWidgets.keys)) ∧
      (∀ j, j ≠ info.index →
        (updateSource env s info).sourceWidgets.get j = s.sourceWidgets.get j)) ∧
    (∀ (ops : List (Env × pa_source_info)),
      (ops.foldl (fun t o => updateSource o.1 t o.2) s).sourceWidgets.keys.Nodup ∧
      ∀ j, j ∈ (ops.foldl (fun t o => updateSource o.1 t o.2) s).sourceWidgets.keys ↔
        j ∈ s.sourceWidgets.keys ∨ ∃ o ∈ ops, o.2.index = j) ∧
    (∀ (env : Env) (info : pa_sink_input_info),
      (updateSinkInput_ignored info = true → updateSinkInput env s info = s) ∧
      (updateSinkInput_ignored info = false →
        (updateSinkInput env s info).sinkInputWidgets.keys.Nodup ∧
        (s.sinkInputWidgets.count info.index = true →
          (updateSinkInput env s info).sinkInputWidgets.keys = s.sinkInputWidgets.keys ∧
          ∀ w, s.sinkInputWidgets.get info.index = some w →
            ∃ w', (updateSinkInput env s info).sinkInputWidgets.get info.index = some w' ∧
              w'.index = w.index ∧ w'.clientIndex = w.clientIndex ∧
              w'.channelMap = w.channelMap ∧ w'.peaks = w.peaks) ∧
        (s.sinkInputWidgets.count info.index = false →
          (updateSinkInput env s info).sinkInputWidgets.keys.Perm
            (info.index :: s.sinkInputWidgets.keys)) ∧
        (∀ j, j ≠ info.index →
          (updateSinkInput env s info).sinkInputWidgets.get j = s.sinkInputWidgets.get j))) ∧
    (∀ (ops : List (Env × pa_sink_input_info)),
      (ops.foldl (fun t o => updateSinkInput o.1 t o.2) s).sinkInputWidgets.keys.Nodup ∧
      ∀ j, j ∈ (ops.foldl (fun t o => updateSinkInput o.1 t o.2) s).sinkInputWidgets.keys ↔
        j ∈ s.sinkInputWidgets.keys ∨
          ∃ o ∈ ops, updateSinkInput_ignored o.2 = false ∧ o.2.index = j) ∧
    (∀ (env : Env) (info : pa_source_output_info),
      (updateSourceOutput_ignored info = true → updateSourceOutput env s info = s) ∧
      (updateSourceOutput_ignored info = false →
        (updateSourceOutput env s info).sourceOutputWidgets.keys.Nodup ∧
        (s.sourceOutputWidgets.count info.index = true →
          (updateSourceOutput env s info).sourceOutputWidgets.keys
            = s.sourceOutputWidgets.keys ∧
          ∀ w, s.sourceOutputWidgets.get info.index = some w →
            ∃ w', (updateSourceOutput env s info).sourceOutputWidgets.get info.index
                = some w' ∧
              w'.index = w.index ∧ w'.clientIndex = w.clientIndex ∧
              w'.channelMap = w.channelMap ∧ w'.peaks = w.peaks) ∧
        (s.sourceOutputWidgets.count info.index = false →
          (updateSourceOutput env s info).sourceOutputWidgets.keys.Perm
            (info.index :: s.sourceOutputWidgets.keys)) ∧
        (∀ j, j ≠ info.index →
          (updateSourceOutput env s info).sourceOutputWidgets.get j
            = s.sourceOutputWidgets.get j))) ∧
    (∀ (ops : List (Env × pa_source_output_info)),
      (ops.foldl (fun t o => updateSourceOutput o.1 t o.2) s).sourceOutputWidgets.keys.Nodup ∧
      ∀ j, j ∈ (ops.foldl (fun t o => updateSourceOutput o.1 t o.2)
          s).sourceOutputWidgets.keys ↔
        j ∈ s.sourceOutputWidgets.keys ∨
          ∃ o ∈ ops, updateSourceOutput_ignored o.2 = false ∧ o.2.index = j) := by
  obtain ⟨hcard, hsink, hsource, hsi, hso, _⟩ := hs
  refine ⟨?_, ?_, ?_, ?_, ?_, ?_, ?_, ?_, ?_, ?_⟩
  · intro info
    rw [updateCard_cardWidgets]
    obtain ⟨_, h2, h3, h4, h5⟩ := IndexMap.upsert_step hcard info.index
      (updateCard_fields info
        ((s.cardWidgets.get info.index).getD { CardWidget.create with index := info.index }))
    refine ⟨h2, fun hc => ⟨h3 hc, fun w hw => ⟨_, IndexMap.get_assign_self _ _ _, ?_⟩⟩, h4, h5⟩
    rw [hw]
    exact updateCard_fields_kept info w
  · intro infos
    have := fold_registry_keys updateCard (fun t => t.cardWidgets)
      (fun i : pa_card_info => i.index) (fun _ => false)
      (fun t o ht => by
        simp only [updateCard_cardWidgets]
        exact ⟨IndexMap.wf_assign ht _ _, fun j => by
          rw [IndexMap.mem_keys_assign]; simp; tauto⟩) infos s hcard
    simpa using this
  · intro env info
    rw [updateSink_sinkWidgets, updateSink_snd]
    obtain ⟨_, h2, h3, h4, h5⟩ := IndexMap.upsert_step hsink info.index
      (updateSink_fields env s info
        ((s.sinkWidgets.get info.index).getD (updateSink_create info)))
    refine ⟨h2, fun hc => ⟨h3 hc, fun w hw => ⟨_, IndexMap.get_assign_self _ _ _, ?_⟩⟩,
      h4, h5, by simp⟩
    rw [hw]
    exact updateSink_fields_kept env s info w
  · intro ops
    have := fold_registry_keys (fun t (o : Env × pa_sink_info) => (updateSink o.1 t o.2).1)
      (fun t => t.sinkWidgets) (fun o => o.2.index) (fun _ => false)
      (fun t o ht => by
        simp only [updateSink_sinkWidgets]
        exact ⟨IndexMap.wf_assign ht _ _, fun j => by
          rw [IndexMap.mem_keys_assign]; simp; tauto⟩) ops s hsink
    simpa using this
  · intro env info
    obtain ⟨s0, h0⟩ := updateSource_sourceWidgets env s info
    rw [h0]
    obtain ⟨_, h2, h3, h4, h5⟩ := IndexMap.upsert_step hsource info.index
      (updateSource_fields env s0 info
        ((s.sourceWidgets.get info.index).getD (updateSource_create env s info).2))
    refine ⟨h2, fun hc => ⟨h3 hc, fun w hw => ⟨_, IndexMap.get_assign_self _ _ _, ?_⟩⟩, h4, h5⟩
    rw [hw]
    exact updateSource_fields_kept env s0 info w
  · intro ops
    have := fold_registry_keys (fun t (o : Env × pa_source_info) => updateSource o.1 t o.2)
      (fun t => t.sourceWidgets) (fun o => o.2.index) (fun _ => false)
      (fun t o ht => by
        obtain ⟨s0, h0⟩ := updateSource_sourceWidgets o.1 t o.2
        simp only [h0]
        exact ⟨IndexMap.wf_assign ht _ _, fun j => by
          rw [IndexMap.mem_keys_assign]; simp; tauto⟩) ops s hsource
    simpa using this
  · intro env info
    refine ⟨updateSinkInput_of_ignored env s info, fun hi => ?_⟩
    rw [updateSinkInput_sinkInputWidgets env s info hi]
    obtain ⟨_, h2, h3, h4, h5⟩ := IndexMap.upsert_step hsi info.index
      (updateSinkInput_fields env (updateSinkInput_lookup env s info).1.1 info
        (updateSinkInput_lookup env s info).1.2)
    refine ⟨h2, fun hc => ⟨h3 hc, fun w hw => ⟨_, IndexMap.get_assign_self _ _ _, ?_⟩⟩, h4, h5⟩
    have hk := updateSinkInput_fields_kept env (updateSinkInput_lookup env s info).1.1 info
      (updateSinkInput_lookup env s info).1.2
    have hl := (updateSinkInput_lookup_kept env s info).2.2.2 w hw
    exact ⟨hk.1.trans hl.1, hk.2.1.trans hl.2.1, hk.2.2.1.trans hl.2.2.1,
      hk.2.2.2.trans hl.2.2.2⟩
  · intro ops
    exact fold_registry_keys (fun t (o : Env × pa_sink_input_info) => updateSinkInput o.1 t o.2)
      (fun t => t.sinkInputWidgets) (fun o => o.2.index)
      (fun o => updateSinkInput_ignored o.2)
      (fun t o ht => by
        cases hi : updateSinkInput_ignored o.2
        · simp only [updateSinkInput_sinkInputWidgets o.1 t o.2 hi]
          refine ⟨IndexMap.wf_assign ht _ _, fun j => ?_⟩
          rw [IndexMap.mem_keys_assign]
          constructor
          · rintro (h | h)
            · exact Or.inr ⟨hi, h.symm⟩
            · exact Or.inl h
          · rintro (h | ⟨_, h⟩)
            · exact Or.inr h
            · exact Or.inl h.symm
        · simp only [updateSinkInput_of_ignored o.1 t o.2 hi]
          refine ⟨ht, fun j => ⟨fun h => Or.inl h, ?_⟩⟩
          rintro (h | ⟨h, _⟩)
          · exact h
          · exact Bool.noConfusion (hi.symm.trans h)) ops s hsi
  · intro env info
    refine ⟨updateSourceOutput_of_ignored env s info, fun hi => ?_⟩
    rw [updateSourceOutput_sourceOutputWidgets env s info hi]
    obtain ⟨_, h2, h3, h4, h5⟩ := IndexMap.upsert_step hso info.index
      (updateSourceOutput_fields env s info
        ((s.sourceOutputWidgets.get info.index).getD (updateSourceOutput_create env info)))
    refine ⟨h2, fun hc => ⟨h3 hc, fun w hw => ⟨_, IndexMap.get_assign_self _ _ _, ?_⟩⟩, h4, h5⟩
    rw [hw]
    exact updateSourceOutput_fields_kept env s info w
  · intro ops
    exact fold_registry_keys
      (fun t (o : Env × pa_source_output_info) => updateSourceOutput o.1 t o.2)
      (fun t => t.sourceOutputWidgets) (fun o => o.2.index)
      (fun o => updateSourceOutput_ignored o.2)
      (fun t o ht => by
        cases hi : updateSourceOutput_ignored o.2
        · simp only [updateSourceOutput_sourceOutputWidgets o.1 t o.2 hi]
          refine ⟨IndexMap.wf_assign ht _ _, fun j => ?_⟩
          rw [IndexMap.mem_keys_assign]
          constructor
          · rintro (h | h)
            · exact Or.inr ⟨hi, h.symm⟩
            · exact Or.inl h
          · rintro (h | ⟨_, h⟩)
            · exact Or.inr h
            · exact Or.inl h.symm
        · simp only [updateSourceOutput_of_ignored o.1 t o.2 hi]
          refine ⟨ht, fun j => ⟨fun h => Or.inl h, ?_⟩⟩
          rintro (h | ⟨h, _⟩)
          · exact h
          · exact Bool.noConfusion (hi.symm.trans h)) ops s hso

/-- Witness for C6: the freshly constructed window is well-formed, sink 5 is
not registered in it, and updateSink on a snapshot of sink 5 returns true. The
window after that update is well-formed too and has sink 5 registered; a
second update with the same snapshot leaves the list of registered indices
as it is. -/
theorem registry_upsert_witness :
    MainWindow.init.WF ∧ MainWindow.init.sinkWidgets.count speakersSink.index = false ∧
    (updateSink exampleEnv MainWindow.init speakersSink).2 = true ∧
    (updateSink exampleEnv MainWindow.init speakersSink).1.WF ∧
    (updateSink exampleEnv MainWindow.init speakersSink).1.sinkWidgets.count
      speakersSink.index = true ∧
    (updateSink exampleEnv (updateSink exampleEnv MainWindow.init speakersSink).1
        speakersSink).1.sinkWidgets.keys
      = (updateSink exampleEnv MainWindow.init speakersSink).1.sinkWidgets.keys :=
  ⟨by decide, by decide,
   ((registry_upsert MainWindow.init (by decide)).2.2.1 exampleEnv
      speakersSink).2.2.2.2.mpr (by decide),
   by decide, by decide,
   (((registry_upsert (updateSink exampleEnv MainWindow.init speakersSink).1
        (by decide)).2.2.1 exampleEnv speakersSink).2.1 (by decide)).1⟩

/-! ## C7 -/

theorem removeCard_of_absent (s : MainWindow) (i : Nat)
    (h : s.cardWidgets.count i = false) : removeCard s i = s := by
  simp [removeCard, h]

theorem removeSink_of_absent (s : MainWindow) (i : Nat)
    (h : s.sinkWidgets.count i = false) : removeSink s i = s := by
  simp [removeSink, h]

theorem removeSource_of_absent (s : MainWindow) (i : Nat)
    (h : s.sourceWidgets.count i = false) : removeSource s i = s := by
  simp [removeSource, h]

theorem removeSinkInput_of_absent (s : MainWindow) (i : Nat)
    (h : s.sinkInputWidgets.count i = false) : removeSinkInput s i = s := by
  simp [removeSinkInput, h]

theorem removeSourceOutput_of_absent (s : MainWindow) (i : Nat)
    (h : s.sourceOutputWidgets.count i = false) : removeSourceOutput s i = s := by
  simp [removeSourceOutput, h]

theorem removeClient_of_absent (s : MainWindow) (i : Nat)
    (h : s.clientNames.count i = false) : removeClient s i = s := by
  simp [removeClient, IndexMap.touch, h, IndexMap.erase_assign_of_not_count]

theorem removeCard_absent_after (s : MainWindow) (i : Nat) :
    (removeCard s i).cardWidgets.count i = false := by
  unfold removeCard
  cases h : s.cardWidgets.count i <;> simp [h, IndexMap.count_erase_self]

theorem removeSink_absent_after (s : MainWindow) (i : Nat) :
    (removeSink s i).sinkWidgets.count i = false := by
  unfold removeSink
  cases h : s.sinkWidgets.count i <;> simp [h, IndexMap.count_erase_self]

theorem removeSource_absent_after (s : MainWindow) (i : Nat) :
    (removeSource s i).sourceWidgets.count i = false := by
  unfold removeSource
  cases h : s.sourceWidgets.count i <;> simp [h, IndexMap.count_erase_self]

theorem removeSinkInput_absent_after (s : MainWindow) (i : Nat) :
    (removeSinkInput s i).sinkInputWidgets.count i = false := by
  unfold removeSinkInput
  cases h : s.sinkInputWidgets.count i <;> simp [h, IndexMap.count_erase_self]

theorem removeSourceOutput_absent_after (s : MainWindow) (i : Nat) :
    (removeSourceOutput s i).sourceOutputWidgets.count i = false := by
  unfold removeSourceOutput
  cases h : s.sourceOutputWidgets.count i <;> simp [h, IndexMap.count_erase_self]

theorem removeClient_absent_after (s : MainWindow) (i : Nat) :
    (removeClient s i).clientNames.count i = false := by
  simp [removeClient, IndexMap.count_erase_self]

/-- C7: each of removeCard, removeSink, removeSource, removeSinkInput,
removeSourceOutput and removeClient, applied to an index that is not
registered, returns the state it was given (every map, the pending idle source
and the idle queue included), and applying the same remove twice in a row
gives the state that applying it once gives. -/
theorem remove_absent_is_noop_and_idempotent (s : MainWindow) (i : Nat) :
    (s.cardWidgets.count i = false → removeCard s i = s) ∧
    removeCard (removeCard s i) i = removeCard s i ∧
    (s.sinkWidgets.count i = false → removeSink s i = s) ∧
    removeSink (removeSink s i) i = removeSink s i ∧
    (s.sourceWidgets.count i = false → removeSource s i = s) ∧
    removeSource (removeSource s i) i = removeSource s i ∧
    (s.sinkInputWidgets.count i = false → removeSinkInput s i = s) ∧
    removeSinkInput (removeSinkInput s i) i = removeSinkInput s i ∧
    (s.sourceOutputWidgets.count i = false → removeSourceOutput s i = s) ∧
    removeSourceOutput (removeSourceOutput s i) i = removeSourceOutput s i ∧
    (s.clientNames.count i = false → removeClient s i = s) ∧
    removeClient (removeClient s i) i = removeClient s i :=
  ⟨removeCard_of_absent s i,
   removeCard_of_absent _ i (removeCard_absent_after s i),
   removeSink_of_absent s i,
   removeSink_of_absent _ i (removeSink_absent_after s i),
   removeSource_of_absent s i,
   removeSource_of_absent _ i (removeSource_absent_after s i),
   removeSinkInput_of_absent s i,
   removeSinkInput_of_absent _ i (removeSinkInput_absent_after s i),
   removeSourceOutput_of_absent s i,
   removeSourceOutput_of_absent _ i (removeSourceOutput_absent_after s i),
   removeClient_of_absent s i,
   removeClient_of_absent _ i (removeClient_absent_after s i)⟩

/-- Witness for C7: removing sink 8 from a window that holds only sink 5
changes nothing. -/
theorem remove_absent_is_noop_and_idempotent_witness :
    (updateSink exampleEnv MainWindow.init speakersSink).1.sinkWidgets.count 8 = false ∧
    removeSink (updateSink exampleEnv MainWindow.init speakersSink).1 8
      = (updateSink exampleEnv MainWindow.init speakersSink).1 :=
  ⟨by decide,
   (remove_absent_is_noop_and_idempotent
      (updateSink exampleEnv MainWindow.init speakersSink).1 8).2.2.1 (by decide)⟩

/-! ## C8 and C9: what updateClient re-renders -/

/-- C8 at a failing input: recording stream 3 of client 9 is registered, then
the client snapshot (9, Firefox) arrives. updateClient leaves the
source-output widget exactly as it was, with an empty client part, whereas
the playback stream 4 of the same client gets its client part re-rendered. -/
theorem updateClient_skips_source_outputs :
    (updateClient exampleEnv (updateSourceOutput exampleEnv MainWindow.init recordingStream)
        firefoxClient).sourceOutputWidgets
      = (updateSourceOutput exampleEnv MainWindow.init recordingStream).sourceOutputWidgets ∧
    ((updateClient exampleEnv (updateSourceOutput exampleEnv MainWindow.init recordingStream)
        firefoxClient).sourceOutputWidgets.get 3).map
          (fun w => (w.clientIndex, w.boldNameLabel, w.nameLabel))
      = some (9, ⟨"", false⟩, ⟨"Recording", false⟩) ∧
    ((updateClient exampleEnv (updateSinkInput exampleEnv MainWindow.init playbackStream)
        firefoxClient).sinkInputWidgets.get 4).map
          (fun w => (w.clientIndex, w.boldNameLabel))
      = some (9, ⟨"<b>Firefox</b>", true⟩) := by
  refine ⟨rfl, ?_, ?_⟩ <;> decide

/-- C9 at a failing input: playback stream 4 (name Playback) of client 9
arrives before the client snapshot (9, Firefox). After updateSinkInput alone
the widget shows an empty client part and the raw name. After the client
snapshot the client part is Firefox in bold but the name part is still the
raw name, without the colon separator; with the client snapshot first, the
name part is the separator followed by the name. -/
theorem updateClient_leaves_name_part :
    ((updateSinkInput exampleEnv MainWindow.init playbackStream).sinkInputWidgets.get 4).map
        (fun w => (w.boldNameLabel, w.nameLabel))
      = some (⟨"", false⟩, ⟨"Playback", false⟩) ∧
    ((updateClient exampleEnv (updateSinkInput exampleEnv MainWindow.init playbackStream)
        firefoxClient).sinkInputWidgets.get 4).map
          (fun w => (w.boldNameLabel, w.nameLabel))
      = some (⟨"<b>Firefox</b>", true⟩, ⟨"Playback", false⟩) ∧
    ((updateSinkInput exampleEnv (updateClient exampleEnv MainWindow.init firefoxClient)
        playbackStream).sinkInputWidgets.get 4).map
          (fun w => (w.boldNameLabel, w.nameLabel))
      = some (⟨"<b>Firefox</b>", true⟩, ⟨": Playback", true⟩) := by
  refine ⟨?_, ?_, ?_⟩ <;> decide

/-! ## C10: the deferred pass is scheduled once -/

theorem updateDeviceVisibility_of_pending (t : MainWindow) (h : t.idle_source ≠ 0) :
    updateDeviceVisibility t = t := by
  simp [updateDeviceVisibility, h]

theorem updateDeviceVisibility_of_clean (s : MainWindow)
    (h0 : s.idle_source = 0) (hq : s.idleSources = []) :
    updateDeviceVisibility s =
      { s with idle_source := s.lastSourceId + 1, lastSourceId := s.lastSourceId + 1,
               idleSources := [s.lastSourceId + 1] } := by
  simp [updateDeviceVisibility, g_idle_add, h0, hq]

theorem iterate_updateDeviceVisibility (s : MainWindow) (n : Nat) :
    Nat.iterate updateDeviceVisibility (n + 1) s = updateDeviceVisibility s := by
  have pending : (updateDeviceVisibility s).idle_source ≠ 0 := by
    unfold updateDeviceVisibility g_idle_add
    split
    · assumption
    · simp
  induction n with
  | zero => rfl
  | succ m ih =>
    rw [Function.iterate_succ_apply', ih]
    exact updateDeviceVisibility_of_pending _ pending

theorem run_idle_of_single (t : MainWindow) (id : Nat) (hq : t.idleSources = [id]) :
    run_idle t = { reallyUpdateDeviceVisibility t with idle_source := 0, idleSources := [] } := by
  unfold run_idle
  rw [hq, List.foldl_cons, List.foldl_nil]
  unfold dispatch_idle
  rw [hq, if_pos (List.mem_singleton.mpr rfl)]
  have : (idle_cb t).idleSources = [id] := hq
  simp only [this, List.erase_cons_head]
  rfl

/-- C10: starting with no pass pending, the first updateDeviceVisibility call
registers one idle callback and records its (non-zero) id; any call made
while an id is recorded returns the state unchanged, so n >= 1 calls leave
exactly the state the first call produced, with one callback queued. When the
scheduler runs, exactly one reallyUpdateDeviceVisibility pass executes, the
queue is empty and idle_source is 0 again; the next updateDeviceVisibility
call queues one new callback, which runs one further pass. -/
theorem visibility_pass_is_coalesced (s : MainWindow) (n : Nat) (hn : 1 ≤ n)
    (h0 : s.idle_source = 0) (hq : s.idleSources = []) :
    (updateDeviceVisibility s).idle_source ≠ 0 ∧
    (updateDeviceVisibility s).idleSources = [(updateDeviceVisibility s).idle_source] ∧
    (∀ t : MainWindow, t.idle_source ≠ 0 → updateDeviceVisibility t = t) ∧
    Nat.iterate updateDeviceVisibility n s = updateDeviceVisibility s ∧
    (Nat.iterate updateDeviceVisibility n s).idleSources.length = 1 ∧
    run_idle (Nat.iterate updateDeviceVisibility n s) =
      { reallyUpdateDeviceVisibility (updateDeviceVisibility s) with
        idle_source := 0, idleSources := [] } ∧
    (run_idle (Nat.iterate updateDeviceVisibility n s)).passes = s.passes + 1 ∧
    (run_idle (Nat.iterate updateDeviceVisibility n s)).idle_source = 0 ∧
    (run_idle (Nat.iterate updateDeviceVisibility n s)).idleSources = [] ∧
    (updateDeviceVisibility
      (run_idle (Nat.iterate updateDeviceVisibility n s))).idleSources.length = 1 ∧
    (run_idle (updateDeviceVisibility
      (run_idle (Nat.iterate updateDeviceVisibility n s)))).passes = s.passes + 2 := by
  obtain ⟨m, rfl⟩ : ∃ m, n = m + 1 := ⟨n - 1, by omega⟩
  have h1 := updateDeviceVisibility_of_clean s h0 hq
  have hit := iterate_updateDeviceVisibility s m
  have hrun := run_idle_of_single (updateDeviceVisibility s) (s.lastSourceId + 1)
    (by rw [h1])
  have h2 := updateDeviceVisibility_of_clean
    { reallyUpdateDeviceVisibility (updateDeviceVisibility s) with
      idle_source := 0, idleSources := [] } rfl rfl
  have hrun2 := run_idle_of_single (updateDeviceVisibility
    { reallyUpdateDeviceVisibility (updateDeviceVisibility s) with
      idle_source := 0, idleSources := [] })
    ((reallyUpdateDeviceVisibility (updateDeviceVisibility s)).lastSourceId + 1)
    (by rw [h2])
  refine ⟨?_, ?_, fun t ht => updateDeviceVisibility_of_pending t ht, hit, ?_, ?_, ?_, ?_, ?_,
    ?_, ?_⟩
  · rw [h1]; simp
  · rw [h1]
  · rw [hit, h1]; rfl
  · rw [hit, hrun]
  · rw [hit, hrun, h1]; rfl
  · rw [hit, hrun]
  · rw [hit, hrun]
  · rw [hit, hrun, h2]; rfl
  · rw [hit, hrun, hrun2, h2, h1]; rfl

/-- Witness for C10: three dirty marks on the freshly constructed window, then
the scheduler runs: one pass. -/
theorem visibility_pass_is_coalesced_witness :
    (run_idle (Nat.iterate updateDeviceVisibility 3 MainWindow.init)).passes
      = MainWindow.init.passes + 1 :=
  (visibility_pass_is_coalesced MainWindow.init 3 (by decide) rfl rfl).2.2.2.2.2.2.1

/-! ## C11: teardown -/

theorem erase_while_iterating_some {T : Type} (m : MainWindow → IndexMap T)
    (remove : MainWindow → Nat → MainWindow)
    (hrem : ∀ s k, (m (remove s k)).count k = false)
    (keys : List Nat) (s s' : MainWindow)
    (h : erase_while_iterating m remove keys s = some s') : keys = [] ∧ s' = s := by
  cases keys with
  | nil =>
    simp only [erase_while_iterating, Option.some.injEq] at h
    exact ⟨rfl, h.symm⟩
  | cons k rest =>
    simp [erase_while_iterating, hrem s k] at h

theorem IndexMap.keys_eq_nil {T : Type} {m : IndexMap T} (h : IndexMap.keys m = []) :
    m = [] := by
  cases m with
  | nil => rfl
  | cons e rest => simp [IndexMap.keys] at h

/-- C11: removeAllWidgets has a defined result only when all six maps are
already empty, and then that result is the state with the event-role widget
deleted. As soon as one map holds an entry, the first remove call of its loop
erases the entry the loop iterator points at and the increment that follows
is undefined; so it is for the window that holds the single playback
stream 4. -/
theorem removeAllWidgets_defined_only_on_empty :
    removeAllWidgets (updateSinkInput exampleEnv MainWindow.init playbackStream) = none ∧
    (∀ s s', removeAllWidgets s = some s' ↔
      (s.sinkInputWidgets = [] ∧ s.sourceOutputWidgets = [] ∧ s.sinkWidgets = [] ∧
       s.sourceWidgets = [] ∧ s.cardWidgets = [] ∧ s.clientNames = [] ∧
       s' = deleteEventRoleWidget s)) := by
  refine ⟨by decide, fun s s' => ⟨fun h => ?_, fun h => ?_⟩⟩
  · unfold removeAllWidgets at h
    obtain ⟨s1, h1, g1⟩ := Option.bind_eq_some.mp h
    obtain ⟨k1, e1⟩ := erase_while_iterating_some _ _ removeSinkInput_absent_after _ _ _ h1
    subst e1
    obtain ⟨s2, h2, g2⟩ := Option.bind_eq_some.mp g1
    obtain ⟨k2, e2⟩ := erase_while_iterating_some _ _ removeSourceOutput_absent_after _ _ _ h2
    subst e2
    obtain ⟨s3, h3, g3⟩ := Option.bind_eq_some.mp g2
    obtain ⟨k3, e3⟩ := erase_while_iterating_some _ _ removeSink_absent_after _ _ _ h3
    subst e3
    obtain ⟨s4, h4, g4⟩ := Option.bind_eq_some.mp g3
    obtain ⟨k4, e4⟩ := erase_while_iterating_some _ _ removeSource_absent_after _ _ _ h4
    subst e4
    obtain ⟨s5, h5, g5⟩ := Option.bind_eq_some.mp g4
    obtain ⟨k5, e5⟩ := erase_while_iterating_some _ _ removeCard_absent_after _ _ _ h5
    subst e5
    obtain ⟨s6, h6, g6⟩ := Option.bind_eq_some.mp g5
    obtain ⟨k6, e6⟩ := erase_while_iterating_some _ _ removeClient_absent_after _ _ _ h6
    subst e6
    simp only [Option.some.injEq] at g6
    exact ⟨IndexMap.keys_eq_nil k1, IndexMap.keys_eq_nil k2, IndexMap.keys_eq_nil k3,
      IndexMap.keys_eq_nil k4, IndexMap.keys_eq_nil k5, IndexMap.keys_eq_nil k6, g6.symm⟩
  · obtain ⟨h1, h2, h3, h4, h5, h6, rfl⟩ := h
    simp [removeAllWidgets, h1, h2, h3, h4, h5, h6, IndexMap.keys, erase_while_iterating]

/-! ## C14: housekeeping streams -/

/-- C14: updateSinkInput on a snapshot whose module-stream-restore.id property
is sink-input-by-media-role:event, and updateSourceOutput on a snapshot whose
application id is org.PulseAudio.pavucontrol, return the state they were
given: every registry, the connected monitoring streams, the reported errors
and the pending idle source are unchanged. -/
theorem housekeeping_streams_dropped (env : Env) (s : MainWindow) :
    (∀ info : pa_sink_input_info,
      pa_proplist_gets info.proplist "module-stream-restore.id"
        = some "sink-input-by-media-role:event" →
      updateSinkInput env s info = s) ∧
    (∀ info : pa_source_output_info,
      pa_proplist_gets info.proplist PA_PROP_APPLICATION_ID
        = some "org.PulseAudio.pavucontrol" →
      updateSourceOutput env s info = s) := by
  constructor
  · intro info h
    apply updateSinkInput_of_ignored
    simp [updateSinkInput_ignored, h, strcmp_self]
  · intro info h
    apply updateSourceOutput_of_ignored
    simp [updateSourceOutput_ignored, h, strcmp_self]

/-- Witness for C14: with sink 5 registered, the event-role stream is dropped
without a trace. -/
theorem housekeeping_streams_dropped_witness :
    updateSinkInput exampleEnv (updateSink exampleEnv MainWindow.init speakersSink).1
        eventStream
      = (updateSink exampleEnv MainWindow.init speakersSink).1 :=
  (housekeeping_streams_dropped exampleEnv
    (updateSink exampleEnv MainWindow.init speakersSink).1).1 eventStream (by decide)

/-! ## C12: the peak meter of a moved playback stream -/

theorem createMonitorStreamForSource_eq (env : Env) (s : MainWindow) (a b : Nat) (c : Bool) :
    createMonitorStreamForSource env s a b c =
      if env.stream_new_ok = true ∧ env.connect_record_ok = true then
        ({ s with streams := s.streams ++ [⟨a, b, c⟩] }, some ⟨a, b, c⟩)
      else if env.stream_new_ok = true then
        (show_error s "Failed to connect monitoring stream", none)
      else (show_error s "Failed to create monitoring stream", none) := by
  unfold createMonitorStreamForSource
  by_cases hb : b = PA_INVALID_INDEX
  · subst hb
    cases h1 : env.stream_new_ok <;> cases h2 : env.connect_record_ok <;> simp
  · cases h1 : env.stream_new_ok <;> cases h2 : env.connect_record_ok <;> simp [hb]

/-- C12, as stated, fails when the new target sink is not registered: stream 4
plays on sink 5 with a peak meter on that sink's monitor source 6; a snapshot
moving it to the unknown sink 8 leaves that meter attached and connected,
while the widget's target becomes 8. -/
theorem peak_meter_left_on_previous_target :
    ((updateSinkInput exampleEnv
        (updateSinkInput exampleEnv (updateSink exampleEnv MainWindow.init speakersSink).1
          playbackOnSpeakers)
        playbackOnHeadphones).sinkInputWidgets.get 4).map (fun w => (w.sinkIndex, w.peak))
      = some (8, some ⟨6, 4, false⟩) ∧
    (updateSinkInput exampleEnv
        (updateSinkInput exampleEnv (updateSink exampleEnv MainWindow.init speakersSink).1
          playbackOnSpeakers)
        playbackOnHeadphones).streams = [⟨6, 4, false⟩] ∧
    ((updateSinkInput exampleEnv (updateSink exampleEnv MainWindow.init speakersSink).1
        playbackOnSpeakers).sinkInputWidgets.get 4).map (fun w => (w.sinkIndex, w.peak))
      = some (5, some ⟨6, 4, false⟩) := by
  refine ⟨?_, ?_, ?_⟩ <;> decide

/-- C12, amended: sink input i is registered with a peak meter p, the protocol
version is at least 13, and updateSinkInput receives a snapshot for i that is
not dropped by the event-role filter and whose target sink differs from the
widget's current target and is itself registered. Then p is disconnected
(removed from the connected streams), and the widget's peak meter afterwards
is the stream just connected to the new sink's monitor source for stream i,
or absent, with an error reported, when creating or connecting it failed. -/
theorem peak_meter_reopened_on_registered_target (env : Env) (s : MainWindow)
    (info : pa_sink_input_info) (w : SinkInputWidget) (p : pa_stream) (sw : SinkWidget)
    (hver : env.protocol_version ≥ 13)
    (hreg : s.sinkInputWidgets.get info.index = some w)
    (hidx : w.index = info.index)
    (hpeak : w.peak = some p)
    (hmove : w.sinkIndex ≠ info.sink)
    (hkeep : updateSinkInput_ignored info = false)
    (hsink : s.sinkWidgets.get info.sink = some sw) :
    ∃ w', (updateSinkInput env s info).sinkInputWidgets.get info.index = some w' ∧
      w'.sinkIndex = info.sink ∧
      ((env.stream_new_ok = true ∧ env.connect_record_ok = true ∧
          w'.peak = some ⟨sw.monitor_index, info.index, false⟩ ∧
          (updateSinkInput env s info).streams
            = s.streams.erase p ++ [⟨sw.monitor_index, info.index, false⟩] ∧
          (updateSinkInput env s info).errors = s.errors) ∨
       ((env.stream_new_ok = false ∨ env.connect_record_ok = false) ∧
          w'.peak = none ∧
          (updateSinkInput env s info).streams = s.streams.erase p ∧
          (updateSinkInput env s info).errors.length = s.errors.length + 1)) := by
  have hlook : updateSinkInput_lookup env s info =
      (createMonitorStreamForSinkInput env s w info.sink, false) := by
    unfold updateSinkInput_lookup
    simp [hreg, hver, hmove]
  have hcm : createMonitorStreamForSinkInput env s w info.sink =
      ((createMonitorStreamForSource env { s with streams := s.streams.erase p }
          sw.monitor_index info.index false).1,
       { w with peak := (createMonitorStreamForSource env
          { s with streams := s.streams.erase p } sw.monitor_index info.index false).2 }) := by
    unfold createMonitorStreamForSinkInput
    simp [hsink, hpeak, hidx]
  refine ⟨updateSinkInput_fields env (updateSinkInput_lookup env s info).1.1 info
    (updateSinkInput_lookup env s info).1.2, ?_, ?_, ?_⟩
  · rw [updateSinkInput_sinkInputWidgets env s info hkeep]
    exact IndexMap.get_assign_self _ _ _
  · unfold updateSinkInput_fields
    simp only
    split <;> rfl
  · have hpk : ∀ t (x : SinkInputWidget), (updateSinkInput_fields env t info x).peak = x.peak := by
      intro t x
      unfold updateSinkInput_fields
      simp only
      split <;> rfl
    rw [hpk]
    unfold updateSinkInput
    simp only [hkeep, Bool.false_eq_true, if_false, hlook, hcm]
    rw [createMonitorStreamForSource_eq]
    cases h1 : env.stream_new_ok <;> cases h2 : env.connect_record_ok <;>
      simp [show_error]

/-- Witness for C12: sinks 5 and 8 are registered, stream 4 plays on sink 5
and is moved to sink 8, whose monitor source is 9. -/
theorem peak_meter_reopened_on_registered_target_witness :
    ∃ w', (updateSinkInput exampleEnv
        (updateSinkInput exampleEnv
          (updateSink exampleEnv (updateSink exampleEnv MainWindow.init speakersSink).1
            headphonesSink).1 playbackOnSpeakers)
        playbackOnHeadphones).sinkInputWidgets.get 4 = some w' ∧ w'.sinkIndex = 8 ∧
      w'.peak = some ⟨9, 4, false⟩ := by
  obtain ⟨w', h1, h2, h3⟩ := peak_meter_reopened_on_registered_target exampleEnv
    (updateSinkInput exampleEnv
      (updateSink exampleEnv (updateSink exampleEnv MainWindow.init speakersSink).1
        headphonesSink).1 playbackOnSpeakers)
    playbackOnHeadphones
    (updateSinkInput_fields exampleEnv MainWindow.init playbackOnSpeakers
      { SinkInputWidget.create with
        channelMap := [1, 2], can_decibel := true, index := 4, clientIndex := 9,
        peak := some ⟨6, 4, false⟩ })
    ⟨6, 4, false⟩
    (updateSink_fields exampleEnv MainWindow.init headphonesSink
      (updateSink_create headphonesSink))
    (by decide) (by decide) (by decide) (by decide) (by decide) (by decide) (by decide)
  refine ⟨w', h1, h2, ?_⟩
  rcases h3 with ⟨_, _, h, _⟩ | ⟨h, _⟩
  · exact h
  · exact absurd h (by decide)

/-! ## C13: the values the stream callbacks dispatch -/

theorem read_callback_clamp_finite (q : Rat) :
    read_callback_clamp (c_double.finite q) =
      if q < 0 then c_double.finite 0 else if 1 < q then c_double.finite 1
      else c_double.finite q := by
  unfold read_callback_clamp
  by_cases h0 : q < 0
  · have h1 : ¬ (1 : Rat) < 0 := by norm_num
    simp [c_double.lt, h0, h1]
  · by_cases h1 : 1 < q
    · simp [c_double.lt, h0, h1]
    · simp [c_double.lt, h0, h1]

/-- C13, as stated, fails for a NaN sample: both comparisons of read_callback
are false on it, so the NaN itself is dispatched and reaches the source
widget; it is no value of the range from 0 to 1. -/
theorem read_callback_dispatches_nan :
    read_callback_clamp c_double.nan = c_double.nan ∧
    (read_callback (updateSource exampleEnv MainWindow.init micSource) micMonitor
        (some [c_double.finite 0, c_double.nan])).map
          (fun t => (t.sourceWidgets.get 1).map (fun w => w.peaks))
      = some (some [c_double.nan]) ∧
    ¬ ∃ q : Rat, read_callback_clamp c_double.nan = c_double.finite q ∧ 0 ≤ q ∧ q ≤ 1 := by
  refine ⟨by decide, by decide, ?_⟩
  rintro ⟨q, h, _⟩
  have hn : read_callback_clamp c_double.nan = c_double.nan := by decide
  rw [hn] at h
  exact c_double.noConfusion h

/-- C13, amended: when the stream is suspended, suspended_callback dispatches
the value -1 itself through updateVolumeMeter with no stream index, so every
sink, source and source-output widget it reaches receives -1 and nothing else
changes; when it is not suspended nothing is dispatched. read_callback
dispatches the last sample of the block after the two comparisons: a sample
that is not a NaN comes out clamped to the range from 0 to 1 (below 0 gives 0,
above 1 gives 1, otherwise the sample itself), and whatever the sample, NaN
included, the dispatched value is never the sentinel -1. A NaN sample passes
both comparisons and is dispatched as it is. -/
theorem callbacks_dispatch_sentinel_or_clamped :
    (∀ (s : MainWindow) (st : pa_stream) (r : Int), r ≠ 0 →
      suspended_callback s st r =
        updateVolumeMeter s st.device_index PA_INVALID_INDEX (c_double.finite (-1))) ∧
    (∀ (s : MainWindow) (st : pa_stream), suspended_callback s st 0 = s) ∧
    (∀ (s : MainWindow) (st : pa_stream) (r : Int) (j : Nat),
      (suspended_callback s st r).sinkWidgets.get j =
        (s.sinkWidgets.get j).map (fun w =>
          if r ≠ 0 ∧ w.monitor_index = st.device_index
          then w.updatePeak (c_double.finite (-1)) else w) ∧
      (suspended_callback s st r).sourceWidgets.get j =
        (s.sourceWidgets.get j).map (fun w =>
          if r ≠ 0 ∧ w.index = st.device_index
          then w.updatePeak (c_double.finite (-1)) else w) ∧
      (suspended_callback s st r).sourceOutputWidgets.get j =
        (s.sourceOutputWidgets.get j).map (fun w =>
          if r ≠ 0 ∧ w.sourceIndex = st.device_index
          then w.updatePeak (c_double.finite (-1)) else w) ∧
      (suspended_callback s st r).sinkInputWidgets = s.sinkInputWidgets) ∧
    (∀ (s : MainWindow) (st : pa_stream) (data : List c_double) (v : c_double),
      data.getLast? = some v →
      read_callback s st (some data) =
        some (updateVolumeMeter s st.device_index st.monitor_stream (read_callback_clamp v))) ∧
    (∀ q : Rat, q < 0 → read_callback_clamp (c_double.finite q) = c_double.finite 0) ∧
    (∀ q : Rat, 1 < q → read_callback_clamp (c_double.finite q) = c_double.finite 1) ∧
    (∀ q : Rat, 0 ≤ q → q ≤ 1 →
      read_callback_clamp (c_double.finite q) = c_double.finite q) ∧
    (∀ v : c_double, v ≠ c_double.nan →
      ∃ q : Rat, read_callback_clamp v = c_double.finite q ∧ 0 ≤ q ∧ q ≤ 1) ∧
    (∀ v : c_double, read_callback_clamp v ≠ c_double.finite (-1)) ∧
    read_callback_clamp c_double.nan = c_double.nan ∧
    (∀ (s : MainWindow) (st : pa_stream) (data : List c_double),
      data.getLast? = some c_double.nan →
      read_callback s st (some data) =
        some (updateVolumeMeter s st.device_index st.monitor_stream c_double.nan)) := by
  have hclamp : ∀ v : c_double, v ≠ c_double.nan →
      ∃ q : Rat, read_callback_clamp v = c_double.finite q ∧ 0 ≤ q ∧ q ≤ 1 := by
    intro v hv
    cases v with
    | nan => exact absurd rfl hv
    | neg_inf => exact ⟨0, by simp [read_callback_clamp, c_double.lt], le_refl _, by norm_num⟩
    | pos_inf => exact ⟨1, by simp [read_callback_clamp, c_double.lt], by norm_num, le_refl _⟩
    | finite q =>
      rw [read_callback_clamp_finite]
      by_cases h0 : q < 0
      · exact ⟨0, by simp [h0], le_refl _, by norm_num⟩
      · by_cases h1 : 1 < q
        · exact ⟨1, by simp [h0, h1], by norm_num, le_refl _⟩
        · exact ⟨q, by simp [h0, h1], not_lt.mp h0, not_lt.mp h1⟩
  refine ⟨?_, ?_, ?_, ?_, ?_, ?_, ?_, hclamp, ?_, by decide, ?_⟩
  · intro s st r hr
    simp [suspended_callback, hr]
  · intro s st
    simp [suspended_callback]
  · intro s st r j
    by_cases hr : r = 0
    · subst hr
      simp [suspended_callback]
    · simp [suspended_callback, hr, updateVolumeMeter, IndexMap.get_mapValues]
  · intro s st data v h
    simp [read_callback, h]
  · intro q h
    rw [read_callback_clamp_finite]; simp [h]
  · intro q h
    have h0 : ¬ q < 0 := by linarith
    rw [read_callback_clamp_finite]; simp [h, h0]
  · intro q h0 h1
    rw [read_callback_clamp_finite]; simp [not_lt.mpr h0, not_lt.mpr h1]
  · intro v
    by_cases hv : v = c_double.nan
    · subst hv
      decide
    · obtain ⟨q, hq, h0, _⟩ := hclamp v hv
      rw [hq]
      intro h
      injection h with h
      subst h
      norm_num at h0
  · intro s st data h
    have hn : read_callback_clamp c_double.nan = c_double.nan := by decide
    simp [read_callback, h, hn]

/-- Witness for C13: a block ending in the sample 3 makes read_callback
dispatch a value of the range from 0 to 1. -/
theorem callbacks_dispatch_sentinel_or_clamped_witness :
    ∃ q : Rat, read_callback_clamp (c_double.finite 3) = c_double.finite q ∧ 0 ≤ q ∧ q ≤ 1 :=
  callbacks_dispatch_sentinel_or_clamped.2.2.2.2.2.2.2.1 (c_double.finite 3) (by decide)

/-! ## C15 and C16: what a visibility pass leaves behind -/

theorem fold_is_empty_iff {T : Type} (P : T → Prop) [DecidablePred P] (m : IndexMap T)
    (b : Bool) :
    m.foldl (fun e w => if P w.2 then false else e) b = true ↔
      b = true ∧ ∀ e ∈ m, ¬ P e.2 := by
  induction m generalizing b with
  | nil => simp
  | cons x rest ih =>
    rw [List.foldl_cons, ih]
    by_cases hx : P x.2
    · simp [hx]
    · simp [hx]

theorem mem_mapValues {T : Type} (f : T → T) (m : IndexMap T) (e : Nat × T) :
    e ∈ IndexMap.mapValues f m ↔ ∃ e0 ∈ m, e = (e0.1, f e0.2) := by
  simp only [IndexMap.mapValues, List.mem_map]
  constructor
  · rintro ⟨e0, h, rfl⟩; exact ⟨e0, h, rfl⟩
  · rintro ⟨e0, h, rfl⟩; exact ⟨e0, h, rfl⟩

theorem pass_sinkInputWidgets (s : MainWindow) :
    (reallyUpdateDeviceVisibility s).sinkInputWidgets =
      s.sinkInputWidgets.mapValues (fun w =>
        { w with
          directionLabel := decide (s.sinkWidgets.size > 1),
          deviceButton := decide (s.sinkWidgets.size > 1),
          visible := decide (s.showSinkInputType = SinkInputType.SINK_INPUT_ALL
            ∨ w.type = s.showSinkInputType) }) := by
  unfold reallyUpdateDeviceVisibility
  simp only
  congr 1
  funext w
  by_cases h1 : s.sinkWidgets.size > 1 <;>
    by_cases h2 : s.showSinkInputType = SinkInputType.SINK_INPUT_ALL
      ∨ w.type = s.showSinkInputType <;> simp [h1, h2]

theorem pass_sourceOutputWidgets (s : MainWindow) :
    (reallyUpdateDeviceVisibility s).sourceOutputWidgets =
      s.sourceOutputWidgets.mapValues (fun w =>
        { w with
          directionLabel := decide (s.sourceWidgets.size > 1),
          deviceButton := decide (s.sourceWidgets.size > 1),
          visible := decide (s.showSourceOutputType = SourceOutputType.SOURCE_OUTPUT_ALL
            ∨ w.type = s.showSourceOutputType) }) := by
  unfold reallyUpdateDeviceVisibility
  simp only
  congr 1
  funext w
  by_cases h1 : s.sourceWidgets.size > 1 <;>
    by_cases h2 : s.showSourceOutputType = SourceOutputType.SOURCE_OUTPUT_ALL
      ∨ w.type = s.showSourceOutputType <;> simp [h1, h2]

theorem pass_sinkWidgets (s : MainWindow) :
    (reallyUpdateDeviceVisibility s).sinkWidgets =
      s.sinkWidgets.mapValues (fun w =>
        { w with visible := decide (s.showSinkType = SinkType.SINK_ALL
            ∨ w.type = s.showSinkType) }) := by
  unfold reallyUpdateDeviceVisibility
  simp only
  congr 1
  funext w
  by_cases h2 : s.showSinkType = SinkType.SINK_ALL ∨ w.type = s.showSinkType <;> simp [h2]

theorem pass_sourceWidgets (s : MainWindow) :
    (reallyUpdateDeviceVisibility s).sourceWidgets =
      s.sourceWidgets.mapValues (fun w =>
        { w with visible := decide (s.showSourceType = SourceType.SOURCE_ALL
            ∨ w.type = s.showSourceType
            ∨ (s.showSourceType = SourceType.SOURCE_NO_MONITOR
                ∧ w.type ≠ SourceType.SOURCE_MONITOR)) }) := by
  unfold reallyUpdateDeviceVisibility
  simp only
  congr 1
  funext w
  by_cases h2 : s.showSourceType = SourceType.SOURCE_ALL ∨ w.type = s.showSourceType
      ∨ (s.showSourceType = SourceType.SOURCE_NO_MONITOR
          ∧ w.type ≠ SourceType.SOURCE_MONITOR) <;> simp [h2]

theorem pass_cardWidgets (s : MainWindow) :
    (reallyUpdateDeviceVisibility s).cardWidgets =
      s.cardWidgets.mapValues (fun w => { w with visible := true }) := rfl

theorem bool_ite_self (b : Bool) : (if b = true then true else false) = b := by
  cases b <;> rfl

theorem pass_noStreamsLabel (s : MainWindow) :
    (reallyUpdateDeviceVisibility s).noStreamsLabel = true ↔
      (∀ e ∈ s.sinkInputWidgets, ¬ (s.showSinkInputType = SinkInputType.SINK_INPUT_ALL
          ∨ e.2.type = s.showSinkInputType)) ∧ s.eventRoleWidget = none := by
  have hf := fold_is_empty_iff (fun w : SinkInputWidget =>
    s.showSinkInputType = SinkInputType.SINK_INPUT_ALL ∨ w.type = s.showSinkInputType)
    s.sinkInputWidgets true
  have key : (reallyUpdateDeviceVisibility s).noStreamsLabel =
      (if s.eventRoleWidget.isSome = true then false
       else s.sinkInputWidgets.foldl (fun e w =>
        if s.showSinkInputType = SinkInputType.SINK_INPUT_ALL
            ∨ w.2.type = s.showSinkInputType then false else e) true) :=
    bool_ite_self _
  rw [key]
  cases h : s.eventRoleWidget with
  | none =>
    simp only [Option.isSome_none, Bool.false_eq_true, if_false, and_true]
    exact hf.trans (by simp)
  | some w => simp

theorem pass_noRecsLabel (s : MainWindow) :
    (reallyUpdateDeviceVisibility s).noRecsLabel = true ↔
      ∀ e ∈ s.sourceOutputWidgets,
        ¬ (s.showSourceOutputType = SourceOutputType.SOURCE_OUTPUT_ALL
          ∨ e.2.type = s.showSourceOutputType) := by
  have hf := fold_is_empty_iff (fun w : SourceOutputWidget =>
    s.showSourceOutputType = SourceOutputType.SOURCE_OUTPUT_ALL
      ∨ w.type = s.showSourceOutputType) s.sourceOutputWidgets true
  have key : (reallyUpdateDeviceVisibility s).noRecsLabel =
      s.sourceOutputWidgets.foldl (fun e w =>
        if s.showSourceOutputType = SourceOutputType.SOURCE_OUTPUT_ALL
            ∨ w.2.type = s.showSourceOutputType then false else e) true :=
    bool_ite_self _
  rw [key]
  exact hf.trans (by simp)

theorem pass_noSinksLabel (s : MainWindow) :
    (reallyUpdateDeviceVisibility s).noSinksLabel = true ↔
      ∀ e ∈ s.sinkWidgets,
        ¬ (s.showSinkType = SinkType.SINK_ALL ∨ e.2.type = s.showSinkType) := by
  have hf := fold_is_empty_iff (fun w : SinkWidget =>
    s.showSinkType = SinkType.SINK_ALL ∨ w.type = s.showSinkType) s.sinkWidgets true
  have key : (reallyUpdateDeviceVisibility s).noSinksLabel =
      s.sinkWidgets.foldl (fun e w =>
        if s.showSinkType = SinkType.SINK_ALL ∨ w.2.type = s.showSinkType
        then false else e) true :=
    bool_ite_self _
  rw [key]
  exact hf.trans (by simp)

theorem pass_noSourcesLabel (s : MainWindow) :
    (reallyUpdateDeviceVisibility s).noSourcesLabel = true ↔
      ∀ e ∈ s.sourceWidgets,
        ¬ (s.showSourceType = SourceType.SOURCE_ALL ∨ e.2.type = s.showSourceType
          ∨ (s.showSourceType = SourceType.SOURCE_NO_MONITOR
              ∧ e.2.type ≠ SourceType.SOURCE_MONITOR)) := by
  have hf := fold_is_empty_iff (fun w : SourceWidget =>
    s.showSourceType = SourceType.SOURCE_ALL ∨ w.type = s.showSourceType
      ∨ (s.showSourceType = SourceType.SOURCE_NO_MONITOR
          ∧ w.type ≠ SourceType.SOURCE_MONITOR)) s.sourceWidgets true
  have key : (reallyUpdateDeviceVisibility s).noSourcesLabel =
      s.sourceWidgets.foldl (fun e w =>
        if s.showSourceType = SourceType.SOURCE_ALL ∨ w.2.type = s.showSourceType
          ∨ (s.showSourceType = SourceType.SOURCE_NO_MONITOR
              ∧ w.2.type ≠ SourceType.SOURCE_MONITOR)
        then false else e) true :=
    bool_ite_self _
  rw [key]
  exact hf.trans (by simp)

theorem pass_noCardsLabel (s : MainWindow) :
    (reallyUpdateDeviceVisibility s).noCardsLabel = true ↔ s.cardWidgets = [] := by
  unfold reallyUpdateDeviceVisibility
  simp only
  cases h : s.cardWidgets with
  | nil => simp
  | cons e rest =>
    have : ∀ (l : List (Nat × CardWidget)) (b : Bool),
        List.foldl (fun (_ : Bool) (_ : Nat × CardWidget) => false) b l = true →
          b = true ∧ l = [] := by
      intro l
      induction l with
      | nil => intro b hb; exact ⟨hb, rfl⟩
      | cons x xs ih =>
        intro b hb
        rw [List.foldl_cons] at hb
        exact absurd (ih false hb).1 (by simp)
    constructor
    · intro hl
      split at hl
      · rename_i hfold
        exact absurd (this _ _ hfold).2 (by simp)
      · simp at hl
    · intro hl
      simp at hl

theorem forall_mem_mapValues {T : Type} (f : T → T) (m : IndexMap T) (Q : T → Prop) :
    (∀ e ∈ IndexMap.mapValues f m, Q e.2) ↔ ∀ e0 ∈ m, Q (f e0.2) := by
  constructor
  · intro h e0 h0
    exact h (e0.1, f e0.2) ((mem_mapValues f m _).2 ⟨e0, h0, rfl⟩)
  · intro h e he
    obtain ⟨e0, h0, rfl⟩ := (mem_mapValues f m e).1 he
    exact h e0 h0

/-- C15: a reallyUpdateDeviceVisibility pass keeps every registered entry of
the five categories (same indices, same types) and leaves the role widget and
the filters as they were. After it an entry is visible iff the active filter
of its category is All or equals the entry's type (a source also when the
filter is No-Monitor and the source is no monitor; a card always), and each
category's empty-state label is shown iff no entry of the category is
visible, where for playback streams the label is also hidden whenever the
System Sounds role widget exists. In terms of the state before the pass: the
label is shown iff no registered entry passes the filter (for cards, iff no
card is registered). A window with one card shows the card and hides the
no-cards label; with the default Client filter a stream without a client is
hidden and the no-streams label is shown. -/
theorem empty_labels_match_visibility (s : MainWindow) :
    (∀ e ∈ (reallyUpdateDeviceVisibility s).sinkInputWidgets,
      (e.2.visible = true ↔
        (s.showSinkInputType = SinkInputType.SINK_INPUT_ALL
          ∨ e.2.type = s.showSinkInputType))) ∧
    (∀ e ∈ (reallyUpdateDeviceVisibility s).sourceOutputWidgets,
      (e.2.visible = true ↔
        (s.showSourceOutputType = SourceOutputType.SOURCE_OUTPUT_ALL
          ∨ e.2.type = s.showSourceOutputType))) ∧
    (∀ e ∈ (reallyUpdateDeviceVisibility s).sinkWidgets,
      (e.2.visible = true ↔
        (s.showSinkType = SinkType.SINK_ALL ∨ e.2.type = s.showSinkType))) ∧
    (∀ e ∈ (reallyUpdateDeviceVisibility s).sourceWidgets,
      (e.2.visible = true ↔
        (s.showSourceType = SourceType.SOURCE_ALL ∨ e.2.type = s.showSourceType
          ∨ (s.showSourceType = SourceType.SOURCE_NO_MONITOR
              ∧ e.2.type ≠ SourceType.SOURCE_MONITOR)))) ∧
    (∀ e ∈ (reallyUpdateDeviceVisibility s).cardWidgets, e.2.visible = true) ∧
    ((reallyUpdateDeviceVisibility s).noStreamsLabel = true ↔
      (∀ e ∈ (reallyUpdateDeviceVisibility s).sinkInputWidgets, e.2.visible = false) ∧
      (reallyUpdateDeviceVisibility s).eventRoleWidget = none) ∧
    ((reallyUpdateDeviceVisibility s).noRecsLabel = true ↔
      ∀ e ∈ (reallyUpdateDeviceVisibility s).sourceOutputWidgets, e.2.visible = false) ∧
    ((reallyUpdateDeviceVisibility s).noSinksLabel = true ↔
      ∀ e ∈ (reallyUpdateDeviceVisibility s).sinkWidgets, e.2.visible = false) ∧
    ((reallyUpdateDeviceVisibility s).noSourcesLabel = true ↔
      ∀ e ∈ (reallyUpdateDeviceVisibility s).sourceWidgets, e.2.visible = false) ∧
    ((reallyUpdateDeviceVisibility s).noCardsLabel = true ↔
      ∀ e ∈ (reallyUpdateDeviceVisibility s).cardWidgets, e.2.visible = false) ∧
    (reallyUpdateDeviceVisibility s).showSinkInputType = s.showSinkInputType ∧
    (reallyUpdateDeviceVisibility s).showSourceOutputType = s.showSourceOutputType ∧
    (reallyUpdateDeviceVisibility s).showSinkType = s.showSinkType ∧
    (reallyUpdateDeviceVisibility s).showSourceType = s.showSourceType ∧
    (reallyUpdateDeviceVisibility s).eventRoleWidget = s.eventRoleWidget ∧
    (reallyUpdateDeviceVisibility s).sinkInputWidgets.keys = s.sinkInputWidgets.keys ∧
    (reallyUpdateDeviceVisibility s).sourceOutputWidgets.keys = s.sourceOutputWidgets.keys ∧
    (reallyUpdateDeviceVisibility s).sinkWidgets.keys = s.sinkWidgets.keys ∧
    (reallyUpdateDeviceVisibility s).sourceWidgets.keys = s.sourceWidgets.keys ∧
    (reallyUpdateDeviceVisibility s).cardWidgets.keys = s.cardWidgets.keys ∧
    (∀ j w, s.sinkInputWidgets.get j = some w →
      ∃ w', (reallyUpdateDeviceVisibility s).sinkInputWidgets.get j = some w' ∧
        w'.index = w.index ∧ w'.type = w.type ∧
        (w'.visible = true ↔
          (s.showSinkInputType = SinkInputType.SINK_INPUT_ALL
            ∨ w.type = s.showSinkInputType))) ∧
    (∀ j w, s.sourceOutputWidgets.get j = some w →
      ∃ w', (reallyUpdateDeviceVisibility s).sourceOutputWidgets.get j = some w' ∧
        w'.index = w.index ∧ w'.type = w.type ∧
        (w'.visible = true ↔
          (s.showSourceOutputType = SourceOutputType.SOURCE_OUTPUT_ALL
            ∨ w.type = s.showSourceOutputType))) ∧
    (∀ j w, s.sinkWidgets.get j = some w →
      ∃ w', (reallyUpdateDeviceVisibility s).sinkWidgets.get j = some w' ∧
        w'.index = w.index ∧ w'.type = w.type ∧
        (w'.visible = true ↔
          (s.showSinkType = SinkType.SINK_ALL ∨ w.type = s.showSinkType))) ∧
    (∀ j w, s.sourceWidgets.get j = some w →
      ∃ w', (reallyUpdateDeviceVisibility s).sourceWidgets.get j = some w' ∧
        w'.index = w.index ∧ w'.type = w.type ∧
        (w'.visible = true ↔
          (s.showSourceType = SourceType.SOURCE_ALL ∨ w.type = s.showSourceType
            ∨ (s.showSourceType = SourceType.SOURCE_NO_MONITOR
                ∧ w.type ≠ SourceType.SOURCE_MONITOR)))) ∧
    (∀ j w, s.cardWidgets.get j = some w →
      ∃ w', (reallyUpdateDeviceVisibility s).cardWidgets.get j = some w' ∧
        w'.index = w.index ∧ w'.visible = true) ∧
    ((reallyUpdateDeviceVisibility s).noStreamsLabel = true ↔
      (∀ e ∈ s.sinkInputWidgets, ¬ (s.showSinkInputType = SinkInputType.SINK_INPUT_ALL
          ∨ e.2.type = s.showSinkInputType)) ∧ s.eventRoleWidget = none) ∧
    ((reallyUpdateDeviceVisibility s).noRecsLabel = true ↔
      ∀ e ∈ s.sourceOutputWidgets,
        ¬ (s.showSourceOutputType = SourceOutputType.SOURCE_OUTPUT_ALL
          ∨ e.2.type = s.showSourceOutputType)) ∧
    ((reallyUpdateDeviceVisibility s).noSinksLabel = true ↔
      ∀ e ∈ s.sinkWidgets,
        ¬ (s.showSinkType = SinkType.SINK_ALL ∨ e.2.type = s.showSinkType)) ∧
    ((reallyUpdateDeviceVisibility s).noSourcesLabel = true ↔
      ∀ e ∈ s.sourceWidgets,
        ¬ (s.showSourceType = SourceType.SOURCE_ALL ∨ e.2.type = s.showSourceType
          ∨ (s.showSourceType = SourceType.SOURCE_NO_MONITOR
              ∧ e.2.type ≠ SourceType.SOURCE_MONITOR))) ∧
    ((reallyUpdateDeviceVisibility s).noCardsLabel = true ↔ s.cardWidgets = []) ∧
    (((reallyUpdateDeviceVisibility (updateCard MainWindow.init soundCard)).cardWidgets.get
        0).map (fun w => w.visible) = some true ∧
      (reallyUpdateDeviceVisibility (updateCard MainWindow.init soundCard)).noCardsLabel
        = false) ∧
    (((reallyUpdateDeviceVisibility
        (updateSinkInput exampleEnv MainWindow.init virtualStream)).sinkInputWidgets.get
          6).map (fun w => w.visible) = some false ∧
      (reallyUpdateDeviceVisibility
        (updateSinkInput exampleEnv MainWindow.init virtualStream)).noStreamsLabel = true ∧
      ((reallyUpdateDeviceVisibility
        (updateSinkInput exampleEnv MainWindow.init playbackStream)).sinkInputWidgets.get
          4).map (fun w => w.visible) = some true ∧
      (reallyUpdateDeviceVisibility
        (updateSinkInput exampleEnv MainWindow.init playbackStream)).noStreamsLabel = false) := by
  refine ⟨?_, ?_, ?_, ?_, ?_, ?_, ?_, ?_, ?_, ?_, rfl, rfl, rfl, rfl, rfl, ?_, ?_, ?_, ?_, ?_,
    ?_, ?_, ?_, ?_, ?_, pass_noStreamsLabel s, pass_noRecsLabel s, pass_noSinksLabel s,
    pass_noSourcesLabel s, pass_noCardsLabel s, by decide, by decide⟩
  · intro e he
    rw [pass_sinkInputWidgets] at he
    obtain ⟨e0, _, rfl⟩ := (mem_mapValues _ _ e).1 he
    simp
  · intro e he
    rw [pass_sourceOutputWidgets] at he
    obtain ⟨e0, _, rfl⟩ := (mem_mapValues _ _ e).1 he
    simp
  · intro e he
    rw [pass_sinkWidgets] at he
    obtain ⟨e0, _, rfl⟩ := (mem_mapValues _ _ e).1 he
    simp
  · intro e he
    rw [pass_sourceWidgets] at he
    obtain ⟨e0, _, rfl⟩ := (mem_mapValues _ _ e).1 he
    simp
  · intro e he
    rw [pass_cardWidgets] at he
    obtain ⟨e0, _, rfl⟩ := (mem_mapValues _ _ e).1 he
    rfl
  · have hr : (reallyUpdateDeviceVisibility s).eventRoleWidget = s.eventRoleWidget := rfl
    rw [pass_noStreamsLabel, pass_sinkInputWidgets, hr]
    refine and_congr_left (fun _ => ?_)
    refine Iff.trans ?_ (forall_mem_mapValues _ _ (fun w : SinkInputWidget => w.visible = false)).symm
    simp
  · rw [pass_noRecsLabel, pass_sourceOutputWidgets]
    refine Iff.trans ?_ (forall_mem_mapValues _ _ (fun w : SourceOutputWidget => w.visible = false)).symm
    simp
  · rw [pass_noSinksLabel, pass_sinkWidgets]
    refine Iff.trans ?_ (forall_mem_mapValues _ _ (fun w : SinkWidget => w.visible = false)).symm
    simp
  · rw [pass_noSourcesLabel, pass_sourceWidgets]
    refine Iff.trans ?_ (forall_mem_mapValues _ _ (fun w : SourceWidget => w.visible = false)).symm
    simp
  · rw [pass_noCardsLabel, pass_cardWidgets]
    refine Iff.trans ?_ (forall_mem_mapValues _ _ (fun w : CardWidget => w.visible = false)).symm
    cases h : s.cardWidgets with
    | nil => simp
    | cons e rest =>
      constructor
      · intro hc
        cases hc
      · intro hall
        have := hall e (List.mem_cons_self _ _)
        simp at this
  · rw [pass_sinkInputWidgets, IndexMap.keys_mapValues]
  · rw [pass_sourceOutputWidgets, IndexMap.keys_mapValues]
  · rw [pass_sinkWidgets, IndexMap.keys_mapValues]
  · rw [pass_sourceWidgets, IndexMap.keys_mapValues]
  · rw [pass_cardWidgets, IndexMap.keys_mapValues]
  · intro j w h
    rw [pass_sinkInputWidgets, IndexMap.get_mapValues, h]
    exact ⟨_, rfl, rfl, rfl, by simp⟩
  · intro j w h
    rw [pass_sourceOutputWidgets, IndexMap.get_mapValues, h]
    exact ⟨_, rfl, rfl, rfl, by simp⟩
  · intro j w h
    rw [pass_sinkWidgets, IndexMap.get_mapValues, h]
    exact ⟨_, rfl, rfl, rfl, by simp⟩
  · intro j w h
    rw [pass_sourceWidgets, IndexMap.get_mapValues, h]
    exact ⟨_, rfl, rfl, rfl, by simp⟩
  · intro j w h
    rw [pass_cardWidgets, IndexMap.get_mapValues, h]
    exact ⟨_, rfl, rfl, rfl⟩

/-- C16: after a reallyUpdateDeviceVisibility pass every sink-input widget
shows its direction label and its device button iff more than one sink is
registered, and every source-output widget iff more than one source is
registered; the pass changes neither number. -/
theorem target_device_control_shown_iff_several (s : MainWindow) :
    (∀ e ∈ (reallyUpdateDeviceVisibility s).sinkInputWidgets,
      (e.2.directionLabel = true ↔ (reallyUpdateDeviceVisibility s).sinkWidgets.size > 1) ∧
      (e.2.deviceButton = true ↔ (reallyUpdateDeviceVisibility s).sinkWidgets.size > 1)) ∧
    (∀ e ∈ (reallyUpdateDeviceVisibility s).sourceOutputWidgets,
      (e.2.directionLabel = true ↔
        (reallyUpdateDeviceVisibility s).sourceWidgets.size > 1) ∧
      (e.2.deviceButton = true ↔
        (reallyUpdateDeviceVisibility s).sourceWidgets.size > 1)) ∧
    (reallyUpdateDeviceVisibility s).sinkWidgets.size = s.sinkWidgets.size ∧
    (reallyUpdateDeviceVisibility s).sourceWidgets.size = s.sourceWidgets.size ∧
    (reallyUpdateDeviceVisibility s).sinkInputWidgets.keys = s.sinkInputWidgets.keys ∧
    (reallyUpdateDeviceVisibility s).sourceOutputWidgets.keys
      = s.sourceOutputWidgets.keys := by
  have hsk : (reallyUpdateDeviceVisibility s).sinkWidgets.size = s.sinkWidgets.size := by
    rw [pass_sinkWidgets]; simp [IndexMap.size, IndexMap.mapValues]
  have hsr : (reallyUpdateDeviceVisibility s).sourceWidgets.size = s.sourceWidgets.size := by
    rw [pass_sourceWidgets]; simp [IndexMap.size, IndexMap.mapValues]
  refine ⟨?_, ?_, hsk, hsr, ?_, ?_⟩
  · intro e he
    rw [hsk]
    rw [pass_sinkInputWidgets] at he
    obtain ⟨e0, _, rfl⟩ := (mem_mapValues _ _ e).1 he
    simp
  · intro e he
    rw [hsr]
    rw [pass_sourceOutputWidgets] at he
    obtain ⟨e0, _, rfl⟩ := (mem_mapValues _ _ e).1 he
    simp
  · rw [pass_sinkInputWidgets, IndexMap.keys_mapValues]
  · rw [pass_sourceOutputWidgets, IndexMap.keys_mapValues]

/-! ## C17: the updating guard -/

@[simp] theorem updateDeviceVisibility_eventRoleWidget (s : MainWindow) :
    (updateDeviceVisibility s).eventRoleWidget = s.eventRoleWidget := by
  unfold updateDeviceVisibility g_idle_add; split <;> rfl

theorem IndexMap.mem_assign {T : Type} {m : IndexMap T} {k : Nat} {v : T} {e : Nat × T}
    (h : e ∈ IndexMap.assign m k v) : e = (k, v) ∨ e ∈ m := by
  induction m with
  | nil => simpa [IndexMap.assign] using h
  | cons x rest ih =>
    obtain ⟨k', v'⟩ := x
    simp only [IndexMap.assign] at h
    split at h
    · rcases List.mem_cons.mp h with h | h
      · exact Or.inl h
      · exact Or.inr h
    · split at h
      · rcases List.mem_cons.mp h with h | h
        · exact Or.inl h
        · exact Or.inr (List.mem_cons_of_mem _ h)
      · rcases List.mem_cons.mp h with h | h
        · exact Or.inr (h ▸ List.mem_cons_self _ _)
        · rcases ih h with h | h
          · exact Or.inl h
          · exact Or.inr (List.mem_cons_of_mem _ h)

theorem IndexMap.mem_of_get {T : Type} {m : IndexMap T} {k : Nat} {w : T}
    (h : IndexMap.get m k = some w) : (k, w) ∈ m := by
  induction m with
  | nil => simp [IndexMap.get] at h
  | cons x rest ih =>
    obtain ⟨k', v'⟩ := x
    simp only [IndexMap.get] at h
    split at h
    · rename_i hk
      simp only [Option.some.injEq] at h
      subst hk; subst h
      exact List.mem_cons_self _ _
    · exact List.mem_cons_of_mem _ (ih h)

/-- A property of widgets that holds for every widget of a map still holds
after `m[k] = f w`, where `w` is the widget under `k` or a fresh widget. -/
theorem IndexMap.forall_assign_getD {T : Type} (P : T → Prop) (m : IndexMap T) (k : Nat)
    (f : T → T) (fresh : T) (hm : ∀ e ∈ m, P e.2) (hfresh : P fresh)
    (hf : ∀ w, P w → P (f w)) :
    ∀ e ∈ IndexMap.assign m k (f ((IndexMap.get m k).getD fresh)), P e.2 := by
  intro e he
  rcases IndexMap.mem_assign he with h | h
  · rw [h]
    apply hf
    cases hg : IndexMap.get m k with
    | none => exact hfresh
    | some w => exact hm _ (IndexMap.mem_of_get hg)
  · exact hm e h

theorem updateCard_fields_updating (info : pa_card_info) (w : CardWidget) :
    (updateCard_fields info w).updating = false := rfl

theorem updateSink_fields_guard (env : Env) (s : MainWindow) (info : pa_sink_info)
    (w : SinkWidget) :
    (updateSink_fields env s info w).updating = false ∧
    (updateSink_fields env s info w).guardLog = true :: true :: true :: w.guardLog := by
  cases h : env.HAVE_SINK_SET_FORMATS <;>
    simp [updateSink_fields, h, SinkWidget.setVolume, SinkWidget.setMute,
      SinkWidget.setDefault]

theorem updateSource_fields_guard (env : Env) (s : MainWindow) (info : pa_source_info)
    (w : SourceWidget) :
    (updateSource_fields env s info w).updating = false ∧
    (updateSource_fields env s info w).guardLog = true :: true :: true :: w.guardLog :=
  ⟨rfl, rfl⟩

theorem updateSinkInput_fields_guard (env : Env) (s : MainWindow) (info : pa_sink_input_info)
    (w : SinkInputWidget) :
    (updateSinkInput_fields env s info w).updating = false ∧
    (updateSinkInput_fields env s info w).guardLog = true :: true :: w.guardLog := by
  cases hc : s.clientNames.get info.client <;>
    simp [updateSinkInput_fields, hc, SinkInputWidget.setVolume, SinkInputWidget.setMute]

theorem updateSourceOutput_fields_guard (env : Env) (s : MainWindow)
    (info : pa_source_output_info) (w : SourceOutputWidget) :
    (updateSourceOutput_fields env s info w).updating = false ∧
    (updateSourceOutput_fields env s info w).guardLog =
      if env.HAVE_SOURCE_OUTPUT_VOLUMES then true :: true :: w.guardLog else w.guardLog := by
  cases h : env.HAVE_SOURCE_OUTPUT_VOLUMES <;>
    cases hc : s.clientNames.get info.client <;>
      simp [updateSourceOutput_fields, h, hc, SourceOutputWidget.setVolume,
        SourceOutputWidget.setMute]

theorem createMonitorStreamForSource_frame (env : Env) (s : MainWindow) (a b : Nat)
    (c : Bool) :
    ∃ st er, (createMonitorStreamForSource env s a b c).1
      = { s with streams := st, errors := er } := by
  rw [createMonitorStreamForSource_eq]
  cases h1 : env.stream_new_ok <;> cases h2 : env.connect_record_ok <;>
    simp only [show_error, Bool.false_eq_true, false_and, and_false, and_self, if_false,
      if_true] <;> exact ⟨_, _, rfl⟩

theorem createMonitorStreamForSinkInput_frame (env : Env) (s : MainWindow)
    (w : SinkInputWidget) (k : Nat) :
    (∃ st er, (createMonitorStreamForSinkInput env s w k).1
      = { s with streams := st, errors := er }) ∧
    (createMonitorStreamForSinkInput env s w k).2.updating = w.updating ∧
    (createMonitorStreamForSinkInput env s w k).2.guardLog = w.guardLog := by
  unfold createMonitorStreamForSinkInput
  cases hs : s.sinkWidgets.get k with
  | none => exact ⟨⟨s.streams, s.errors, rfl⟩, rfl, rfl⟩
  | some sw =>
    cases hp : w.peak with
    | none =>
      obtain ⟨st, er, h⟩ := createMonitorStreamForSource_frame env s sw.monitor_index
        w.index false
      exact ⟨⟨st, er, h⟩, rfl, rfl⟩
    | some p =>
      obtain ⟨st, er, h⟩ := createMonitorStreamForSource_frame env
        { s with streams := s.streams.erase p } sw.monitor_index w.index false
      exact ⟨⟨st, er, h⟩, rfl, rfl⟩

theorem updateCard_others (s : MainWindow) (info : pa_card_info) :
    (updateCard s info).sinkWidgets = s.sinkWidgets ∧
    (updateCard s info).sourceWidgets = s.sourceWidgets ∧
    (updateCard s info).sinkInputWidgets = s.sinkInputWidgets ∧
    (updateCard s info).sourceOutputWidgets = s.sourceOutputWidgets ∧
    (updateCard s info).eventRoleWidget = s.eventRoleWidget := by
  unfold updateCard
  cases h : s.cardWidgets.get info.index <;> simp

theorem updateSink_others (env : Env) (s : MainWindow) (info : pa_sink_info) :
    (updateSink env s info).1.cardWidgets = s.cardWidgets ∧
    (updateSink env s info).1.sourceWidgets = s.sourceWidgets ∧
    (updateSink env s info).1.sinkInputWidgets = s.sinkInputWidgets ∧
    (updateSink env s info).1.sourceOutputWidgets = s.sourceOutputWidgets ∧
    (updateSink env s info).1.eventRoleWidget = s.eventRoleWidget := by
  unfold updateSink
  cases h : s.sinkWidgets.get info.index <;> simp

theorem updateSource_others (env : Env) (s : MainWindow) (info : pa_source_info) :
    (updateSource env s info).cardWidgets = s.cardWidgets ∧
    (updateSource env s info).sinkWidgets = s.sinkWidgets ∧
    (updateSource env s info).sinkInputWidgets = s.sinkInputWidgets ∧
    (updateSource env s info).sourceOutputWidgets = s.sourceOutputWidgets ∧
    (updateSource env s info).eventRoleWidget = s.eventRoleWidget := by
  unfold updateSource
  cases h : s.sourceWidgets.get info.index with
  | some w => simp
  | none =>
    have hc : ∃ st er, (updateSource_create env s info).1
        = { s with streams := st, errors := er } := by
      unfold updateSource_create
      simp only
      split
      · exact createMonitorStreamForSource_frame _ _ _ _ _
      · exact ⟨s.streams, s.errors, rfl⟩
    obtain ⟨st, er, hc⟩ := hc
    simp [hc]

theorem updateSinkInput_others (env : Env) (s : MainWindow) (info : pa_sink_input_info) :
    (updateSinkInput env s info).cardWidgets = s.cardWidgets ∧
    (updateSinkInput env s info).sinkWidgets = s.sinkWidgets ∧
    (updateSinkInput env s info).sourceWidgets = s.sourceWidgets ∧
    (updateSinkInput env s info).sourceOutputWidgets = s.sourceOutputWidgets ∧
    (updateSinkInput env s info).eventRoleWidget = s.eventRoleWidget := by
  have hl : ∃ st er, (updateSinkInput_lookup env s info).1.1
      = { s with streams := st, errors := er } := by
    unfold updateSinkInput_lookup
    cases h : s.sinkInputWidgets.get info.index with
    | some w =>
      simp only
      split
      · exact (createMonitorStreamForSinkInput_frame env s w info.sink).1
      · exact ⟨s.streams, s.errors, rfl⟩
    | none =>
      simp only
      split
      · exact (createMonitorStreamForSinkInput_frame env s _ info.sink).1
      · exact ⟨s.streams, s.errors, rfl⟩
  obtain ⟨st, er, hl⟩ := hl
  unfold updateSinkInput
  cases hi : updateSinkInput_ignored info
  · simp only [Bool.false_eq_true, if_false]
    split <;> simp [hl]
  · simp

theorem updateSourceOutput_others (env : Env) (s : MainWindow)
    (info : pa_source_output_info) :
    (updateSourceOutput env s info).cardWidgets = s.cardWidgets ∧
    (updateSourceOutput env s info).sinkWidgets = s.sinkWidgets ∧
    (updateSourceOutput env s info).sourceWidgets = s.sourceWidgets ∧
    (updateSourceOutput env s info).sinkInputWidgets = s.sinkInputWidgets ∧
    (updateSourceOutput env s info).eventRoleWidget = s.eventRoleWidget := by
  unfold updateSourceOutput
  cases hi : updateSourceOutput_ignored info
  · cases h : s.sourceOutputWidgets.get info.index <;> simp
  · simp

theorem updateRole_maps (s : MainWindow) (info : pa_ext_stream_restore_info) :
    (updateRole s info).cardWidgets = s.cardWidgets ∧
    (updateRole s info).sinkWidgets = s.sinkWidgets ∧
    (updateRole s info).sourceWidgets = s.sourceWidgets ∧
    (updateRole s info).sinkInputWidgets = s.sinkInputWidgets ∧
    (updateRole s info).sourceOutputWidgets = s.sourceOutputWidgets := by
  unfold updateRole createEventRoleWidget
  split
  · exact ⟨rfl, rfl, rfl, rfl, rfl⟩
  · cases h : s.eventRoleWidget <;> simp

theorem updateRole_eventRoleWidget (s : MainWindow) (info : pa_ext_stream_restore_info) :
    (updateRole s info).eventRoleWidget = s.eventRoleWidget ∨
    ∃ w, (updateRole s info).eventRoleWidget = some w ∧ w.updating = false ∧
      ((∃ w0, s.eventRoleWidget = some w0 ∧ w.guardLog = true :: true :: w0.guardLog) ∨
       (s.eventRoleWidget = none ∧ w.guardLog = [true, true, true, true])) := by
  unfold updateRole createEventRoleWidget
  split
  · exact Or.inl rfl
  · right
    cases h : s.eventRoleWidget with
    | none =>
      refine ⟨_, by simp; rfl, ?_, Or.inr ⟨rfl, ?_⟩⟩ <;>
        simp [RoleWidget.setVolume, RoleWidget.setMute, RoleWidget.create]
    | some w0 =>
      refine ⟨_, by simp [h]; rfl, ?_, Or.inl ⟨w0, rfl, ?_⟩⟩ <;>
        simp [RoleWidget.setVolume, RoleWidget.setMute]

theorem updateSinkInput_lookup_guard (env : Env) (s : MainWindow)
    (info : pa_sink_input_info) :
    (updateSinkInput_lookup env s info).1.2.updating =
      ((s.sinkInputWidgets.get info.index).map (fun w => w.updating)).getD false ∧
    (updateSinkInput_lookup env s info).1.2.guardLog =
      ((s.sinkInputWidgets.get info.index).map (fun w => w.guardLog)).getD [] := by
  unfold updateSinkInput_lookup
  cases h : s.sinkInputWidgets.get info.index with
  | some w =>
    simp only
    split
    · exact ⟨(createMonitorStreamForSinkInput_frame env s w info.sink).2.1,
        (createMonitorStreamForSinkInput_frame env s w info.sink).2.2⟩
    · exact ⟨rfl, rfl⟩
  | none =>
    simp only
    split
    · exact ⟨(createMonitorStreamForSinkInput_frame env s _ info.sink).2.1,
        (createMonitorStreamForSinkInput_frame env s _ info.sink).2.2⟩
    · exact ⟨rfl, rfl⟩

theorem all_true_cons {l : List Bool} (h : ∀ b ∈ l, b = true) :
    ∀ b ∈ true :: l, b = true := by
  intro b hb
  rcases List.mem_cons.mp hb with hb | hb
  · exact hb
  · exact h b hb

theorem updateServer_sinkWidgets (s : MainWindow) (info : pa_server_info) :
    (updateServer s info).sinkWidgets = s.sinkWidgets.mapValues (fun w =>
      { ({ w with updating := true } : SinkWidget).setDefault
          (decide (w.name = info.default_sink_name.getD "")) with updating := false }) := rfl

theorem updateServer_sourceWidgets (s : MainWindow) (info : pa_server_info) :
    (updateServer s info).sourceWidgets = s.sourceWidgets.mapValues (fun w =>
      { ({ w with updating := true } : SourceWidget).setDefault
          (decide (w.name = info.default_source_name.getD "")) with updating := false }) := rfl

theorem UpdateCall.run_guarded (s : MainWindow) (hs : s.Guarded) (c : UpdateCall) :
    (UpdateCall.run s c).Guarded := by
  obtain ⟨hcard, hsink, hsource, hsi, hso, hrole⟩ := hs
  cases c with
  | card info =>
    obtain ⟨h1, h2, h3, h4, h5⟩ := updateCard_others s info
    refine ⟨?_, ?_, ?_, ?_, ?_, ?_⟩
    · show ∀ e ∈ (updateCard s info).cardWidgets, e.2.updating = false
      rw [updateCard_cardWidgets]
      exact IndexMap.forall_assign_getD (fun w : CardWidget => w.updating = false) _ _
        (updateCard_fields info) _ hcard rfl (fun _ _ => rfl)
    · show ∀ e ∈ (updateCard s info).sinkWidgets, _
      rw [h1]; exact hsink
    · show ∀ e ∈ (updateCard s info).sourceWidgets, _
      rw [h2]; exact hsource
    · show ∀ e ∈ (updateCard s info).sinkInputWidgets, _
      rw [h3]; exact hsi
    · show ∀ e ∈ (updateCard s info).sourceOutputWidgets, _
      rw [h4]; exact hso
    · show ∀ w, (updateCard s info).eventRoleWidget = some w → _
      rw [h5]; exact hrole
  | sink env info =>
    obtain ⟨h1, h2, h3, h4, h5⟩ := updateSink_others env s info
    refine ⟨?_, ?_, ?_, ?_, ?_, ?_⟩
    · show ∀ e ∈ (updateSink env s info).1.cardWidgets, _
      rw [h1]; exact hcard
    · show ∀ e ∈ (updateSink env s info).1.sinkWidgets, _
      rw [updateSink_sinkWidgets]
      refine IndexMap.forall_assign_getD
        (fun w : SinkWidget => w.updating = false ∧ ∀ b ∈ w.guardLog, b = true) _ _
        (updateSink_fields env s info) _ hsink ⟨rfl, fun b hb => by cases hb⟩ ?_
      intro w hw
      obtain ⟨g1, g2⟩ := updateSink_fields_guard env s info w
      exact ⟨g1, g2 ▸ all_true_cons (all_true_cons (all_true_cons hw.2))⟩
    · show ∀ e ∈ (updateSink env s info).1.sourceWidgets, _
      rw [h2]; exact hsource
    · show ∀ e ∈ (updateSink env s info).1.sinkInputWidgets, _
      rw [h3]; exact hsi
    · show ∀ e ∈ (updateSink env s info).1.sourceOutputWidgets, _
      rw [h4]; exact hso
    · show ∀ w, (updateSink env s info).1.eventRoleWidget = some w → _
      rw [h5]; exact hrole
  | source env info =>
    obtain ⟨h1, h2, h3, h4, h5⟩ := updateSource_others env s info
    obtain ⟨s0, h0⟩ := updateSource_sourceWidgets env s info
    refine ⟨?_, ?_, ?_, ?_, ?_, ?_⟩
    · show ∀ e ∈ (updateSource env s info).cardWidgets, _
      rw [h1]; exact hcard
    · show ∀ e ∈ (updateSource env s info).sinkWidgets, _
      rw [h2]; exact hsink
    · show ∀ e ∈ (updateSource env s info).sourceWidgets, _
      rw [h0]
      refine IndexMap.forall_assign_getD
        (fun w : SourceWidget => w.updating = false ∧ ∀ b ∈ w.guardLog, b = true) _ _
        (updateSource_fields env s0 info) _ hsource ⟨rfl, fun b hb => by cases hb⟩ ?_
      intro w hw
      obtain ⟨g1, g2⟩ := updateSource_fields_guard env s0 info w
      exact ⟨g1, g2 ▸ all_true_cons (all_true_cons (all_true_cons hw.2))⟩
    · show ∀ e ∈ (updateSource env s info).sinkInputWidgets, _
      rw [h3]; exact hsi
    · show ∀ e ∈ (updateSource env s info).sourceOutputWidgets, _
      rw [h4]; exact hso
    · show ∀ w, (updateSource env s info).eventRoleWidget = some w → _
      rw [h5]; exact hrole
  | sinkInput env info =>
    obtain ⟨h1, h2, h3, h4, h5⟩ := updateSinkInput_others env s info
    refine ⟨?_, ?_, ?_, ?_, ?_, ?_⟩
    · show ∀ e ∈ (updateSinkInput env s info).cardWidgets, _
      rw [h1]; exact hcard
    · show ∀ e ∈ (updateSinkInput env s info).sinkWidgets, _
      rw [h2]; exact hsink
    · show ∀ e ∈ (updateSinkInput env s info).sourceWidgets, _
      rw [h3]; exact hsource
    · show ∀ e ∈ (updateSinkInput env s info).sinkInputWidgets, _
      cases hi : updateSinkInput_ignored info
      · rw [updateSinkInput_sinkInputWidgets env s info hi]
        intro e he
        rcases IndexMap.mem_assign he with h | h
        · rw [h]
          obtain ⟨g1, g2⟩ := updateSinkInput_fields_guard env
            (updateSinkInput_lookup env s info).1.1 info
            (updateSinkInput_lookup env s info).1.2
          refine ⟨g1, ?_⟩
          show ∀ b ∈ (updateSinkInput_fields env (updateSinkInput_lookup env s info).1.1 info
            (updateSinkInput_lookup env s info).1.2).guardLog, b = true
          rw [g2, (updateSinkInput_lookup_guard env s info).2]
          apply all_true_cons
          apply all_true_cons
          cases hg : s.sinkInputWidgets.get info.index with
          | none => intro b hb; cases hb
          | some w => exact (hsi _ (IndexMap.mem_of_get hg)).2
        · exact hsi e h
      · rw [updateSinkInput_of_ignored env s info hi]; exact hsi
    · show ∀ e ∈ (updateSinkInput env s info).sourceOutputWidgets, _
      rw [h4]; exact hso
    · show ∀ w, (updateSinkInput env s info).eventRoleWidget = some w → _
      rw [h5]; exact hrole
  | sourceOutput env info =>
    obtain ⟨h1, h2, h3, h4, h5⟩ := updateSourceOutput_others env s info
    refine ⟨?_, ?_, ?_, ?_, ?_, ?_⟩
    · show ∀ e ∈ (updateSourceOutput env s info).cardWidgets, _
      rw [h1]; exact hcard
    · show ∀ e ∈ (updateSourceOutput env s info).sinkWidgets, _
      rw [h2]; exact hsink
    · show ∀ e ∈ (updateSourceOutput env s info).sourceWidgets, _
      rw [h3]; exact hsource
    · show ∀ e ∈ (updateSourceOutput env s info).sinkInputWidgets, _
      rw [h4]; exact hsi
    · show ∀ e ∈ (updateSourceOutput env s info).sourceOutputWidgets, _
      cases hi : updateSourceOutput_ignored info
      · rw [updateSourceOutput_sourceOutputWidgets env s info hi]
        refine IndexMap.forall_assign_getD
          (fun w : SourceOutputWidget => w.updating = false ∧ ∀ b ∈ w.guardLog, b = true) _ _
          (updateSourceOutput_fields env s info) _ hso ?_ ?_
        · unfold updateSourceOutput_create
          simp only
          split <;> exact ⟨rfl, fun b hb => by cases hb⟩
        · intro w hw
          obtain ⟨g1, g2⟩ := updateSourceOutput_fields_guard env s info w
          refine ⟨g1, ?_⟩
          show ∀ b ∈ (updateSourceOutput_fields env s info w).guardLog, b = true
          rw [g2]
          split
          · exact all_true_cons (all_true_cons hw.2)
          · exact hw.2
      · rw [updateSourceOutput_of_ignored env s info hi]; exact hso
    · show ∀ w, (updateSourceOutput env s info).eventRoleWidget = some w → _
      rw [h5]; exact hrole
  | server info =>
    refine ⟨hcard, ?_, ?_, hsi, hso, hrole⟩
    · show ∀ e ∈ (updateServer s info).sinkWidgets, _
      intro e he
      rw [updateServer_sinkWidgets] at he
      obtain ⟨e0, h0, rfl⟩ := (mem_mapValues _ _ e).1 he
      exact ⟨rfl, all_true_cons (hsink e0 h0).2⟩
    · show ∀ e ∈ (updateServer s info).sourceWidgets, _
      intro e he
      rw [updateServer_sourceWidgets] at he
      obtain ⟨e0, h0, rfl⟩ := (mem_mapValues _ _ e).1 he
      exact ⟨rfl, all_true_cons (hsource e0 h0).2⟩
  | role info =>
    obtain ⟨h1, h2, h3, h4, h5⟩ := updateRole_maps s info
    refine ⟨?_, ?_, ?_, ?_, ?_, ?_⟩
    · show ∀ e ∈ (updateRole s info).cardWidgets, _
      rw [h1]; exact hcard
    · show ∀ e ∈ (updateRole s info).sinkWidgets, _
      rw [h2]; exact hsink
    · show ∀ e ∈ (updateRole s info).sourceWidgets, _
      rw [h3]; exact hsource
    · show ∀ e ∈ (updateRole s info).sinkInputWidgets, _
      rw [h4]; exact hsi
    · show ∀ e ∈ (updateRole s info).sourceOutputWidgets, _
      rw [h5]; exact hso
    · show ∀ w, (updateRole s info).eventRoleWidget = some w → _
      intro w hw
      rcases updateRole_eventRoleWidget s info with h | ⟨w', hw', hu, hl⟩
      · rw [h] at hw; exact hrole w hw
      · rw [hw'] at hw
        cases hw
        refine ⟨hu, ?_⟩
        rcases hl with ⟨w0, hw0, hl⟩ | ⟨_, hl⟩
        · rw [hl]; exact all_true_cons (all_true_cons (hrole w0 hw0).2)
        · rw [hl]; intro b hb; simp at hb; exact hb

/-- C17: from a state in which no widget is updating and every logged write
of a volume, mute state or default flag was made under the guard, any
sequence of updateCard, updateSink, updateSource, updateSinkInput,
updateSourceOutput, updateServer and updateRole calls leads to such a state
again: once a call has returned every registered widget and the role widget
have updating false, and every such write the calls made found updating
true. The writes themselves are on record: updateSink and updateSource log
three guarded writes on the widget they update, updateSinkInput two,
updateSourceOutput two when stream volumes are compiled in, and updateServer
one on every sink and source. -/
theorem updating_guard_invariant (s : MainWindow) (hs : s.Guarded) :
    (∀ calls : List UpdateCall, (calls.foldl UpdateCall.run s).Guarded) ∧
    (∀ (env : Env) (info : pa_sink_info),
      ∃ w', (updateSink env s info).1.sinkWidgets.get info.index = some w' ∧
        w'.updating = false ∧
        w'.guardLog = true :: true :: true ::
          ((s.sinkWidgets.get info.index).map (fun w => w.guardLog)).getD []) ∧
    (∀ (env : Env) (info : pa_source_info),
      ∃ w', (updateSource env s info).sourceWidgets.get info.index = some w' ∧
        w'.updating = false ∧
        w'.guardLog = true :: true :: true ::
          ((s.sourceWidgets.get info.index).map (fun w => w.guardLog)).getD []) ∧
    (∀ (env : Env) (info : pa_sink_input_info), updateSinkInput_ignored info = false →
      ∃ w', (updateSinkInput env s info).sinkInputWidgets.get info.index = some w' ∧
        w'.updating = false ∧
        w'.guardLog = true :: true ::
          ((s.sinkInputWidgets.get info.index).map (fun w => w.guardLog)).getD []) ∧
    (∀ (env : Env) (info : pa_source_output_info),
      updateSourceOutput_ignored info = false →
      ∃ w', (updateSourceOutput env s info).sourceOutputWidgets.get info.index = some w' ∧
        w'.updating = false ∧
        w'.guardLog =
          if env.HAVE_SOURCE_OUTPUT_VOLUMES then true :: true ::
            ((s.sourceOutputWidgets.get info.index).map (fun w => w.guardLog)).getD []
          else ((s.sourceOutputWidgets.get info.index).map (fun w => w.guardLog)).getD []) ∧
    (∀ (info : pa_server_info) (i : Nat) (w : SinkWidget), s.sinkWidgets.get i = some w →
      ∃ w', (updateServer s info).sinkWidgets.get i = some w' ∧
        w'.updating = false ∧ w'.guardLog = true :: w.guardLog) ∧
    (∀ (info : pa_server_info) (i : Nat) (w : SourceWidget), s.sourceWidgets.get i = some w →
      ∃ w', (updateServer s info).sourceWidgets.get i = some w' ∧
        w'.updating = false ∧ w'.guardLog = true :: w.guardLog) := by
  refine ⟨?_, ?_, ?_, ?_, ?_, ?_, ?_⟩
  · intro calls
    induction calls generalizing s with
    | nil => exact hs
    | cons c rest ih => exact ih (UpdateCall.run s c) (UpdateCall.run_guarded s hs c)
  · intro env info
    refine ⟨updateSink_fields env s info
      ((s.sinkWidgets.get info.index).getD (updateSink_create info)), ?_, ?_, ?_⟩
    · rw [updateSink_sinkWidgets]; exact IndexMap.get_assign_self _ _ _
    · exact (updateSink_fields_guard env s info _).1
    · rw [(updateSink_fields_guard env s info _).2]
      cases s.sinkWidgets.get info.index <;> rfl
  · intro env info
    obtain ⟨s0, h0⟩ := updateSource_sourceWidgets env s info
    refine ⟨updateSource_fields env s0 info
      ((s.sourceWidgets.get info.index).getD (updateSource_create env s info).2), ?_, ?_, ?_⟩
    · rw [h0]; exact IndexMap.get_assign_self _ _ _
    · exact (updateSource_fields_guard env s0 info _).1
    · rw [(updateSource_fields_guard env s0 info _).2]
      cases s.sourceWidgets.get info.index <;> rfl
  · intro env info hi
    refine ⟨updateSinkInput_fields env (updateSinkInput_lookup env s info).1.1 info
      (updateSinkInput_lookup env s info).1.2, ?_, ?_, ?_⟩
    · rw [updateSinkInput_sinkInputWidgets env s info hi]
      exact IndexMap.get_assign_self _ _ _
    · exact (updateSinkInput_fields_guard env _ info _).1
    · rw [(updateSinkInput_fields_guard env _ info _).2,
        (updateSinkInput_lookup_guard env s info).2]
  · intro env info hi
    refine ⟨updateSourceOutput_fields env s info
      ((s.sourceOutputWidgets.get info.index).getD (updateSourceOutput_create env info)),
      ?_, ?_, ?_⟩
    · rw [updateSourceOutput_sourceOutputWidgets env s info hi]
      exact IndexMap.get_assign_self _ _ _
    · exact (updateSourceOutput_fields_guard env s info _).1
    · rw [(updateSourceOutput_fields_guard env s info _).2]
      have hc : (updateSourceOutput_create env info).guardLog = [] := by
        unfold updateSourceOutput_create
        simp only
        split <;> rfl
      cases s.sourceOutputWidgets.get info.index with
      | none => simp [hc]
      | some w => rfl
  · intro info i w h
    rw [updateServer_sinkWidgets, IndexMap.get_mapValues, h]
    exact ⟨_, rfl, rfl, rfl⟩
  · intro info i w h
    rw [updateServer_sourceWidgets, IndexMap.get_mapValues, h]
    exact ⟨_, rfl, rfl, rfl⟩

/-- Witness for C17: the freshly constructed window satisfies the invariant,
and so does the window after a sink, a playback stream, a server and an
event-role snapshot have been processed. -/
theorem updating_guard_invariant_witness :
    MainWindow.init.Guarded ∧
    (List.foldl UpdateCall.run MainWindow.init
      [UpdateCall.sink exampleEnv speakersSink,
       UpdateCall.sinkInput exampleEnv playbackOnSpeakers,
       UpdateCall.server ⟨some "alsa_output.analog-stereo", none⟩,
       UpdateCall.role ⟨"sink-input-by-media-role:event", none, [65536], false⟩]).Guarded :=
  ⟨by simp [MainWindow.Guarded, MainWindow.init],
   (updating_guard_invariant MainWindow.init
      (by simp [MainWindow.Guarded, MainWindow.init])).1 _⟩

/-! ## C18: options that share priority and name -/

section Collapse

variable {α : Type} {comp : α → α → Bool} {key : α → Nat × String}

theorem set_insert_of_key_mem (hc : ∀ x y, comp x y = true ↔ prioBefore (key x) (key y))
    (x : α) {s : List α} (hs : s.Pairwise (fun a b => prioBefore (key a) (key b)))
    (hx : key x ∈ s.map key) : set_insert comp x s = s := by
  induction s with
  | nil => simp at hx
  | cons y ys ih =>
    have hp := List.pairwise_cons.mp hs
    have hnot : comp x y = false := by
      cases hcxy : comp x y with
      | false => rfl
      | true =>
        exfalso
        have hxy := (hc x y).1 hcxy
        rcases List.mem_cons.mp hx with h | h
        · rw [h] at hxy
          exact prioBefore_irrefl _ hxy
        · obtain ⟨z, hz, ez⟩ := List.mem_map.mp h
          have hyz := hp.1 z hz
          rw [ez] at hyz
          exact prioBefore_asymm hxy hyz
    simp only [set_insert, hnot, Bool.false_eq_true, if_false]
    split
    · rename_i hyx
      have hne : key x ≠ key y := by
        intro e
        have := (hc y x).1 hyx
        rw [e] at this
        exact prioBefore_irrefl _ this
      have hx' : key x ∈ ys.map key := by
        rcases List.mem_cons.mp hx with h | h
        · exact absurd h hne
        · exact h
      rw [ih hp.2 hx']
    · rfl

theorem self_mem_set_insert (hc : ∀ x y, comp x y = true ↔ prioBefore (key x) (key y))
    (x : α) {s : List α} (hx : key x ∉ s.map key) : x ∈ set_insert comp x s := by
  induction s with
  | nil => simp [set_insert]
  | cons y ys ih =>
    simp only [set_insert]
    split
    · exact List.mem_cons_self _ _
    · split
      · apply List.mem_cons_of_mem
        apply ih
        intro h
        exact hx (List.mem_cons_of_mem _ h)
      · rename_i h1 h2
        exfalso
        apply hx
        have e : key x = key y :=
          prioBefore_eq_of_not (fun h => h1 ((hc x y).2 h)) (fun h => h2 ((hc y x).2 h))
        rw [e]
        exact List.mem_cons_self _ _

/-- While the insertion loop runs over `rest`, having already consumed `done`,
every element of the set is the first option of `done` with its key, and the
set's keys are the keys seen so far. -/
theorem set_fold_first_wins (hc : ∀ x y, comp x y = true ↔ prioBefore (key x) (key y))
    (rest : List α) : ∀ (s done : List α),
      s.Pairwise (fun a b => prioBefore (key a) (key b)) →
      (∀ k, k ∈ s.map key ↔ k ∈ done.map key) →
      (∀ x ∈ s, done.find? (fun y => decide (key y = key x)) = some x) →
      ∀ x ∈ rest.foldl (fun s x => set_insert comp x s) s,
        (done ++ rest).find? (fun y => decide (key y = key x)) = some x := by
  induction rest with
  | nil =>
    intro s done _ _ hfirst x hx
    rw [List.append_nil]
    exact hfirst x hx
  | cons y ys ih =>
    intro s done hs hkeys hfirst x hx
    rw [List.foldl_cons] at hx
    have happ : done ++ y :: ys = (done ++ [y]) ++ ys := by simp
    rw [happ]
    refine ih (set_insert comp y s) (done ++ [y]) (pairwise_set_insert hc y hs) ?_ ?_ x hx
    · intro k
      constructor
      · intro hk
        obtain ⟨z, hz, ez⟩ := List.mem_map.mp hk
        rcases mem_set_insert hz with h | h
        · rw [← ez, h]; simp
        · have := (hkeys k).1 (List.mem_map.mpr ⟨z, h, ez⟩)
          simp only [List.map_append, List.mem_append]
          exact Or.inl this
      · intro hk
        simp only [List.map_append, List.mem_append, List.map_cons, List.map_nil,
          List.mem_singleton] at hk
        rcases hk with h | h
        · obtain ⟨z, hz, ez⟩ := List.mem_map.mp ((hkeys k).2 h)
          exact List.mem_map.mpr ⟨z, subset_set_insert y s z hz, ez⟩
        · rw [h]; exact key_mem_set_insert_self hc y s
    · intro z hz
      rw [List.find?_append]
      by_cases hy : key y ∈ s.map key
      · rw [set_insert_of_key_mem hc y hs hy] at hz
        rw [hfirst z hz]
        rfl
      · rcases mem_set_insert hz with h | h
        · have hnone : done.find? (fun w => decide (key w = key z)) = none := by
            rw [List.find?_eq_none]
            intro w hw
            simp only [decide_eq_true_eq]
            intro e
            apply hy
            rw [h] at e
            rw [← e]
            exact (hkeys _).2 (List.mem_map.mpr ⟨w, hw, rfl⟩)
          rw [hnone, h]
          simp
        · rw [hfirst z h]
          rfl

theorem set_build_first_wins (hc : ∀ x y, comp x y = true ↔ prioBefore (key x) (key y))
    (l : List α) : ∀ x ∈ set_build comp l,
      l.find? (fun y => decide (key y = key x)) = some x := by
  have := set_fold_first_wins hc l [] [] List.Pairwise.nil (fun k => by simp)
    (fun x hx => by cases hx)
  simpa using this

theorem set_build_keys_nodup (hc : ∀ x y, comp x y = true ↔ prioBefore (key x) (key y))
    (l : List α) : ((set_build comp l).map key).Nodup := by
  have hp : ((set_build comp l).map key).Pairwise prioBefore :=
    (List.pairwise_map).2 (pairwise_set_build hc l)
  exact hp.imp (fun {a b} (h : prioBefore a b) (e : a = b) => prioBefore_irrefl b (e ▸ h))

theorem set_build_keys_mem (hc : ∀ x y, comp x y = true ↔ prioBefore (key x) (key y))
    (l : List α) (k : Nat × String) :
    k ∈ (set_build comp l).map key ↔ k ∈ l.map key := by
  constructor
  · intro h
    obtain ⟨z, hz, e⟩ := List.mem_map.mp h
    exact List.mem_map.mpr ⟨z, mem_set_build hz, e⟩
  · intro h
    obtain ⟨z, hz, e⟩ := List.mem_map.mp h
    exact e ▸ key_mem_set_build hc hz

theorem set_build_length (hc : ∀ x y, comp x y = true ↔ prioBefore (key x) (key y))
    (l : List α) :
    (set_build comp l).length = ((l.map key).dedup).length ∧
    (set_build comp l).length ≤ l.length := by
  have hperm : ((set_build comp l).map key).Perm ((l.map key).dedup) :=
    (List.perm_ext_iff_of_nodup (set_build_keys_nodup hc l) (List.nodup_dedup _)).2
      (fun k => by rw [set_build_keys_mem hc l k, List.mem_dedup])
  have h1 : (set_build comp l).length = ((l.map key).dedup).length := by
    rw [← hperm.length_eq, List.length_map]
  refine ⟨h1, ?_⟩
  rw [h1]
  calc ((l.map key).dedup).length ≤ (l.map key).length :=
        (List.dedup_sublist _).length_le
    _ = l.length := List.length_map _ _

end Collapse

/-- C18: the list built for a card's profiles, a sink's ports or a source's
ports is the projection of a set that holds exactly one option per distinct
(priority, name) pair of the input: its pairs are without repetition and are
exactly the pairs occurring in the input, so the list is as long as the
number of distinct pairs and no longer than the input; and the option kept
for a pair, hence the description shown, is the first option of the input
with that pair. Ports (a,1,X), (a,1,Y), (b,1,Z) give b with Z, then a
with X. -/
theorem builder_collapses_equal_priority_and_name :
    (∀ l : List pa_card_profile_info,
      card_profiles l = (set_build profile_prio_compare l).map (fun i => (i.name, i.description)) ∧
      ((set_build profile_prio_compare l).map (fun i => (i.priority, i.name))).Nodup ∧
      (∀ k, k ∈ (set_build profile_prio_compare l).map (fun i => (i.priority, i.name)) ↔
        k ∈ l.map (fun i => (i.priority, i.name))) ∧
      (card_profiles l).length = ((l.map (fun i => (i.priority, i.name))).dedup).length ∧
      (card_profiles l).length ≤ l.length ∧
      (∀ x ∈ set_build profile_prio_compare l,
        l.find? (fun y => decide ((y.priority, y.name) = (x.priority, x.name))) = some x)) ∧
    (∀ l : List pa_sink_port_info,
      sink_ports l = (set_build sink_port_prio_compare l).map (fun i => (i.name, i.description)) ∧
      ((set_build sink_port_prio_compare l).map (fun i => (i.priority, i.name))).Nodup ∧
      (∀ k, k ∈ (set_build sink_port_prio_compare l).map (fun i => (i.priority, i.name)) ↔
        k ∈ l.map (fun i => (i.priority, i.name))) ∧
      (sink_ports l).length = ((l.map (fun i => (i.priority, i.name))).dedup).length ∧
      (sink_ports l).length ≤ l.length ∧
      (∀ x ∈ set_build sink_port_prio_compare l,
        l.find? (fun y => decide ((y.priority, y.name) = (x.priority, x.name))) = some x)) ∧
    (∀ l : List pa_source_port_info,
      source_ports l = (set_build source_port_prio_compare l).map (fun i => (i.name, i.description)) ∧
      ((set_build source_port_prio_compare l).map (fun i => (i.priority, i.name))).Nodup ∧
      (∀ k, k ∈ (set_build source_port_prio_compare l).map (fun i => (i.priority, i.name)) ↔
        k ∈ l.map (fun i => (i.priority, i.name))) ∧
      (source_ports l).length = ((l.map (fun i => (i.priority, i.name))).dedup).length ∧
      (source_ports l).length ≤ l.length ∧
      (∀ x ∈ set_build source_port_prio_compare l,
        l.find? (fun y => decide ((y.priority, y.name) = (x.priority, x.name))) = some x)) ∧
    sink_ports [⟨"a", "X", 1⟩, ⟨"a", "Y", 1⟩, ⟨"b", "Z", 1⟩] = [("b", "Z"), ("a", "X")] := by
  refine ⟨?_, ?_, ?_, by decide⟩
  · intro l
    have hlen := @set_build_length _ _ (fun i : pa_card_profile_info => (i.priority, i.name))
      profile_prio_compare_iff l
    refine ⟨rfl, ?_, ?_, ?_, ?_, ?_⟩
    · exact @set_build_keys_nodup _ _ (fun i : pa_card_profile_info => (i.priority, i.name))
        profile_prio_compare_iff l
    · exact @set_build_keys_mem _ _ (fun i : pa_card_profile_info => (i.priority, i.name))
        profile_prio_compare_iff l
    · simp only [card_profiles, List.length_map]
      exact hlen.1
    · simp only [card_profiles, List.length_map]
      exact hlen.2
    · exact @set_build_first_wins _ _ (fun i : pa_card_profile_info => (i.priority, i.name))
        profile_prio_compare_iff l
  · intro l
    have hlen := @set_build_length _ _ (fun i : pa_sink_port_info => (i.priority, i.name))
      sink_port_prio_compare_iff l
    refine ⟨rfl, ?_, ?_, ?_, ?_, ?_⟩
    · exact @set_build_keys_nodup _ _ (fun i : pa_sink_port_info => (i.priority, i.name))
        sink_port_prio_compare_iff l
    · exact @set_build_keys_mem _ _ (fun i : pa_sink_port_info => (i.priority, i.name))
        sink_port_prio_compare_iff l
    · simp only [sink_ports, List.length_map]
      exact hlen.1
    · simp only [sink_ports, List.length_map]
      exact hlen.2
    · exact @set_build_first_wins _ _ (fun i : pa_sink_port_info => (i.priority, i.name))
        sink_port_prio_compare_iff l
  · intro l
    have hlen := @set_build_length _ _ (fun i : pa_source_port_info => (i.priority, i.name))
      source_port_prio_compare_iff l
    refine ⟨rfl, ?_, ?_, ?_, ?_, ?_⟩
    · exact @set_build_keys_nodup _ _ (fun i : pa_source_port_info => (i.priority, i.name))
        source_port_prio_compare_iff l
    · exact @set_build_keys_mem _ _ (fun i : pa_source_port_info => (i.priority, i.name))
        source_port_prio_compare_iff l
    · simp only [source_ports, List.length_map]
      exact hlen.1
    · simp only [source_ports, List.length_map]
      exact hlen.2
    · exact @set_build_first_wins _ _ (fun i : pa_source_port_info => (i.priority, i.name))
        source_port_prio_compare_iff l

end Pavucontrol
